import Mathlib

set_option linter.unusedVariables false

/-
Verification of the EDHelper event-reconstruction core against its
natural-language specification.

The development shallowly embeds the Python sources under src/edc:
  * core/event_engine.py   (EventEngine.process and its helpers)
  * engine/handlers/{inventory,exploration,exobio,powerplay,misc}.py
  * core/planet_values.py  (PlanetValueTable)
  * core/exo_values.py     (ExoValueTable)
  * core/journal_watcher.py (the pure event-selection part of
    JournalWatcher.bootstrap of the newest system)

Decoded journal events are JSON-like dynamically typed values, modelled by
the inductive type JVal below.  Python dictionaries are modelled as
association lists in insertion order (dictionaries produced by json.loads
never contain duplicate keys; assignment to an existing key replaces the
value in place, assignment to a new key appends).  Python exceptions are
modelled by running the engine in a state-plus-error monad PyM: an
operation that raises carries the partially mutated state with it, exactly
as mutation of the shared state object does in the source.  Machine
integers are modelled as Int (Python integers are unbounded).  Floating
point numbers never occur in the inputs used by any theorem below; the one
place the source applies float() to a journal-provided int
(PowerplayConflictProgress) is modelled as the identity on the numeric
value.
-/

/-- A decoded JSON value, as produced by json.loads in the watcher. -/
inductive JVal : Type where
  | null : JVal
  | bool : Bool → JVal
  | int : Int → JVal
  | str : String → JVal
  | arr : List JVal → JVal
  | obj : List (String × JVal) → JVal

/-- A decoded JSON object (a Python dict), in insertion order. -/
abbrev JObj := List (String × JVal)

/-- Python truthiness of a decoded value: None, False, 0, "", [], {} are falsy. -/
def truthy : JVal → Bool
  | .null => false
  | .bool b => b
  | .int n => n != 0
  | .str s => s != ""
  | .arr [] => false
  | .arr (_ :: _) => true
  | .obj [] => false
  | .obj (_ :: _) => true

mutual

/-- Python equality on decoded values; bool and int compare numerically
(True == 1, False == 0), mirroring CPython semantics. -/
def pyEq : JVal → JVal → Bool
  | .null, .null => true
  | .bool a, .bool b => a == b
  | .bool a, .int n => (if a then (1 : Int) else 0) == n
  | .int n, .bool a => n == (if a then (1 : Int) else 0)
  | .int a, .int b => a == b
  | .str a, .str b => a == b
  | .arr a, .arr b => pyEqList a b
  | .obj a, .obj b => pyEqObj a b
  | _, _ => false

/-- Elementwise Python equality of two decoded lists. -/
def pyEqList : List JVal → List JVal → Bool
  | [], [] => true
  | a :: as, b :: bs => pyEq a b && pyEqList as bs
  | _, _ => false

/-- Pairwise Python equality of two decoded objects (Python compares
dicts by content; decoded events never carry duplicate keys, so ordered
pairwise comparison is used only on identically-constructed objects). -/
def pyEqObj : List (String × JVal) → List (String × JVal) → Bool
  | [], [] => true
  | (k1, v1) :: as, (k2, v2) :: bs => k1 == k2 && pyEq v1 v2 && pyEqObj as bs
  | _, _ => false

end

/-- Lookup in an association list (first binding; Python dicts never
hold a key twice, so first-wins agrees with dict lookup). -/
def alGet? {α : Type} [BEq α] {β : Type} : List (α × β) → α → Option β
  | [], _ => none
  | p :: rest, k => if p.1 == k then some p.2 else alGet? rest k

/-- d[k] = v on an association list: replace the binding in place if the
key is present, append otherwise (Python dict update order semantics). -/
def alSet {α : Type} [BEq α] {β : Type} : List (α × β) → α → β → List (α × β)
  | [], k, v => [(k, v)]
  | p :: rest, k, v =>
      if p.1 == k then (k, v) :: rest else p :: alSet rest k v

/-- del d[k] / d.pop(k, None): drop the binding of the key. -/
def alPop {α : Type} [BEq α] {β : Type} (d : List (α × β)) (k : α) :
    List (α × β) :=
  d.filter (fun p => p.1 != k)

/-- dict.get with a default. -/
def jgetD (e : JObj) (k : String) (d : JVal) : JVal :=
  match alGet? e k with
  | some v => v
  | none => d

/-- dict.get(k): missing keys read as None, as in event.get(k). -/
def jget (e : JObj) (k : String) : JVal :=
  jgetD e k .null

/-- The "k in d" membership test on a decoded object. -/
def jmem (e : JObj) (k : String) : Bool :=
  e.any (fun p => p.1 == k)

/-- dict.update(other): fold the other dict's pairs in, in order. -/
def objUpdate (d : JObj) (upd : JObj) : JObj :=
  upd.foldl (fun acc p => alSet acc p.1 p.2) d

/-- str(v): the Python textual form of a decoded value, as interpolated by
f-strings.  Containers only ever reach this via scalar fields in the
sources modelled here, so their rendering is best-effort. -/
def pyStr : JVal → String
  | .null => "None"
  | .bool b => if b then "True" else "False"
  | .int n => toString n
  | .str s => s
  | .arr _ => "[...]"
  | .obj _ => "{...}"

/-- Python str.strip(): ASCII whitespace trim (the journal is ASCII). -/
def pyStrip (s : String) : String :=
  String.mk (((s.data.dropWhile Char.isWhitespace).reverse.dropWhile
    Char.isWhitespace).reverse)

/-- Python str.lower() on ASCII text. -/
def pyLower (s : String) : String :=
  String.mk (s.data.map Char.toLower)

/-- Split a character list at every character satisfying the predicate;
the empty list splits to one empty piece, so the result is never
empty. -/
def splitOnPredL (p : Char → Bool) : List Char → List (List Char)
  | [] => [[]]
  | a :: as =>
      match splitOnPredL p as with
      | [] => [[]]
      | h :: t => if p a then [] :: h :: t else (a :: h) :: t

/-- Python str.split() with no argument: split on whitespace runs,
dropping empty pieces. -/
def pyWords (s : String) : List String :=
  ((splitOnPredL Char.isWhitespace s.data).map List.asString).filter
    (fun w => w != "")

/-- sep.join(words). -/
def joinSep (sep : String) : List String → String
  | [] => ""
  | [w] => w
  | w :: rest => w ++ sep ++ joinSep sep rest

/-- " ".join(words). -/
def joinSpace (ws : List String) : String :=
  joinSep " " ws

/-- Python s.split(sep) for a single-character separator. -/
def splitOnCharL (c : Char) (l : List Char) : List (List Char) :=
  splitOnPredL (fun a => a == c) l

/-- Python s.split("|") on strings. -/
def splitPipe (s : String) : List String :=
  (splitOnCharL '|' s.data).map List.asString

/-- Is the first list an initial segment of the second. -/
def listPref {α : Type} [BEq α] : List α → List α → Bool
  | [], _ => true
  | _ :: _, [] => false
  | a :: as, b :: bs => a == b && listPref as bs

/-- Python s.startswith(p). -/
def strStarts (s p : String) : Bool :=
  listPref p.data s.data

/-- The text before and after the first occurrence of a pattern, when
the pattern occurs. -/
def splitOnceL (sep : List Char) : List Char → Option (List Char × List Char)
  | [] => if listPref sep [] then some ([], []) else none
  | c :: t =>
      if listPref sep (c :: t) then some ([], (c :: t).drop sep.length)
      else
        match splitOnceL sep t with
        | some (l, r) => some (c :: l, r)
        | none => none

/-- Python "sub in s" substring containment. -/
def strContains (s sub : String) : Bool :=
  (splitOnceL sub.data s.data).isSome

/-- Python s.split(sep, 1): the part before the first occurrence of sep
and the rest; the whole string and "" when sep does not occur. -/
def splitOnce (s sep : String) : String × String :=
  match splitOnceL sep.data s.data with
  | some (l, r) => (String.mk l, String.mk r)
  | none => (s, "")

/-- Python s.endswith(p). -/
def strEnds (s p : String) : Bool :=
  listPref p.data.reverse s.data.reverse

/-- Python int(v) on a decoded scalar: ints pass through, bools are 0/1,
strings parse as a (signed) decimal integer or raise ValueError, anything
else raises TypeError.  Returns none for the raising cases. -/
def pyToInt : JVal → Option Int
  | .int n => some n
  | .bool b => some (if b then 1 else 0)
  | .str s =>
      let t := (pyStrip s).data
      let core := if listPref ['-'] t then t.drop 1 else t
      if core != [] && core.all Char.isDigit then
        let n : Int := Int.ofNat (core.foldl (fun a c => a * 10 + c.toNat - 48) 0)
        some (if listPref ['-'] t then -n else n)
      else
        none
  | _ => none

/-- v.isInt, for isinstance(v, int) checks.  CPython bool is a subclass of
int; the engine's isinstance(v, int) guards accept True/False as well. -/
def isIntJ : JVal → Bool
  | .int _ => true
  | .bool _ => true
  | _ => false

/-- isinstance(v, int) where the surrounding code treats bools separately
or never receives them; identical to isIntJ on journal payloads. -/
def isStrJ : JVal → Bool
  | .str _ => true
  | _ => false

/-- isinstance(v, bool). -/
def isBoolJ : JVal → Bool
  | .bool _ => true
  | _ => false

/-- isinstance(v, list). -/
def isArrJ : JVal → Bool
  | .arr _ => true
  | _ => false

/-- isinstance(v, dict). -/
def isObjJ : JVal → Bool
  | .obj _ => true
  | _ => false

/-- Python "a or b" on decoded values. -/
def pyOr (a b : JVal) : JVal :=
  if truthy a then a else b

/-- Chunks of three, used for the f"{n:,}" thousands grouping. -/
def chunk3 : List Char → List (List Char)
  | [] => []
  | a :: b :: c :: rest => [a, b, c] :: chunk3 rest
  | l => [l]

/-- f"{n:,}" for an Int: digit groups of three separated by commas. -/
def fmtComma (n : Int) : String :=
  let ds := (toString n.natAbs).data
  let groups := ((chunk3 ds.reverse).map List.reverse).reverse
  let body := joinSep "," (groups.map List.asString)
  if n < 0 then "-" ++ body else body

/-
Session State, from src/edc/core/state.py (dataclass GameState).  Fields
the Python code assigns values of varying dynamic type are modelled as
JVal; fields the code only ever assigns one shape are given that shape
(dictionaries as association lists in insertion order, the visited-system
set as a duplicate-free list in insertion order, ledgers as Int).
-/
structure GameState where
  commander : JVal := .null
  ship : JVal := .null
  ship_id : JVal := .null
  credits : JVal := .null
  system : JVal := .null
  system_address : JVal := .null
  system_allegiance : JVal := .null
  system_economy : JVal := .null
  system_security : JVal := .null
  population : JVal := .null
  pp_power : JVal := .null
  pp_rank : JVal := .null
  pp_merits : JVal := .null
  power : JVal := .null
  power_state : JVal := .null
  power_rank : JVal := .null
  power_merits : JVal := .null
  system_controlling_power : JVal := .null
  system_powerplay_state : JVal := .null
  system_powers : JVal := .arr []
  system_powerplay_conflict_progress : JVal := .obj []
  pp_enemy_alerts : List String := []
  current_contact_alert : String := ""
  combat_contacts : List (String × JObj) := []
  combat_current_key : String := ""
  cargo_count : JVal := .null
  limpets : JVal := .null
  system_government : JVal := .null
  controlling_faction : JVal := .null
  factions : JVal := .arr []
  bodies : List (String × JObj) := []
  system_body_count : JVal := .null
  body_id_to_name : List (Int × String) := []
  body_values : List (String × JVal) := []
  exo : List (String × JObj) := []
  bio_signals : List (String × Int) := []
  bio_genuses : List (String × List String) := []
  geo_signals : List (String × Int) := []
  saa_signals : List (String × List JVal) := []
  non_body_count : JVal := .null
  system_signals : List JVal := []
  external_pois : List JVal := []
  last_event : JVal := .null
  last_body : JVal := .null
  last_codex : JVal := .null
  last_organic_scan : JVal := .null
  last_organic_value : JVal := .null
  in_hyperspace : Bool := false
  jump_star_class : JVal := .null
  star_class : JVal := .null
  pending_system : JVal := .null
  last_jump_type : JVal := .null
  session_exo_earnings : Int := 0
  session_exobio_earnings : Int := 0
  session_exploration_earnings : Int := 0
  session_codex_earnings : Int := 0
  session_codex_collected : Int := 0
  session_voucher_earnings : Int := 0
  community_goals : List (Int × JObj) := []
  last_cg_joined : JVal := .null
  last_target_ship : JVal := .null
  last_target_pilot : JVal := .null
  cargo_inventory : JVal := .arr []
  visited_systems : List String := []
  materials_raw : List (String × Int) := []
  materials_manufactured : List (String × Int) := []
  materials_encoded : List (String × Int) := []
  materials_localised : List (String × String) := []
  materials_last_update : JVal := .null
  materials_raw_loc : List (String × String) := []
  materials_manufactured_loc : List (String × String) := []
  materials_encoded_loc : List (String × String) := []
  shiplocker_items : List (String × Int) := []
  shiplocker_localised : List (String × String) := []
  shiplocker_last_update : JVal := .null
  shiplocker_items_loc : List (String × String) := []
  item_category : List (String × String) := []

/-- A fresh session state: GameState() with all dataclass defaults. -/
def initGameState : GameState := {}

/-- The engine's mutable context while one event is folded: the shared
state object plus the per-call msgs list being built. -/
structure EngSt where
  gs : GameState
  msgs : List String

/-- The effect monad of the embedding: state with Python exceptions.  An
error value carries the state as already mutated when the exception was
raised, exactly as in-place mutation does in the source. -/
def PyM (α : Type) : Type := EngSt → EngSt × Except String α

instance : Monad PyM where
  pure a := fun s => (s, .ok a)
  bind x f := fun s =>
    match x s with
    | (s1, .ok a) => f a s1
    | (s1, .error e) => (s1, .error e)

/-- Read the game state. -/
def getGS : PyM GameState := fun s => (s, .ok s.gs)

/-- Mutate the game state in place. -/
def modGS (f : GameState → GameState) : PyM Unit :=
  fun s => ({ s with gs := f s.gs }, .ok ())

/-- msgs.append(m). -/
def emit (m : String) : PyM Unit :=
  fun s => ({ s with msgs := s.msgs ++ [m] }, .ok ())

/-- raise: abort with a Python exception, keeping the state. -/
def pyRaise {α : Type} (e : String) : PyM α := fun s => (s, .error e)

/-- try/except Exception: run the body; on an exception run the except
clause from the state at the raise point. -/
def pyTry {α : Type} (x : PyM α) (h : PyM α) : PyM α :=
  fun s =>
    match x s with
    | (s1, .error _) => h s1
    | r => r

/-- v.get(k): dict lookup, AttributeError on any non-dict value. -/
def pyAttrGet (v : JVal) (k : String) : PyM JVal :=
  match v with
  | .obj kvs => pure (jget kvs k)
  | _ => pyRaise "AttributeError: get"

/-- v.get(k, d): dict lookup with default, AttributeError on non-dicts. -/
def pyAttrGetD (v : JVal) (k : String) (d : JVal) : PyM JVal :=
  match v with
  | .obj kvs => pure (jgetD kvs k d)
  | _ => pyRaise "AttributeError: get"

/-- v.lower(): AttributeError on any non-string value. -/
def pyLowerM (v : JVal) : PyM String :=
  match v with
  | .str s => pure (pyLower s)
  | _ => pyRaise "AttributeError: lower"

/-- v.strip(): AttributeError on any non-string value. -/
def pyStripM (v : JVal) : PyM String :=
  match v with
  | .str s => pure (pyStrip s)
  | _ => pyRaise "AttributeError: strip"

/-- int(v): ints and bools convert, decimal strings parse (ValueError
otherwise), any other type raises TypeError. -/
def pyIntM (v : JVal) : PyM Int :=
  match v with
  | .int n => pure n
  | .bool b => pure (if b then 1 else 0)
  | .str s =>
      match pyToInt (.str s) with
      | some n => pure n
      | none => pyRaise "ValueError: int"
  | _ => pyRaise "TypeError: int"

/-- for x in v: lists yield elements, strings yield 1-character strings,
dicts yield their keys; anything else raises TypeError. -/
def pyIterM (v : JVal) : PyM (List JVal) :=
  match v with
  | .arr xs => pure xs
  | .str s => pure (s.data.map (fun c => JVal.str (String.mk [c])))
  | .obj kvs => pure (kvs.map (fun p => JVal.str p.1))
  | _ => pyRaise "TypeError: not iterable"

/-- EventEngine.norm_text (src/edc/core/event_engine.py:57): non-strings
normalize to "", strings have whitespace runs collapsed and ends
stripped. -/
def normText (v : JVal) : String :=
  match v with
  | .str s => joinSpace (pyWords s)
  | _ => ""

/-- The Int behind a value that passed an isinstance(v, int) guard
(bool is a subclass of int in CPython). -/
def jvalAsInt : JVal → Int
  | .int n => n
  | .bool b => if b then 1 else 0
  | _ => 0

/-
Reference table: src/edc/core/planet_values.py.
-/

/-- planet_values norm: keep alphanumeric characters, lowercased. -/
def pvNorm (s : String) : String :=
  String.mk ((s.data.filter Char.isAlphanum).map Char.toLower)

/-- PlanetValueRow (planet_values.py:14): the four precomputed figures,
each Optional. -/
structure PlanetValueRow where
  planet_type : String
  terraformable : Bool
  fss : Option Int
  fss_dss : Option Int
  fss_fd : Option Int
  fss_fd_dss : Option Int

/-- PlanetValueTable: rows keyed by (planet_type, terraformable) plus the
normalization map built by the constructor. -/
structure PlanetValueTable where
  rows : List ((String × Bool) × PlanetValueRow)
  type_norm_map : List (String × String)

/-- PlanetValueTable.init (planet_values.py:28): derive the
normalization map from the row keys, later rows overwriting earlier ones
with the same normal form. -/
def mkPlanetValueTable (rows : List ((String × Bool) × PlanetValueRow)) :
    PlanetValueTable :=
  { rows := rows
    type_norm_map :=
      rows.foldl (fun m p => alSet m (pvNorm p.1.1) p.1.1) [] }

/-- The fixed journal-to-table alias map of canonical_type
(planet_values.py:75), with both sides normalized. -/
def pvAliases : List (String × String) :=
  [ (pvNorm "High metal content world", pvNorm "High Metal Content Planet")
  , (pvNorm "High metal content body", pvNorm "High Metal Content Planet")
  , (pvNorm "Rocky body", pvNorm "Rocky Body")
  , (pvNorm "Icy body", pvNorm "Icy Body")
  , (pvNorm "Metal rich body", pvNorm "Metal Rich Body")
  , (pvNorm "Water world", pvNorm "Water World")
  , (pvNorm "Earthlike world", pvNorm "Earth-Like World")
  , (pvNorm "Ammonia world", pvNorm "Ammonia World")
  , (pvNorm "Gas giant with water based life", pvNorm "Gas Giant With Water Based Life")
  , (pvNorm "Gas giant with ammonia based life", pvNorm "Gas Giant With Ammonia Based Life") ]

/-- PlanetValueTable.canonical_type (planet_values.py:66). -/
def canonicalType (t : PlanetValueTable) (planet_class : String) :
    Option String :=
  if planet_class == "" then none
  else
    let key := pvNorm planet_class
    match alGet? t.type_norm_map key with
    | some pt => some pt
    | none =>
        match alGet? pvAliases key with
        | some ali => if ali != "" then alGet? t.type_norm_map ali else none
        | none => none

/-- PlanetValueTable.estimate (planet_values.py:93): resolve the type,
find the row, then pick one of the four figures from the cross product of
first_discovered and mapped. -/
def PlanetValueTable.estimate (t : PlanetValueTable) (planet_class : String)
    (terraformable mapped first_discovered : Bool) : Option Int :=
  match canonicalType t planet_class with
  | none => none
  | some pt =>
      if pt == "" then none
      else
        match alGet? t.rows (pt, terraformable) with
        | none => none
        | some row =>
            if first_discovered && mapped then row.fss_fd_dss
            else if first_discovered && !mapped then row.fss_fd
            else if !first_discovered && mapped then row.fss_dss
            else row.fss

/-- The engine hands estimate a journal-derived planet class of arbitrary
dynamic type; norm iterates (s or ""), so a truthy non-string raises
TypeError while a falsy one normalizes through "". -/
def estimateJ (t : PlanetValueTable) (planet_class : JVal)
    (terraformable mapped first_discovered : Bool) : PyM (Option Int) :=
  match planet_class with
  | .str s => pure (t.estimate s terraformable mapped first_discovered)
  | v =>
      if truthy v then pyRaise "TypeError: not iterable"
      else pure (t.estimate "" terraformable mapped first_discovered)

/-
Reference table: src/edc/core/exo_values.py.
-/

/-- ExoSpeciesValue (exo_values.py:11). -/
structure ExoSpeciesValue where
  species : String
  genus : String
  base_value : Int

/-- ExoValueTable: display name to species record. -/
structure ExoValueTable where
  by_species : List (String × ExoSpeciesValue)

/-- ExoValueTable.get_value (exo_values.py:42). -/
def ExoValueTable.getValue (t : ExoValueTable) (s : String) : Option Int :=
  if s == "" then none
  else (alGet? t.by_species s).map (fun r => r.base_value)

/-- The engine's constructor arguments (event_engine.py:12): the optional
reference tables and the advisory external-intel store.  The store is
excluded from the core by the spec and modelled by its query contract:
get_pois(system_name, address) as a total function. -/
structure EngineCfg where
  planet_values : Option PlanetValueTable := none
  exo_values : Option ExoValueTable := none
  external_intel : Option (String → Option Int → List JVal) := none

/-- EventEngine.apply_external_intel (event_engine.py:24): advisory only;
any fault, including a non-string system name reaching the store, leaves
the POI list empty. -/
def applyExternalIntel (cfg : EngineCfg) (sysName addrJ : JVal)
    (g : GameState) : GameState :=
  match cfg.external_intel with
  | none => { g with external_pois := [] }
  | some intel =>
      if !truthy sysName then { g with external_pois := [] }
      else
        match sysName with
        | .str s =>
            { g with external_pois :=
                intel s (if isIntJ addrJ then some (jvalAsInt addrJ) else none) }
        | _ => { g with external_pois := [] }

/-- EventEngine.classify_system_signal (event_engine.py:35): Megaship,
Station, USS, Phenomena or Other, checked in that order. -/
def classifySystemSignal (signal_name uss_type is_station signal_type : JVal) :
    String :=
  let st := pyOr signal_type (.str "")
  if isStrJ st && pyLower (pyStrip (pyStr st)) == "megaship" then "Megaship"
  else if isBoolJ is_station && truthy is_station then "Station"
  else if isStrJ uss_type && pyStrip (pyStr uss_type) != "" then "USS"
  else
    let s := if isStrJ signal_name then pyStr signal_name else ""
    let sl := pyLower s
    if ["lagrange", "cloud", "anomal", "phenomen", "notable", "stellar"].any
        (fun k => strContains sl k) then "Phenomena"
    else "Other"

/-- Drop the first matching known category marker, as in the
for/startswith/break loop of pretty_token (exploration.py:21). -/
def dropFirstMarker (s : String) : List String → String
  | [] => s
  | p :: rest =>
      if strStarts s p then String.mk (s.data.drop p.data.length)
      else dropFirstMarker s rest

/-- s.replace("_", " ") for the one-character pattern the sources use. -/
def underscoreToSpace (s : String) : String :=
  String.mk (s.data.map (fun c => if c == '_' then ' ' else c))

/-- Uppercase the first character: s[0].upper() + s[1:]. -/
def capFirst (s : String) : String :=
  match s.data with
  | [] => s
  | c :: rest => String.mk (c.toUpper :: rest)

/-- pretty_token (exploration.py:4): turn journal tokens like
"$economy_Extraction;" into "Extraction"; non-strings pass through. -/
def prettyToken (v : JVal) : JVal :=
  match v with
  | .str s0 =>
      let s1 := pyStrip s0
      if s1 == "" then .str s1
      else
        let s2 := if strStarts s1 "$" then String.mk (s1.data.drop 1) else s1
        let s3 := if strEnds s2 ";" then String.mk (s2.data.dropLast) else s2
        let s4 := dropFirstMarker s3
          ["government_", "economy_", "SYSTEM_SECURITY_", "system_security_"]
        let s5 := pyStrip (underscoreToSpace s4)
        .str (if s5 == "" then s5 else capFirst s5)
  | v => v

/-- Python str.title(): letters after a non-letter are uppercased, other
letters lowercased. -/
def titlePy (s : String) : String :=
  (s.data.foldl
    (fun (acc : List Char × Bool) c =>
      if c.isAlpha then
        ((if acc.2 then c.toLower else c.toUpper) :: acc.1, true)
      else
        (c :: acc.1, false))
    ([], false)).1.reverse.asString

/-- The best-effort display name used when Name_Localised is absent:
key.replace("_", " ").title(). -/
def displayName (key : String) : String :=
  titlePy (underscoreToSpace key)

/-- One step of EventEngine.parse_materials_category
(event_engine.py:69): counts[key] = cnt overwrites any earlier count for
the same name. -/
def parseMaterialsStep (acc : (List (String × Int)) × (List (String × String)))
    (rec : JVal) : (List (String × Int)) × (List (String × String)) :=
  match rec with
  | .obj kvs =>
      let nm := jget kvs "Name"
      let cnt := jget kvs "Count"
      match nm with
      | .str nms =>
          if !isIntJ cnt then acc
          else
          let key := pyLower (pyStrip nms)
          if key == "" then acc
          else
            let counts := alSet acc.1 key (jvalAsInt cnt)
            let nl := jget kvs "Name_Localised"
            let loc :=
              match nl with
              | .str nls =>
                  if pyStrip nls != "" then alSet acc.2 key (pyStrip nls)
                  else alSet acc.2 key (displayName key)
              | _ => alSet acc.2 key (displayName key)
            (counts, loc)
      | _ => acc
  | _ => acc

/-- EventEngine.parse_materials_category (event_engine.py:69). -/
def parseMaterialsCategory (items : JVal) :
    (List (String × Int)) × (List (String × String)) :=
  match items with
  | .arr xs => xs.foldl parseMaterialsStep ([], [])
  | _ => ([], [])

/-- One step of EventEngine.parse_shiplocker_items (event_engine.py:98):
counts[key] = counts.get(key, 0) + cnt aggregates repeated names. -/
def parseShipLockerStep (acc : (List (String × Int)) × (List (String × String)))
    (rec : JVal) : (List (String × Int)) × (List (String × String)) :=
  match rec with
  | .obj kvs =>
      let nm := jget kvs "Name"
      let cnt := jget kvs "Count"
      match nm with
      | .str nms =>
          if !isIntJ cnt then acc
          else
          let key := pyLower (pyStrip nms)
          if key == "" then acc
          else
            let prev := (alGet? acc.1 key).getD 0
            let counts := alSet acc.1 key (prev + jvalAsInt cnt)
            let nl := jget kvs "Name_Localised"
            let loc :=
              match nl with
              | .str nls =>
                  if pyStrip nls != "" then alSet acc.2 key (pyStrip nls)
                  else alSet acc.2 key (displayName key)
              | _ => alSet acc.2 key (displayName key)
            (counts, loc)
      | _ => acc
  | _ => acc

/-- EventEngine.parse_shiplocker_items (event_engine.py:98). -/
def parseShipLockerItems (items : JVal) :
    (List (String × Int)) × (List (String × String)) :=
  match items with
  | .arr xs => xs.foldl parseShipLockerStep ([], [])
  | _ => ([], [])

/-- set.add(str(new_sys)) on the visited-system set, modelled as a
duplicate-free list in insertion order. -/
def visitAdd (vs : List String) (s : String) : List String :=
  if vs.contains s then vs else vs ++ [s]

/-- Insertion sort on strings (Python sorted over code points; the
journal is ASCII, where the orders agree). -/
def listCharLe : List Char → List Char → Bool
  | [], _ => true
  | _ :: _, [] => false
  | a :: as, b :: bs => if a = b then listCharLe as bs else decide (a < b)

/-- Lexicographic comparison on code points, as Python compares
strings. -/
def strLe (a b : String) : Bool :=
  listCharLe a.data b.data

/-- Insert into a sorted list of strings. -/
def insertStr (x : String) : List String → List String
  | [] => [x]
  | y :: ys => if strLe x y then x :: y :: ys else y :: insertStr x ys

/-- sorted(...) on a list of strings. -/
def sortStrings : List String → List String
  | [] => []
  | x :: xs => insertStr x (sortStrings xs)

/-
Handler: src/edc/engine/handlers/inventory.py (handle).
-/
def inventoryHandle (cfg : EngineCfg) (name : JVal) (e : JObj) : PyM Bool :=
  if pyEq name (.str "Commander") then do
    let g ← getGS
    modGS fun g2 =>
      { g2 with
        commander := pyOr (jget e "Name") g.commander
        ship := pyOr (jget e "Ship") g.ship
        ship_id := if isIntJ (jget e "ShipID") then jget e "ShipID" else g.ship_id }
    pure true
  else if pyEq name (.str "LoadGame") then do
    let g ← getGS
    let sid := jget e "ShipID"
    modGS fun g2 =>
      { g2 with
        commander := pyOr (jget e "Commander") g.commander
        ship := pyOr (jget e "Ship") g.ship
        ship_id := if isIntJ sid then sid else g.ship_id }
    pure true
  else if pyEq name (.str "Materials") then do
    let raw := jget e "Raw"
    let manufactured := jget e "Manufactured"
    let encoded := jget e "Encoded"
    match raw with
    | .null => pure ()
    | v =>
        modGS fun g =>
          { g with
            materials_raw := (parseMaterialsCategory v).1
            materials_raw_loc := (parseMaterialsCategory v).2 }
    match manufactured with
    | .null => pure ()
    | v =>
        modGS fun g =>
          { g with
            materials_manufactured := (parseMaterialsCategory v).1
            materials_manufactured_loc := (parseMaterialsCategory v).2 }
    match encoded with
    | .null => pure ()
    | v =>
        modGS fun g =>
          { g with
            materials_encoded := (parseMaterialsCategory v).1
            materials_encoded_loc := (parseMaterialsCategory v).2 }
    pure true
  else if pyEq name (.str "ShipLocker") then do
    let locker := jget e "Items"
    match locker with
    | .null => pure ()
    | v =>
        modGS fun g =>
          { g with
            shiplocker_items := (parseShipLockerItems v).1
            shiplocker_items_loc := (parseShipLockerItems v).2 }
    pure true
  else if pyEq name (.str "ModuleBuy") then do
    let m := jget e "BuyItem"
    if isStrJ m && pyStrip (pyStr m) != "" then
      emit ("Module bought: " ++ pyStr m)
    else
      pure ()
    pure true
  else if pyEq name (.str "Cargo") then do
    let inv := jget e "Inventory"
    if isArrJ inv then
      modGS fun g => { g with cargo_inventory := inv }
    else
      pure ()
    pure true
  else
    pure false

/-
Handler: src/edc/engine/handlers/exploration.py (handle).
-/
def explorationHandle (cfg : EngineCfg) (name : JVal) (e : JObj) : PyM Bool :=
  if pyEq name (.str "FSDJump") then do
    let g0 ← getGS
    let new_sys := jget e "StarSystem"
    if truthy new_sys && !pyEq new_sys g0.system then
      modGS fun g =>
        { g with
          bodies := []
          exo := []
          body_id_to_name := []
          bio_signals := []
          bio_genuses := []
          geo_signals := []
          non_body_count := .null
          system_signals := []
          external_pois := []
          system_body_count := .null
          system_allegiance := .null
          system_government := .null
          system_economy := .null
          system_security := .null
          population := .null
          controlling_faction := .null
          factions := .arr []
          system_controlling_power := .null
          system_powerplay_state := .null
          system_powers := .arr []
          system_powerplay_conflict_progress := .obj []
          visited_systems := visitAdd g.visited_systems (pyStr new_sys) }
    else
      pure ()
    let g1 ← getGS
    modGS fun g =>
      { g with
        system := pyOr new_sys g1.system
        system_address :=
          if isIntJ (jget e "SystemAddress") then jget e "SystemAddress"
          else g1.system_address
        star_class := pyOr (jget e "StarClass") g1.star_class
        system_allegiance :=
          pyOr (jget e "SystemAllegiance_Localised")
            (pyOr (prettyToken (jget e "SystemAllegiance")) g1.system_allegiance)
        system_government :=
          pyOr (jget e "SystemGovernment_Localised")
            (pyOr (prettyToken (jget e "SystemGovernment")) g1.system_government)
        system_economy :=
          pyOr (jget e "SystemEconomy_Localised")
            (pyOr (prettyToken (jget e "SystemEconomy")) g1.system_economy)
        system_security :=
          pyOr (jget e "SystemSecurity_Localised")
            (pyOr (prettyToken (jget e "SystemSecurity")) g1.system_security)
        population :=
          if isIntJ (jget e "Population") then jget e "Population"
          else g1.population
        controlling_faction :=
          match jget e "SystemFaction" with
          | .obj kvs => jget kvs "Name"
          | _ => g1.controlling_faction
        factions :=
          if isArrJ (jget e "Factions") then jget e "Factions" else g1.factions
        system_controlling_power :=
          pyOr (jget e "PowerplayState") g1.system_controlling_power
        system_powerplay_state :=
          pyOr (jget e "PowerplayState") g1.system_powerplay_state
        system_powers :=
          if isArrJ (jget e "Powers") then jget e "Powers" else g1.system_powers
        system_powerplay_conflict_progress :=
          if isObjJ (jget e "PowerplayConflictProgress") then
            jget e "PowerplayConflictProgress"
          else g1.system_powerplay_conflict_progress }
    let g2 ← getGS
    modGS (applyExternalIntel cfg g2.system g2.system_address)
    pure true
  else if pyEq name (.str "Location") then do
    let g0 ← getGS
    let sys_name := jget e "StarSystem"
    modGS fun g =>
      { g with
        system := if truthy sys_name then sys_name else g0.system
        system_address :=
          if isIntJ (jget e "SystemAddress") then jget e "SystemAddress"
          else g0.system_address
        star_class := pyOr (jget e "StarClass") g0.star_class
        system_allegiance :=
          pyOr (jget e "SystemAllegiance_Localised")
            (pyOr (prettyToken (jget e "SystemAllegiance")) g0.system_allegiance)
        system_government :=
          pyOr (jget e "SystemGovernment_Localised")
            (pyOr (prettyToken (jget e "SystemGovernment")) g0.system_government)
        system_economy :=
          pyOr (jget e "SystemEconomy_Localised")
            (pyOr (prettyToken (jget e "SystemEconomy")) g0.system_economy)
        system_security :=
          pyOr (jget e "SystemSecurity_Localised")
            (pyOr (prettyToken (jget e "SystemSecurity")) g0.system_security) }
    let g1 ← getGS
    modGS (applyExternalIntel cfg g1.system g1.system_address)
    pure true
  else if pyEq name (.str "StartJump") then do
    let jump_type := jget e "JumpType"
    if truthy jump_type then
      modGS fun g => { g with last_jump_type := jump_type }
    else
      pure ()
    let dest := jget e "StarSystem"
    if truthy dest then
      modGS fun g => { g with pending_system := dest }
    else
      pure ()
    pure true
  else if pyEq name (.str "Scan") then do
    let body_name := jget e "BodyName"
    let body_id := jget e "BodyID"
    if isIntJ body_id && isStrJ body_name && pyStrip (pyStr body_name) != "" then
      modGS fun g =>
        { g with body_id_to_name :=
            alSet g.body_id_to_name (jvalAsInt body_id) (pyStr body_name) }
    else
      pure ()
    if isStrJ body_name && pyStrip (pyStr body_name) != "" then
      modGS fun g => { g with last_body := body_name }
    else
      pure ()
    if isStrJ body_name && pyStrip (pyStr body_name) != "" then
      modGS fun g => { g with bodies := alSet g.bodies (pyStr body_name) e }
    else
      pure ()
    pyTry
      (if cfg.planet_values.isSome && isStrJ body_name
          && pyStrip (pyStr body_name) != "" then
        -- PlanetValueTable has no estimate_value method: AttributeError.
        pyRaise "AttributeError: estimate_value"
      else
        pure ())
      (pure ())
    pure true
  else if pyEq name (.str "SAAScanComplete") then do
    let body := jget e "BodyName"
    if isStrJ body && pyStrip (pyStr body) != "" then
      modGS fun g =>
        let rec0 := (alGet? g.bodies (pyStr body)).getD []
        { g with bodies :=
            alSet g.bodies (pyStr body) (alSet rec0 "SAAScanComplete" (.bool true)) }
    else
      pure ()
    pure true
  else if pyEq name (.str "FSSDiscoveryScan") then do
    let bc := jget e "BodyCount"
    let nbc := jget e "NonBodyCount"
    if isIntJ bc then
      modGS fun g => { g with system_body_count := bc }
    else
      pure ()
    if isIntJ nbc then
      modGS fun g => { g with non_body_count := nbc }
    else
      pure ()
    pure true
  else if pyEq name (.str "FSSSignalDiscovered") then do
    let sig_type := jget e "SignalType"
    let sig_name := jget e "SignalName"
    if isStrJ sig_type then
      let is_station : JVal :=
        if jmem e "IsStation" then .bool (truthy (jget e "IsStation"))
        else .bool false
      -- the handler passes (sig_type, sig_name, is_station) positionally,
      -- so sig_type lands in the signal_name slot and vice versa.
      let cls := classifySystemSignal sig_type sig_name is_station .null
      modGS fun g => { g with system_signals := g.system_signals ++ [.str cls] }
    else
      pure ()
    pure true
  else if pyEq name (.str "FSSBodySignals") then do
    let body := jget e "BodyName"
    if !(isStrJ body && pyStrip (pyStr body) != "") then
      pure true
    else do
      let sigsv := jget e "Signals"
      let bio :=
        match sigsv with
        | .obj kvs => jget kvs "Biological"
        | _ => JVal.null
      let geo :=
        match sigsv with
        | .obj kvs => jget kvs "Geological"
        | _ => JVal.null
      match bio with
      | .arr xs =>
          modGS fun g =>
            { g with bio_signals :=
                alSet g.bio_signals (pyStr body) (Int.ofNat xs.length) }
      | _ => pure ()
      match geo with
      | .arr xs =>
          modGS fun g =>
            { g with geo_signals :=
                alSet g.geo_signals (pyStr body) (Int.ofNat xs.length) }
      | _ => pure ()
      pure true
  else if pyEq name (.str "SAASignalsFound") then do
    let body := jget e "BodyName"
    if !(isStrJ body && pyStrip (pyStr body) != "") then
      pure true
    else do
      match jget e "Signals" with
      | .arr xs => do
          modGS fun g => { g with saa_signals := alSet g.saa_signals (pyStr body) xs }
          let genuses := xs.filterMap fun s =>
            match s with
            | .obj kvs =>
                match jget kvs "Genus" with
                | .str gs => if pyStrip gs != "" then some (pyStrip gs) else none
                | _ => none
            | _ => none
          match genuses with
          | [] => pure ()
          | _ =>
              modGS fun g =>
                { g with bio_genuses :=
                    alSet g.bio_genuses (pyStr body) (sortStrings genuses.eraseDups) }
      | _ => pure ()
      pure true
  else if pyEq name (.str "CodexEntry") then do
    let entry := pyOr (jget e "Name_Localised") (jget e "Name")
    if isStrJ entry && pyStrip (pyStr entry) != "" then
      modGS fun g => { g with last_codex := .str (pyStrip (pyStr entry)) }
    else
      pure ()
    pure true
  else if pyEq name (.str "MultiSellExplorationData") then do
    let total := jget e "TotalEarnings"
    if isIntJ total then do
      modGS fun g =>
        { g with session_exploration_earnings :=
            g.session_exploration_earnings + jvalAsInt total }
      emit ("Exploration sold: " ++ fmtComma (jvalAsInt total) ++ " cr")
    else
      pure ()
    pure true
  else
    pure false

/-
Handler: src/edc/engine/handlers/exobio.py (handle).
-/
def exobioHandle (cfg : EngineCfg) (name : JVal) (e : JObj) : PyM Bool :=
  if pyEq name (.str "ScanOrganic") then do
    let body := jget e "BodyName"
    let genus := jget e "Genus"
    let species := jget e "Species"
    if isStrJ body && pyStrip (pyStr body) != "" then
      modGS fun g => { g with last_body := body }
    else
      pure ()
    modGS fun g => { g with last_organic_scan := .obj e }
    pyTry
      (if cfg.exo_values.isSome then
        -- ExoValueTable has no estimate_value method: AttributeError.
        pyRaise "AttributeError: estimate_value"
      else
        pure ())
      (pure ())
    if isStrJ genus && pyStrip (pyStr genus) != "" then
      if isStrJ species && pyStrip (pyStr species) != "" then
        emit ("Exobio scan: " ++ pyStr genus ++ " / " ++ pyStr species)
      else
        emit ("Exobio scan: " ++ pyStr genus)
    else
      pure ()
    pure true
  else if pyEq name (.str "SellOrganicData") then do
    let total := jget e "BioDataValue"
    if isIntJ total then do
      modGS fun g =>
        { g with session_exobio_earnings :=
            g.session_exobio_earnings + jvalAsInt total }
      emit ("Exobio sold: " ++ fmtComma (jvalAsInt total) ++ " cr")
    else
      pure ()
    pure true
  else
    pure false

/-
Handler: src/edc/engine/handlers/powerplay.py (handle).
-/
def powerplayHandle (cfg : EngineCfg) (name : JVal) (e : JObj) : PyM Bool :=
  if pyEq name (.str "Powerplay") then do
    let g0 ← getGS
    let merit := jget e "Merits"
    let rank := jget e "Rank"
    modGS fun g =>
      { g with
        power := pyOr (jget e "Power") g0.power
        power_state := pyOr (jget e "State") g0.power_state
        power_merits := if isIntJ merit then merit else g0.power_merits
        power_rank := if isIntJ rank then rank else g0.power_rank }
    let g1 ← getGS
    if truthy g1.power then
      emit ("Powerplay: " ++ pyStr g1.power ++ " ("
        ++ pyStr (pyOr g1.power_state (.str "n/a")) ++ ")")
    else
      pure ()
    pure true
  else
    pure false

/-
Handler: src/edc/engine/handlers/misc.py (handle).
-/
def miscHandle (cfg : EngineCfg) (name : JVal) (e : JObj) : PyM Bool :=
  if pyEq name (.str "RedeemVoucher") then do
    let amt := jget e "Amount"
    if isIntJ amt then do
      modGS fun g =>
        { g with session_voucher_earnings :=
            g.session_voucher_earnings + jvalAsInt amt }
      emit ("Voucher redeemed: " ++ fmtComma (jvalAsInt amt) ++ " cr")
    else
      pure ()
    pure true
  else if pyEq name (.str "CommunityGoalJoin") then do
    let cgid := jget e "CGID"
    if isIntJ cgid then do
      let g0 ← getGS
      let rec0 := (alGet? g0.community_goals (jvalAsInt cgid)).getD []
      let rec1 := objUpdate rec0
        [ ("CGID", cgid)
        , ("Title", pyOr (jget e "Name") (jget rec0 "Title"))
        , ("SystemName", pyOr (jget e "System") (jget rec0 "SystemName")) ]
      modGS fun g =>
        { g with community_goals := alSet g.community_goals (jvalAsInt cgid) rec1 }
      if truthy (jget rec1 "Title") then
        emit ("CG joined: " ++ pyStr (jget rec1 "Title"))
      else
        pure ()
    else
      pure ()
    pure true
  else if pyEq name (.str "CommunityGoal") then do
    let cgid := jget e "CGID"
    if isIntJ cgid then do
      let g0 ← getGS
      let rec0 := (alGet? g0.community_goals (jvalAsInt cgid)).getD []
      modGS fun g =>
        { g with community_goals :=
            alSet g.community_goals (jvalAsInt cgid) (objUpdate rec0 e) }
    else
      pure ()
    pure true
  else if pyEq name (.str "ShipTargeted") then do
    let tgt := jget e "Ship"
    if isStrJ tgt && pyStrip (pyStr tgt) != "" then
      modGS fun g => { g with last_target_ship := tgt }
    else
      pure ()
    let pilot := pyOr (jget e "PilotName_Localised") (jget e "PilotName")
    if isStrJ pilot && pyStrip (pyStr pilot) != "" then
      modGS fun g => { g with last_target_pilot := pilot }
    else
      pure ()
    pure true
  else
    pure false

/-- The dispatcher loop of EventEngine.process (event_engine.py:825):
each handler in order; a handler that claims the event or raises ends the
loop (a raise is caught, logged and treated as handled). -/
def runHandlerChain : List (PyM Bool) → PyM Unit
  | [] => pure ()
  | h :: rest => fun s =>
      match h s with
      | (s1, .ok true) => (s1, .ok ())
      | (s1, .ok false) => runHandlerChain rest s1
      | (s1, .error _) => (s1, .ok ())

/-- Python str.upper() on ASCII text. -/
def pyUpper (s : String) : String :=
  String.mk (s.data.map Char.toUpper)

/-- An Optional[int] stored into a record field: None or the int. -/
def optIntJ : Option Int → JVal
  | none => .null
  | some n => .int n

/-- Python "a or b" on two Optional[int] values (0 and None are falsy). -/
def pyOrOptInt (a b : Option Int) : Option Int :=
  match a with
  | some x => if x != 0 then some x else b
  | none => b

/-- Order-preserving de-duplication with a seen set, as in the
SAASignalsFound genus cleanup (event_engine.py:594). -/
def dedupSeen (seen : List String) : List String → List String
  | [] => []
  | x :: xs =>
      if seen.contains x then dedupSeen seen xs
      else x :: dedupSeen (x :: seen) xs

/-- The per-system state cleared on a system change, shared by the inline
Location (event_engine.py:144) and StartJump (event_engine.py:206)
branches. -/
def clearPerSystem (g : GameState) : GameState :=
  { g with
    bodies := []
    exo := []
    body_id_to_name := []
    bio_signals := []
    bio_genuses := []
    geo_signals := []
    non_body_count := .null
    system_signals := []
    external_pois := []
    system_body_count := .null
    system_allegiance := .null
    system_government := .null
    system_economy := .null
    system_security := .null
    population := .null
    controlling_faction := .null
    factions := .arr []
    system_controlling_power := .null
    system_powerplay_state := .null
    system_powers := .arr []
    system_powerplay_conflict_progress := .obj []
    pp_enemy_alerts := []
    combat_contacts := []
    combat_current_key := "" }

/-- The PowerplayConflictProgress fold of the inline Location branch
(event_engine.py:188); float() on the journal int is the identity on the
numeric value. -/
def buildConflictProg (xs : List JVal) : JObj :=
  xs.foldl
    (fun acc r =>
      match r with
      | .obj kvs =>
          match jget kvs "Power" with
          | .str pwr =>
              let cp := jget kvs "ConflictProgress"
              if isIntJ cp then alSet acc pwr cp else acc
          | _ => acc
      | _ => acc)
    []

/-- Inline Location branch (event_engine.py:140). -/
def branchLocation (cfg : EngineCfg) (e : JObj) : PyM Bool := do
  let g0 ← getGS
  let new_sys := jgetD e "StarSystem" g0.system
  if truthy new_sys && !pyEq new_sys g0.system then
    modGS clearPerSystem
  else
    pure ()
  modGS fun g =>
    { g with
      system := new_sys
      in_hyperspace := false
      jump_star_class := .null
      system_allegiance := jget e "SystemAllegiance"
      system_government :=
        pyOr (jget e "SystemGovernment_Localised") (jget e "SystemGovernment")
      system_economy :=
        pyOr (jget e "SystemEconomy_Localised") (jget e "SystemEconomy")
      system_security :=
        pyOr (jget e "SystemSecurity_Localised") (jget e "SystemSecurity")
      population := jget e "Population" }
  let cf := pyOr (jgetD e "SystemFaction" (.obj [])) (.obj [])
  let cfn ← pyAttrGet cf "Name"
  modGS fun g =>
    { g with
      controlling_faction := cfn
      factions := pyOr (jgetD e "Factions" (.arr [])) (.arr []) }
  modGS fun g =>
    { g with
      system_controlling_power := jget e "ControllingPower"
      system_powerplay_state := jget e "PowerplayState" }
  let pwl ← pyIterM (pyOr (jget e "Powers") (.arr []))
  modGS fun g => { g with system_powers := .arr (pwl.filter isStrJ) }
  let pcl ← pyIterM (pyOr (jget e "PowerplayConflictProgress") (.arr []))
  modGS fun g =>
    { g with system_powerplay_conflict_progress := .obj (buildConflictProg pcl) }
  let g1 ← getGS
  modGS (applyExternalIntel cfg g1.system (jget e "SystemAddress"))
  let g2 ← getGS
  if truthy g2.system then
    emit ("Location: " ++ pyStr g2.system)
  else
    pure ()
  pure false

/-- Inline StartJump branch (event_engine.py:199). -/
def branchStartJump (cfg : EngineCfg) (e : JObj) : PyM Bool := do
  if pyEq (jget e "JumpType") (.str "Hyperspace") then do
    let target := jget e "StarSystem"
    let star_class := jget e "StarClass"
    modGS clearPerSystem
    modGS fun g =>
      { g with
        system := pyOr target g.system
        in_hyperspace := true
        jump_star_class := star_class }
    let g1 ← getGS
    modGS (applyExternalIntel cfg g1.system .null)
    if truthy target then
      emit ("Jumping to: " ++ pyStr target ++ " (" ++ pyStr star_class ++ ")")
    else
      pure ()
  else
    pure ()
  pure false

/-- The PilotRank map of the inline ShipTargeted branch
(event_engine.py:269). -/
def rankNameOf (rank_val : JVal) : String :=
  if isIntJ rank_val then
    let m : List (Int × String) :=
      [ (0, "Harmless"), (1, "Mostly Harmless"), (2, "Novice")
      , (3, "Competent"), (4, "Expert"), (5, "Master")
      , (6, "Dangerous"), (7, "Deadly"), (8, "Elite") ]
    (alGet? m (jvalAsInt rank_val)).getD ""
  else
    match rank_val with
    | .str s => pyStrip s
    | _ => ""

/-- The alert tail of the inline ShipTargeted branch
(event_engine.py:336), reached only for a pledged commander whose alert
rules matched. -/
def shipTargetedAlert (pp_enemy : Bool) (rank_name : String)
    (tp pilot ship faction bounty : JVal) (is_wanted : Bool) : PyM Bool := do
  let who_bits :=
    ([pilot, ship, faction].filter
      (fun x => isStrJ x && pyStrip (pyStr x) != "")).map pyStr
  let who :=
    match who_bits with
    | [] => "Unknown target"
    | _ => joinSep " — " who_bits
  let head :=
    "⚔️ " ++ (if pp_enemy then "PP enemy" else "High bounty") ++ " scan: " ++ who
  let parts := [head]
    ++ (if rank_name != "" then ["Rank: " ++ rank_name] else [])
    ++ (if truthy tp then ["Power: " ++ pyStr tp] else [])
    ++ (if is_wanted then ["Wanted"] else [])
    ++ (if isIntJ bounty && jvalAsInt bounty > 0 then
          ["Bounty: " ++ fmtComma (jvalAsInt bounty) ++ " cr"]
        else [])
  let alert := joinSep " | " parts
  let g ← getGS
  if g.current_contact_alert != alert then
    modGS fun g2 =>
      { g2 with current_contact_alert := alert, pp_enemy_alerts := [alert] }
  else
    pure ()
  emit alert
  pure false

/-- Inline ShipTargeted branch (event_engine.py:243). -/
def branchShipTargeted (cfg : EngineCfg) (e : JObj) : PyM Bool := do
  if pyEq (jget e "TargetLocked") (.bool false) then do
    modGS fun g =>
      { g with
        current_contact_alert := ""
        pp_enemy_alerts := []
        combat_current_key := "" }
    pure true
  else do
    let scan_stage := jget e "ScanStage"
    if isIntJ scan_stage && jvalAsInt scan_stage < 3 then
      pure true
    else do
      let tp0 := jget e "Power"
      let tp := if isStrJ tp0 then tp0 else .str ""
      let legal := pyOr (jget e "LegalStatus") (.str "")
      let is_wanted := isStrJ legal && pyLower (pyStrip (pyStr legal)) == "wanted"
      let bounty := jget e "Bounty"
      let rank_name := rankNameOf (jget e "PilotRank")
      let pilot := pyOr (jget e "PilotName_Localised") (pyOr (jget e "PilotName") (.str ""))
      let ship := pyOr (jget e "Ship_Localised") (pyOr (jget e "Ship") (.str ""))
      let faction := pyOr (jget e "Faction") (.str "")
      let ts := pyOr (jget e "timestamp") (.str "")
      let pk ← pyStripM (pyOr (jget e "PilotName") (pyOr pilot (.str "UNKNOWN")))
      let sk ← pyStripM (pyOr (jget e "Ship") (pyOr ship (.str "UNKNOWN")))
      let fk ← pyStripM (pyOr faction (.str "UNKNOWN"))
      let key := pk ++ "|" ++ sk ++ "|" ++ fk
      modGS fun g =>
        { g with
          combat_contacts := alSet g.combat_contacts key
            [ ("Pilot", pilot)
            , ("Rank", .str rank_name)
            , ("Ship", ship)
            , ("Faction", faction)
            , ("Power", tp)
            , ("Wanted", .bool is_wanted)
            , ("Bounty", if isIntJ bounty then bounty else .null)
            , ("LastSeen", ts) ]
          combat_current_key := key }
      let g0 ← getGS
      let pledged := g0.pp_power
      if !truthy pledged then
        pure true
      else do
        let ctrl := g0.system_controlling_power
        let in_my_pp_space := isStrJ ctrl && pyEq ctrl pledged
        let bounty_ok := isIntJ bounty && jvalAsInt bounty ≥ 500000
        let rank_ok := ["dangerous", "deadly", "elite"].contains (pyLower rank_name)
        let bounty_target := is_wanted && bounty_ok && rank_ok
        let pp_enemy := truthy tp && !pyEq tp pledged
        if in_my_pp_space then
          if !(pp_enemy || bounty_target) then
            pure true
          else
            shipTargetedAlert pp_enemy rank_name tp pilot ship faction bounty is_wanted
        else
          if !bounty_target then
            pure true
          else
            shipTargetedAlert pp_enemy rank_name tp pilot ship faction bounty is_wanted

/-- Inline Powerplay branch (event_engine.py:362). -/
def branchPowerplay (cfg : EngineCfg) (e : JObj) : PyM Bool := do
  modGS fun g =>
    { g with
      pp_power := jget e "Power"
      pp_rank := jget e "Rank"
      pp_merits := jget e "Merits" }
  let g1 ← getGS
  if truthy g1.pp_power then
    emit ("PP: " ++ pyStr g1.pp_power ++ " (Rank " ++ pyStr g1.pp_rank
      ++ ", Merits " ++ pyStr g1.pp_merits ++ ")")
  else
    pure ()
  pure false

/-- The limpet-count loop of the inline Cargo branch
(event_engine.py:372). -/
def cargoLimpets : List JVal → PyM Int
  | [] => pure 0
  | item :: rest => do
      let nm ← pyAttrGet item "Name"
      if pyEq nm (.str "drones") then do
        let cv ← pyAttrGetD item "Count" (.int 0)
        pyIntM (pyOr cv (.int 0))
      else
        cargoLimpets rest

/-- Inline Cargo branch (event_engine.py:369). -/
def branchCargo (cfg : EngineCfg) (e : JObj) : PyM Bool := do
  modGS fun g => { g with cargo_count := jget e "Count" }
  let items ← pyIterM (pyOr (jgetD e "Inventory" (.arr [])) (.arr []))
  let limp ← cargoLimpets items
  modGS fun g => { g with limpets := .int limp }
  let g1 ← getGS
  emit ("Cargo: " ++ pyStr g1.cargo_count ++ " (Limpets " ++ pyStr g1.limpets ++ ")")
  pure false

/-- Inline Scan branch (event_engine.py:379). -/
def branchScan (cfg : EngineCfg) (e : JObj) : PyM Bool := do
  let body := normText (jget e "BodyName")
  if body == "" then
    pure false
  else do
    let planet_class := pyOr (jget e "PlanetClass") (.str "")
    if !truthy planet_class then
      pure true
    else do
      let body_id := jget e "BodyID"
      if isIntJ body_id then
        modGS fun g =>
          { g with body_id_to_name := alSet g.body_id_to_name (jvalAsInt body_id) body }
      else
        pure ()
      let terraform_state := pyOr (jget e "TerraformState") (.str "")
      let terraformable ←
        if truthy terraform_state then do
          let tl ← pyLowerM terraform_state
          pure (tl != "not terraformable")
        else
          pure false
      let distance_ls := jget e "DistanceFromArrivalLS"
      let landable_raw := jget e "Landable"
      let landable := if isBoolJ landable_raw then landable_raw else JVal.null
      let volcanism0 := pyOr (jget e "Volcanism_Localised") (pyOr (jget e "Volcanism") (.str ""))
      let volcanism := if isStrJ volcanism0 then volcanism0 else JVal.str ""
      let materials0 := jget e "Materials"
      let materials := if isObjJ materials0 then materials0 else JVal.obj []
      let was_discovered := truthy (jgetD e "WasDiscovered" (.bool false))
      let was_mapped := truthy (jgetD e "WasMapped" (.bool false))
      let first_discovered := !was_discovered
      let est ←
        match cfg.planet_values with
        | some t => do
            let r ← estimateJ t planet_class terraformable was_mapped first_discovered
            pure (optIntJ r)
        | none => pure JVal.null
      let g1 ← getGS
      let rec0 := (alGet? g1.bodies body).getD []
      let rec1 := objUpdate rec0
        [ ("BodyName", .str body)
        , ("BodyID", if isIntJ body_id then body_id else .null)
        , ("PlanetClass", planet_class)
        , ("Terraformable", .bool terraformable)
        , ("DistanceLS", distance_ls)
        , ("Landable", landable)
        , ("Volcanism", volcanism)
        , ("Materials", materials)
        , ("FirstDiscovered", .bool first_discovered)
        , ("Mapped", .bool was_mapped)
        , ("EstimatedValue", est) ]
      let rec2 :=
        match alGet? g1.bio_signals body with
        | some n => alSet rec1 "BioSignals" (.int n)
        | none => rec1
      let rec3 :=
        match alGet? g1.bio_genuses body with
        | some gs => alSet rec2 "BioGenuses" (.arr (gs.map JVal.str))
        | none => rec2
      let rec4 :=
        match alGet? g1.geo_signals body with
        | some n => alSet rec3 "GeoSignals" (.int n)
        | none => rec3
      modGS fun g => { g with bodies := alSet g.bodies body rec4 }
      pure false

/-- Inline SAAScanComplete branch (event_engine.py:437). -/
def branchSAAScanComplete (cfg : EngineCfg) (e : JObj) : PyM Bool := do
  let body := normText (jget e "BodyName")
  let g0 ← getGS
  match body == "", alGet? g0.bodies body with
  | false, some rec0 => do
      let rec1 := alSet rec0 "Mapped" (.bool true)
      modGS fun g => { g with bodies := alSet g.bodies body rec1 }
      let planet_class := jgetD rec1 "PlanetClass" (.str "")
      let terraformable := truthy (jgetD rec1 "Terraformable" (.bool false))
      let first_discovered := truthy (jgetD rec1 "FirstDiscovered" (.bool false))
      match cfg.planet_values with
      | some t =>
          if truthy planet_class then do
            let est ← estimateJ t planet_class terraformable true first_discovered
            modGS fun g =>
              { g with bodies :=
                  alSet g.bodies body (alSet rec1 "EstimatedValue" (optIntJ est)) }
          else
            pure ()
      | none => pure ()
      pure false
  | _, _ => pure false

/-- Inline FSSDiscoveryScan branch (event_engine.py:454). -/
def branchFSSDiscoveryScan (cfg : EngineCfg) (e : JObj) : PyM Bool := do
  let bc := jget e "BodyCount"
  if isIntJ bc then
    modGS fun g => { g with system_body_count := bc }
  else
    pure ()
  let nb := jget e "NonBodyCount"
  if isIntJ nb then
    modGS fun g => { g with non_body_count := nb }
  else
    pure ()
  pure false

/-- The bounded-signal cap of the inline FSSSignalDiscovered branch
(event_engine.py:505). -/
def maxSigs : Nat := 200

/-- First index whose entry is a dict with the given dedupe Key
(event_engine.py:492). -/
def findSigIdx (xs : List JVal) (key : String) : Option Nat :=
  xs.findIdx? fun s =>
    match s with
    | .obj kvs => pyEq (jget kvs "Key") (.str key)
    | _ => false

/-- Inline FSSSignalDiscovered branch (event_engine.py:463). -/
def branchFSSSignalDiscovered (cfg : EngineCfg) (e : JObj) : PyM Bool := do
  let sig_name := pyOr (jget e "SignalName_Localised") (pyOr (jget e "SignalName") (.str ""))
  let sig_type := pyOr (jget e "SignalType") (pyOr (jget e "SignalType_Localised") (.str ""))
  let uss := pyOr (jget e "USSType_Localised") (pyOr (jget e "USSType") (.str ""))
  let threat := jget e "ThreatLevel"
  let is_station := jget e "IsStation"
  let time_rem := jget e "TimeRemaining"
  let ts := pyOr (jget e "timestamp") (.str "")
  let key := pyStr sig_name ++ "|" ++ pyStr sig_type ++ "|" ++ pyStr uss
    ++ "|" ++ pyStr threat ++ "|" ++ pyStr is_station
  let category := classifySystemSignal sig_name uss is_station sig_type
  let entry : JObj :=
    [ ("Key", .str key)
    , ("SignalName", sig_name)
    , ("SignalType", sig_type)
    , ("USSType", uss)
    , ("Category", .str category)
    , ("ThreatLevel", if isIntJ threat then threat else .null)
    , ("IsStation", if isBoolJ is_station then is_station else .null)
    , ("TimeRemaining", if isIntJ time_rem then time_rem else .null)
    , ("LastSeen", if isStrJ ts then ts else .str "") ]
  let g0 ← getGS
  let sigs := g0.system_signals
  let sigs1 :=
    match findSigIdx sigs key with
    | none => sigs ++ [.obj entry]
    | some i =>
        sigs.mapIdx fun j s =>
          if j == i then
            match s with
            | .obj kvs => JVal.obj (objUpdate kvs entry)
            | s => s
          else s
  let sigs2 :=
    if sigs1.length > maxSigs then sigs1.drop (sigs1.length - maxSigs) else sigs1
  modGS fun g => { g with system_signals := sigs2 }
  pure false

/-- The per-signal bio/geo count loop shared by the inline FSSBodySignals
(event_engine.py:522) and SAASignalsFound (event_engine.py:569)
branches. -/
def bioGeoCounts (bio geo : Int) : List JVal → PyM (Int × Int)
  | [] => pure (bio, geo)
  | sig :: rest => do
      let traw ← pyAttrGet sig "Type"
      let t := pyOr traw (.str "")
      let tlraw ← pyAttrGet sig "Type_Localised"
      let tl := pyOr tlraw (.str "")
      let tlow ← pyLowerM t
      let isBio ←
        if strContains tlow "biological" then
          pure true
        else do
          let tls ← pyStripM tl
          pure (pyLower tls == "biological")
      let bio1 ←
        if isBio then do
          let c ← pyAttrGetD sig "Count" (.int 0)
          pure (if isIntJ c then jvalAsInt c else bio)
        else
          pure bio
      let isGeo ←
        if strContains tlow "geological" then
          pure true
        else do
          let tls ← pyStripM tl
          pure (pyLower tls == "geological")
      let geo1 ←
        if isGeo then do
          let c ← pyAttrGetD sig "Count" (.int 0)
          pure (if isIntJ c then jvalAsInt c else geo)
        else
          pure geo
      bioGeoCounts bio1 geo1 rest

/-- The placeholder Body Record created when only signal counts are known
(event_engine.py:541 and event_engine.py:605). -/
def placeholderBody (body : String) (body_id : JVal) : JObj :=
  [ ("BodyName", .str body)
  , ("BodyID", if isIntJ body_id then body_id else .null)
  , ("PlanetClass", .str "")
  , ("DistanceLS", .null)
  , ("EstimatedValue", .null)
  , ("Terraformable", .bool false)
  , ("FirstDiscovered", .bool false)
  , ("Mapped", .bool false) ]

/-- Inline FSSBodySignals branch (event_engine.py:510). -/
def branchFSSBodySignals (cfg : EngineCfg) (e : JObj) : PyM Bool := do
  let body := normText (jget e "BodyName")
  if body == "" then
    pure true
  else do
    let body_id := jget e "BodyID"
    if isIntJ body_id then
      modGS fun g =>
        { g with body_id_to_name := alSet g.body_id_to_name (jvalAsInt body_id) body }
    else
      pure ()
    let sigs ← pyIterM (pyOr (jget e "Signals") (.arr []))
    let bg ← bioGeoCounts 0 0 sigs
    modGS fun g =>
      { g with
        bio_signals := alSet g.bio_signals body bg.1
        geo_signals := alSet g.geo_signals body bg.2 }
    let g1 ← getGS
    let rec0 := (alGet? g1.bodies body).getD (placeholderBody body body_id)
    let rec1 := if isIntJ body_id then alSet rec0 "BodyID" body_id else rec0
    let rec2 := alSet (alSet rec1 "BioSignals" (.int bg.1)) "GeoSignals" (.int bg.2)
    modGS fun g => { g with bodies := alSet g.bodies body rec2 }
    pure false

/-- Inline SAASignalsFound branch (event_engine.py:557). -/
def branchSAASignalsFound (cfg : EngineCfg) (e : JObj) : PyM Bool := do
  let body := normText (jget e "BodyName")
  if body == "" then
    pure true
  else do
    let body_id := jget e "BodyID"
    if isIntJ body_id then
      modGS fun g =>
        { g with body_id_to_name := alSet g.body_id_to_name (jvalAsInt body_id) body }
    else
      pure ()
    let sigs ← pyIterM (pyOr (jget e "Signals") (.arr []))
    let bg ← bioGeoCounts 0 0 sigs
    if bg.1 != 0 then
      modGS fun g => { g with bio_signals := alSet g.bio_signals body bg.1 }
    else
      pure ()
    let gl ← pyIterM (pyOr (jget e "Genuses") (.arr []))
    let genuses := gl.filterMap fun gv =>
      match gv with
      | .obj kvs =>
          let gn := normText (pyOr (jget kvs "Genus_Localised") (jget kvs "Genus"))
          if gn != "" then some gn else none
      | _ => none
    match genuses with
    | [] => pure ()
    | _ =>
        modGS fun g =>
          { g with bio_genuses := alSet g.bio_genuses body (dedupSeen [] genuses) }
    let g1 ← getGS
    let rec0 := (alGet? g1.bodies body).getD (placeholderBody body body_id)
    let rec1 := if isIntJ body_id then alSet rec0 "BodyID" body_id else rec0
    let rec2 := alSet rec1 "BioSignals"
      (match alGet? g1.bio_signals body with
       | some n => .int n
       | none => jgetD rec1 "BioSignals" (.int 0))
    let rec3 := alSet rec2 "BioGenuses"
      (match alGet? g1.bio_genuses body with
       | some gs => .arr (gs.map JVal.str)
       | none => jgetD rec2 "BioGenuses" (.arr []))
    let rec4 := alSet rec3 "GeoSignals"
      (match alGet? g1.geo_signals body with
       | some n => .int n
       | none => jgetD rec3 "GeoSignals" (.int 0))
    modGS fun g => { g with bodies := alSet g.bodies body rec4 }
    pure false

/-- The Codex-placeholder cleanup loop of the inline ScanOrganic branch
(event_engine.py:636): drop every key of the same body whose third part
is the CODEX marker and whose genus part normalizes to this genus. -/
def codexCleanup (exo : List (String × JObj)) (bidS genus : String) :
    List (String × JObj) :=
  (exo.map Prod.fst).foldl
    (fun ex k =>
      if !strStarts k (bidS ++ "|") then ex
      else
        let parts := splitPipe k
        if decide (parts.length ≥ 3) && parts.getD 0 "" == bidS
            && parts.getD 2 "" == "CODEX" then
          if normText (.str (parts.getD 1 "")) == genus then alPop ex k else ex
        else ex)
    exo

/-- rec.get(fld) in (None, "", 0), the emptiness test of the legacy-key
migration (event_engine.py:668). -/
def isNoneEmpty0 (v : JVal) : Bool :=
  pyEq v .null || pyEq v (.str "") || pyEq v (.int 0)

/-- One legacy key folded into the canonical record
(event_engine.py:655): Samples merge by max (skipped if either side does
not coerce to int), Complete by or, descriptive fields first-non-empty;
the legacy key is popped. -/
def legacyMergeStep (key : String)
    (acc : JObj × List (String × JObj)) (k : String) :
    JObj × List (String × JObj) :=
  if !strStarts k (key ++ "|") then acc
  else
    let rec0 := acc.1
    let exo := acc.2
    match alGet? exo k with
    | some old =>
        let rs := pyToInt (pyOr (jgetD rec0 "Samples" (.int 0)) (.int 0))
        let os := pyToInt (pyOr (jgetD old "Samples" (.int 0)) (.int 0))
        let rec1 :=
          match rs, os with
          | some a, some b => alSet rec0 "Samples" (.int (max a b))
          | _, _ => rec0
        let rec2 := alSet rec1 "Complete"
          (.bool (truthy (jget rec1 "Complete") || truthy (jget old "Complete")))
        let rec3 :=
          ["Variant", "BaseValue", "PotentialValue", "LastScanType"].foldl
            (fun r fld =>
              if isNoneEmpty0 (jget r fld) && !isNoneEmpty0 (jget old fld) then
                alSet r fld (jget old fld)
              else r)
            rec2
        (rec3, alPop exo k)
    | none => (rec0, alPop exo k)

/-- Inline ScanOrganic branch (event_engine.py:623). -/
def branchScanOrganic (cfg : EngineCfg) (e : JObj) : PyM Bool := do
  let scan_type ← pyStripM (pyOr (jget e "ScanType") (.str ""))
  let genus :=
    let x := normText (pyOr (jget e "Genus_Localised") (jget e "Genus"))
    if x == "" then "Unknown Genus" else x
  let species :=
    let x := normText (pyOr (jget e "Species_Localised") (jget e "Species"))
    if x == "" then "Unknown Species" else x
  let variant := normText (pyOr (jget e "Variant_Localised") (pyOr (jget e "Variant") (.str "")))
  let body_id := jget e "Body"
  if !isIntJ body_id then
    pure true
  else do
    modGS fun g => { g with exo := codexCleanup g.exo (pyStr body_id) genus }
    let key := pyStr body_id ++ "|" ++ genus ++ "|" ++ species
    let g1 ← getGS
    let rec0 := (alGet? g1.exo key).getD []
    let merged := (g1.exo.map Prod.fst).foldl (legacyMergeStep key) (rec0, g1.exo)
    modGS fun g => { g with exo := merged.2 }
    let rec1 := objUpdate merged.1
      [ ("BodyID", body_id)
      , ("Genus", .str genus)
      , ("Species", .str species)
      , ("Variant", if variant != "" then .str variant
                    else pyOr (jget merged.1 "Variant") (.str ""))
      , ("LastScanType", .str scan_type) ]
    let rec2 :=
      match cfg.exo_values with
      | some t =>
          match pyOrOptInt (t.getValue variant) (t.getValue species) with
          | some v => alSet rec1 "BaseValue" (.int v)
          | none => rec1
      | none => rec1
    let progress0 ← pyIntM (pyOr (jgetD rec2 "Samples" (.int 0)) (.int 0))
    let stl := pyLower scan_type
    let progress :=
      if stl == "log" then max progress0 1
      else if stl == "sample" then min 3 (max progress0 0 + 1)
      else if stl == "analyse" then max progress0 3
      else progress0
    let rec3 := alSet rec2 "Samples" (.int progress)
    let rec4 := alSet rec3 "Complete" (.bool (progress ≥ 3 || stl == "analyse"))
    modGS fun g => { g with exo := alSet g.exo key rec4 }
    pure false

/-- Inline CodexEntry branch (event_engine.py:708). -/
def branchCodexEntry (cfg : EngineCfg) (e : JObj) : PyM Bool := do
  let body_id := jget e "BodyID"
  let name_loc := pyOr (jget e "Name_Localised") (.str "")
  let entry_id := jget e "EntryID"
  let v := jget e "VoucherAmount"
  if isIntJ v && jvalAsInt v > 0 then
    modGS fun g =>
      { g with session_codex_collected := g.session_codex_collected + jvalAsInt v }
  else
    pure ()
  if !isIntJ body_id || !isStrJ name_loc || pyStrip (pyStr name_loc) == "" then
    pure true
  else do
    let nmS := pyStrip (pyStr name_loc)
    let genus0 := normText (.str (pyStrip (splitOnce nmS " ").1))
    if genus0 == "" then
      pure true
    else do
      let g0 ← getGS
      let blocked := g0.exo.any fun p =>
        let r := p.2
        pyEq (jget r "BodyID") body_id &&
          (let gg := pyStrip (pyStr (pyOr (jgetD r "Genus" (.str "")) (.str "")))
           let last := pyUpper (pyStrip (pyStr (pyOr (jgetD r "LastScanType" (.str "")) (.str ""))))
           last != "CODEX" && gg == genus0)
      if blocked then
        pure true
      else do
        let exoRec :=
          match cfg.exo_values with
          | some t =>
              match alGet? t.by_species nmS with
              | some er => some er
              | none =>
                  if strContains nmS " - " then
                    alGet? t.by_species (pyStrip (splitOnce nmS " - ").1)
                  else none
          | none => none
        let genus1 :=
          match exoRec with
          | some er => if er.genus != "" then er.genus else genus0
          | none => genus0
        let pot :=
          match cfg.exo_values with
          | some t =>
              match exoRec with
              | some er => some er.base_value
              | none =>
                  pyOrOptInt (t.getValue nmS)
                    (if strContains nmS " - " then
                      t.getValue (pyStrip (splitOnce nmS " - ").1)
                    else none)
          | none => none
        let st0 :=
          if strContains nmS " - " then pyStrip (splitOnce nmS " - ").1 else nmS
        let vt0 :=
          if strContains nmS " - " then pyStrip (splitOnce nmS " - ").2 else ""
        let species_txt :=
          match exoRec with
          | some er => if er.species != "" then er.species else st0
          | none => st0
        -- ExoSpeciesValue has no variant attribute, so the source's
        -- getattr(exo_rec, "variant", None) is always None and vt0 wins.
        let variant_txt := vt0
        let codex_key := pyStr body_id ++ "|" ++ genus1 ++ "|CODEX"
        let legPref := pyStr body_id ++ "|" ++ genus1 ++ "|CODEX|"
        let g05 ← getGS
        let exo2 := (g05.exo.map Prod.fst).foldl
          (fun ex k => if strStarts k legPref then alPop ex k else ex) g05.exo
        modGS fun g => { g with exo := exo2 }
        let g1 ← getGS
        let rec0 := (alGet? g1.exo codex_key).getD []
        let rec1 := objUpdate rec0
          [ ("BodyID", body_id)
          , ("Genus", .str genus1)
          , ("Species", .str species_txt)
          , ("Variant", .str variant_txt)
          , ("Samples", .int 0)
          , ("Complete", .bool false)
          , ("LastScanType", .str "CODEX")
          , ("CodexEntryID", entry_id)
          , ("CodexName", .str nmS)
          , ("BaseValue", optIntJ pot)
          , ("PotentialValue", optIntJ pot) ]
        modGS fun g => { g with exo := alSet g.exo codex_key rec1 }
        pure false

/-- The Value plus Bonus accumulation of the inline SellOrganicData
branch (event_engine.py:814). -/
def sellOrganicTotal (acc : Int) : List JVal → PyM Int
  | [] => pure acc
  | item :: rest => do
      let vv ← pyAttrGetD item "Value" (.int 0)
      let bb ← pyAttrGetD item "Bonus" (.int 0)
      let acc1 := if isIntJ vv then acc + jvalAsInt vv else acc
      let acc2 := if isIntJ bb then acc1 + jvalAsInt bb else acc1
      sellOrganicTotal acc2 rest

/-- Inline SellOrganicData branch (event_engine.py:811). -/
def branchSellOrganicData (cfg : EngineCfg) (e : JObj) : PyM Bool := do
  let items ← pyIterM (pyOr (jget e "BioData") (.arr []))
  let total ← sellOrganicTotal 0 items
  if total > 0 then do
    modGS fun g =>
      { g with session_exo_earnings := g.session_exo_earnings + total }
    emit ("Exobiology sold: " ++ fmtComma total ++ " cr")
  else
    pure ()
  pure false

/-- EventEngine.process (event_engine.py:128): record the event name,
apply the cross-cutting credits update or run the matching inline branch
(the source chains these with elif), then, unless an inline branch
returned early, run the ordered handler chain. -/
def processM (cfg : EngineCfg) (e : JObj) : PyM Unit := do
  let name := jget e "event"
  modGS fun g => { g with last_event := name }
  let credits := jget e "Credits"
  let early ←
    if isIntJ credits then do
      modGS fun g => { g with credits := credits }
      pure false
    else if pyEq name (.str "Location") then branchLocation cfg e
    else if pyEq name (.str "StartJump") then branchStartJump cfg e
    else if pyEq name (.str "ShipTargeted") then branchShipTargeted cfg e
    else if pyEq name (.str "Powerplay") then branchPowerplay cfg e
    else if pyEq name (.str "Cargo") then branchCargo cfg e
    else if pyEq name (.str "Scan") then branchScan cfg e
    else if pyEq name (.str "SAAScanComplete") then branchSAAScanComplete cfg e
    else if pyEq name (.str "FSSDiscoveryScan") then branchFSSDiscoveryScan cfg e
    else if pyEq name (.str "FSSSignalDiscovered") then branchFSSSignalDiscovered cfg e
    else if pyEq name (.str "FSSBodySignals") then branchFSSBodySignals cfg e
    else if pyEq name (.str "SAASignalsFound") then branchSAASignalsFound cfg e
    else if pyEq name (.str "ScanOrganic") then branchScanOrganic cfg e
    else if pyEq name (.str "CodexEntry") then branchCodexEntry cfg e
    else if pyEq name (.str "SellOrganicData") then branchSellOrganicData cfg e
    else pure false
  if early then
    pure ()
  else
    runHandlerChain
      [ inventoryHandle cfg name e
      , explorationHandle cfg name e
      , exobioHandle cfg name e
      , powerplayHandle cfg name e
      , miscHandle cfg name e ]

/-- Run process on a state with a fresh msgs list. -/
def processRun (cfg : EngineCfg) (e : JObj) (g : GameState) :
    EngSt × Except String Unit :=
  processM cfg e { gs := g, msgs := [] }

/-- The state after one process call (partial mutations are kept when the
call raises, since the source mutates the shared state in place). -/
def processState (cfg : EngineCfg) (e : JObj) (g : GameState) : GameState :=
  (processRun cfg e g).1.gs

/-- The ui messages of one process call. -/
def processMsgs (cfg : EngineCfg) (e : JObj) (g : GameState) : List String :=
  (processRun cfg e g).1.msgs

/-- The exception, if any, that one process call raises to its caller. -/
def processErr (cfg : EngineCfg) (e : JObj) (g : GameState) : Option String :=
  match (processRun cfg e g).2 with
  | .error s => some s
  | .ok _ => none

/-- Feed a sequence of events through process, one call per event. -/
def processSeq (cfg : EngineCfg) (evs : List JObj) (g : GameState) : GameState :=
  evs.foldl (fun st ev => processState cfg ev st) g

/-
Log Watcher: the pure event-selection core of
JournalWatcher.bootstrap of the newest system
(src/edc/core/journal_watcher.py:111).  The file reading and JSON
decoding around it are I/O; the claims below are about the selection of
the decoded window.
-/

/-- events[i].get("event") in ("Location", "FSDJump"): the system
boundary test of the bootstrap anchor loop (journal_watcher.py:118). -/
def isBoundaryEv (e : JObj) : Bool :=
  pyEq (jget e "event") (.str "Location") || pyEq (jget e "event") (.str "FSDJump")

/-- The anchor index: the loop walks i from len-1 down to 0 and stops at
the first boundary event; 0 when none exists (journal_watcher.py:115). -/
def bootstrapAnchor (events : List JObj) : Nat :=
  match (List.range events.length).reverse.find?
      (fun i => isBoundaryEv (events.getD i [])) with
  | some i => i
  | none => 0

/-- The events the bootstrap forwards: none when the window decoded no
events, otherwise events[anchor:] (journal_watcher.py:122). -/
def bootstrapForwarded (events : List JObj) : List JObj :=
  match events with
  | [] => []
  | _ => events.drop (bootstrapAnchor events)

/-
Projections and well-formedness predicates used by the claims.
-/

/-- The canonical Exo Record key f"{body_id}|{genus}|{species}"
(event_engine.py:649). -/
def exoKey (body_id : JVal) (genus species : String) : String :=
  pyStr body_id ++ "|" ++ genus ++ "|" ++ species

/-- The stored Samples progress at an exo key (0 when the key or the
field is absent). -/
def samplesAt (g : GameState) (k : String) : Int :=
  match alGet? g.exo k with
  | some r =>
      match jget r "Samples" with
      | .int n => n
      | _ => 0
  | none => 0

/-- The stored Complete flag at an exo key. -/
def completeAt (g : GameState) (k : String) : JVal :=
  match alGet? g.exo k with
  | some r => jget r "Complete"
  | none => .null

/-- A well-formed Samples field: absent, or an int in 0..3.  This is the
session invariant the spec states for sample progress. -/
def samplesOK (r : JObj) : Prop :=
  match jget r "Samples" with
  | .null => True
  | .int n => 0 ≤ n ∧ n ≤ 3
  | _ => False

/-- Every stored exo record has a well-formed Samples field. -/
def samplesWF (g : GameState) : Prop :=
  ∀ p ∈ g.exo, samplesOK p.2

/-- All per-system collections listed by the system-change clearing claim
are empty, and the discovery counts are reset. -/
def perSystemCleared (g : GameState) : Prop :=
  g.bodies = [] ∧ g.exo = [] ∧ g.body_id_to_name = [] ∧
  g.bio_signals = [] ∧ g.bio_genuses = [] ∧ g.geo_signals = [] ∧
  g.system_signals = [] ∧ g.external_pois = [] ∧
  g.system_body_count = .null ∧ g.non_body_count = .null

/-- The commander-wide inventories and session earnings ledgers named by
the system-change claim, as one tuple. -/
def commanderWide (g : GameState) :=
  (g.materials_raw, g.materials_manufactured, g.materials_encoded,
   g.materials_raw_loc, g.materials_manufactured_loc, g.materials_encoded_loc,
   g.shiplocker_items, g.shiplocker_items_loc, g.cargo_inventory,
   g.session_exo_earnings, g.session_exobio_earnings,
   g.session_exploration_earnings, g.session_codex_earnings,
   g.session_codex_collected, g.session_voucher_earnings)

/-- The per-system metadata fields, as one tuple: after a system change
they must be derived from the new event alone. -/
def sysMeta (g : GameState) :=
  (g.system_allegiance, g.system_government, g.system_economy,
   g.system_security, g.population, g.controlling_faction, g.factions,
   g.system_controlling_power, g.system_powerplay_state, g.system_powers,
   g.system_powerplay_conflict_progress)

/-- The name/count pair one category entry contributes: a dict with a
string Name, an int Count and a nonempty normalized key. -/
def validEntry (rec : JVal) : Option (String × Int) :=
  match rec with
  | .obj kvs =>
      match jget kvs "Name" with
      | .str nms =>
          if isIntJ (jget kvs "Count") then
            let key := pyLower (pyStrip nms)
            if key == "" then none
            else some (key, jvalAsInt (jget kvs "Count"))
          else none
      | _ => none
  | _ => none

/-- The name/count pairs a materials-category list actually folds, with
their normalized keys, in order. -/
def validCounts (xs : List JVal) : List (String × Int) :=
  xs.filterMap validEntry

/-- The sum of a nonempty selection, none for an empty one. -/
def optSum (l : List Int) : Option Int :=
  match l with
  | [] => none
  | _ => some l.sum

/-- The value v.get(k) returns when v is a dict. -/
def objGetVal (v : JVal) (k : String) : JVal :=
  match v with
  | .obj kvs => jget kvs k
  | _ => .null

/-- The value v.get(k, d) returns when v is a dict. -/
def objGetValD (v : JVal) (k : String) (d : JVal) : JVal :=
  match v with
  | .obj kvs => jgetD kvs k d
  | _ => .null

/-- Values Python can iterate among the decoded ones. -/
def iterableJ : JVal → Bool
  | .arr _ => true
  | .str _ => true
  | .obj _ => true
  | _ => false

/-- The item list iteration yields. -/
def iterList : JVal → List JVal
  | .arr xs => xs
  | .str s => s.data.map (fun c => JVal.str (String.mk [c]))
  | .obj kvs => kvs.map (fun p => JVal.str p.1)
  | _ => []

/-- The error message int(v) raises with. -/
def pyIntErr : JVal → String
  | .str _ => "ValueError: int"
  | _ => "TypeError: int"

/-
Concrete inputs used by the counterexample and witness theorems.
-/

/-- An engine with no reference tables and no external intel, the
constructor defaults. -/
def cfg0 : EngineCfg := {}

/-- A planet-value row for (Water World, not terraformable). -/
def wwRow : PlanetValueRow :=
  { planet_type := "Water World", terraformable := false,
    fss := some 99, fss_dss := some 1250, fss_fd := some 1750,
    fss_fd_dss := some 4400 }

/-- A planet-value table with the single Water World row. -/
def wwTable : PlanetValueTable :=
  mkPlanetValueTable [(("Water World", false), wwRow)]

/-- A row keyed "AB" whose normal form collides with "A B". -/
def rowAB : PlanetValueRow :=
  { planet_type := "AB", terraformable := false,
    fss := some 1, fss_dss := some 2, fss_fd := some 100,
    fss_fd_dss := some 4 }

/-- A row keyed "A B" with different figures. -/
def rowA_B : PlanetValueRow :=
  { planet_type := "A B", terraformable := false,
    fss := some 10, fss_dss := some 20, fss_fd := some 200,
    fss_fd_dss := some 40 }

/-- A table whose two planet types share the normal form "ab"; the
normalization map keeps the later row's type. -/
def collideTable : PlanetValueTable :=
  mkPlanetValueTable [(("AB", false), rowAB), (("A B", false), rowA_B)]

/-- The last element of an integer list, none for the empty list. -/
def lastOf : List Int → Option Int
  | [] => none
  | [x] => some x
  | _ :: y :: rest => lastOf (y :: rest)

/-- The counts a category list carries for one normalized name, in
order. -/
def valsFor (xs : List JVal) (k : String) : List Int :=
  ((validCounts xs).filter (fun p => p.1 == k)).map Prod.snd

/-- A Materials event whose Raw list names iron twice, with counts 2 and
3. -/
def evMatIron : JObj :=
  [ ("event", .str "Materials")
  , ("Raw", .arr
      [ .obj [("Name", .str "iron"), ("Count", .int 2)]
      , .obj [("Name", .str "iron"), ("Count", .int 3)] ]) ]

/-- The same duplicated iron list as a ShipLocker event. -/
def evLockIron : JObj :=
  [ ("event", .str "ShipLocker")
  , ("Items", .arr
      [ .obj [("Name", .str "iron"), ("Count", .int 2)]
      , .obj [("Name", .str "iron"), ("Count", .int 3)] ]) ]

/-- A Location event whose SystemFaction is a bare string, as older
journals emit. -/
def evLocBadFaction : JObj :=
  [ ("event", .str "Location"), ("StarSystem", .str "X")
  , ("SystemFaction", .str "Pilots Federation") ]

/-- A Scan event whose TerraformState is a (truthy) non-string. -/
def evScanBadTerraform : JObj :=
  [ ("event", .str "Scan"), ("BodyName", .str "B 1")
  , ("PlanetClass", .str "Icy body"), ("TerraformState", .int 1) ]

/-- A session state in system Alpha holding one body record. -/
def stateAlpha : GameState :=
  { initGameState with
    system := .str "Alpha"
    bodies := [("X", [("BodyName", .str "X")])] }

/-- A Location event for system Beta that also carries an integer
Credits field. -/
def evLocBeta5 : JObj :=
  [ ("event", .str "Location"), ("StarSystem", .str "Beta")
  , ("Credits", .int 5) ]

/-- The same Location event without Credits. -/
def evLocBeta : JObj :=
  [ ("event", .str "Location"), ("StarSystem", .str "Beta") ]

/-- The Combat Contact dedupe key built by the inline ShipTargeted
branch from the raw PilotName/Ship/Faction fields (event_engine.py:291):
Power is deliberately not part of it. -/
def contactKey (p sh f : String) : String :=
  pyStrip p ++ "|" ++ pyStrip sh ++ "|" ++ pyStrip f

/-- The Combat Contact row the inline ShipTargeted branch stores
(event_engine.py:296), as a function of the event. -/
def contactRow (e : JObj) : JObj :=
  [ ("Pilot", pyOr (jget e "PilotName_Localised") (pyOr (jget e "PilotName") (.str "")))
  , ("Rank", .str (rankNameOf (jget e "PilotRank")))
  , ("Ship", pyOr (jget e "Ship_Localised") (pyOr (jget e "Ship") (.str "")))
  , ("Faction", pyOr (jget e "Faction") (.str ""))
  , ("Power", if isStrJ (jget e "Power") then jget e "Power" else .str "")
  , ("Wanted", .bool (isStrJ (pyOr (jget e "LegalStatus") (.str ""))
      && pyLower (pyStrip (pyStr (pyOr (jget e "LegalStatus") (.str "")))) == "wanted"))
  , ("Bounty", if isIntJ (jget e "Bounty") then jget e "Bounty" else .null)
  , ("LastSeen", pyOr (jget e "timestamp") (.str "")) ]

/-- A ShipTargeted event at final scan stage with the given raw pilot,
ship, faction and affiliated power, and no integer Credits field. -/
def shipTargetedShape (e : JObj) (p sh f pw : String) : Prop :=
  jget e "event" = .str "ShipTargeted" ∧
  isIntJ (jget e "Credits") = false ∧
  pyEq (jget e "TargetLocked") (.bool false) = false ∧
  jget e "ScanStage" = .int 3 ∧
  jget e "PilotName" = .str p ∧
  jget e "Ship" = .str sh ∧
  jget e "Faction" = .str f ∧
  jget e "Power" = .str pw

/-- A concrete final-stage ShipTargeted event carrying the given
affiliated power. -/
def evTargeted (pw : String) : JObj :=
  [ ("event", .str "ShipTargeted"), ("ScanStage", .int 3)
  , ("PilotName", .str "Bob"), ("Ship", .str "anaconda")
  , ("Faction", .str "Reds"), ("Power", .str pw) ]

/-- The alert message the ShipTargeted alert tail builds
(event_engine.py:336). -/
def alertText (pp_enemy : Bool) (rank_name : String)
    (tp pilot ship faction bounty : JVal) (is_wanted : Bool) : String :=
  let who_bits :=
    ([pilot, ship, faction].filter
      (fun x => isStrJ x && pyStrip (pyStr x) != "")).map pyStr
  let who :=
    match who_bits with
    | [] => "Unknown target"
    | _ => joinSep " — " who_bits
  let head :=
    "⚔️ " ++ (if pp_enemy then "PP enemy" else "High bounty") ++ " scan: " ++ who
  joinSep " | "
    ([head]
      ++ (if rank_name != "" then ["Rank: " ++ rank_name] else [])
      ++ (if truthy tp then ["Power: " ++ pyStr tp] else [])
      ++ (if is_wanted then ["Wanted"] else [])
      ++ (if isIntJ bounty && jvalAsInt bounty > 0 then
            ["Bounty: " ++ fmtComma (jvalAsInt bounty) ++ " cr"]
          else []))

/-- The engine context after the ShipTargeted alert tail ran. -/
def alertResult (pp_enemy : Bool) (rank_name : String)
    (tp pilot ship faction bounty : JVal) (is_wanted : Bool) (st : EngSt) :
    EngSt :=
  let alert := alertText pp_enemy rank_name tp pilot ship faction bounty is_wanted
  let gs1 :=
    if st.gs.current_contact_alert != alert then
      { st.gs with current_contact_alert := alert, pp_enemy_alerts := [alert] }
    else
      st.gs
  { gs := gs1, msgs := st.msgs ++ [alert] }

/-- The Wanted flag the inline ShipTargeted branch computes. -/
def wantedOf (e : JObj) : Bool :=
  isStrJ (pyOr (jget e "LegalStatus") (.str "")) &&
    pyLower (pyStrip (pyStr (pyOr (jget e "LegalStatus") (.str "")))) == "wanted"

/-- The inline ShipTargeted branch, mirrored as a pure function on the
engine context for a final-stage scan with string pilot, ship, faction
and power fields: the updated context and the early-return flag. -/
def stgtSt (e : JObj) (p sh f pw : String) (st : EngSt) : EngSt × Bool :=
  let key := contactKey p sh f
  let st1 : EngSt :=
    { st with gs :=
        { st.gs with
          combat_contacts := alSet st.gs.combat_contacts key (contactRow e)
          combat_current_key := key } }
  if !truthy st.gs.pp_power then (st1, true)
  else
    let tp : JVal := .str pw
    let rank_name := rankNameOf (jget e "PilotRank")
    let pilot := pyOr (jget e "PilotName_Localised") (pyOr (jget e "PilotName") (.str ""))
    let ship := pyOr (jget e "Ship_Localised") (pyOr (jget e "Ship") (.str ""))
    let bounty := jget e "Bounty"
    let in_my_pp_space := isStrJ st.gs.system_controlling_power &&
      pyEq st.gs.system_controlling_power st.gs.pp_power
    let bounty_ok := isIntJ bounty && jvalAsInt bounty ≥ 500000
    let rank_ok := ["dangerous", "deadly", "elite"].contains (pyLower rank_name)
    let bounty_target := wantedOf e && bounty_ok && rank_ok
    let pp_enemy := truthy tp && !pyEq tp st.gs.pp_power
    if in_my_pp_space then
      if !(pp_enemy || bounty_target) then (st1, true)
      else
        (alertResult pp_enemy rank_name tp pilot ship (.str f) bounty (wantedOf e) st1,
         false)
    else
      if !bounty_target then (st1, true)
      else
        (alertResult pp_enemy rank_name tp pilot ship (.str f) bounty (wantedOf e) st1,
         false)

/-- The misc handler's ShipTargeted branch (misc.py:43), mirrored as a
pure state transformer: two guarded field writes. -/
def miscStgtSt (e : JObj) (st : EngSt) : EngSt :=
  let tgt := jget e "Ship"
  let st1 := if isStrJ tgt && pyStrip (pyStr tgt) != "" then
      { st with gs := { st.gs with last_target_ship := tgt } }
    else st
  let pilot := pyOr (jget e "PilotName_Localised") (jget e "PilotName")
  if isStrJ pilot && pyStrip (pyStr pilot) != "" then
      { st1 with gs := { st1.gs with last_target_pilot := pilot } }
  else st1

/-- The dedupe key of the inline FSSSignalDiscovered branch
(event_engine.py:473). -/
def fssKey (e : JObj) : String :=
  let sig_name := pyOr (jget e "SignalName_Localised") (pyOr (jget e "SignalName") (.str ""))
  let sig_type := pyOr (jget e "SignalType") (pyOr (jget e "SignalType_Localised") (.str ""))
  let uss := pyOr (jget e "USSType_Localised") (pyOr (jget e "USSType") (.str ""))
  pyStr sig_name ++ "|" ++ pyStr sig_type ++ "|" ++ pyStr uss
    ++ "|" ++ pyStr (jget e "ThreatLevel") ++ "|" ++ pyStr (jget e "IsStation")

/-- The entry dict of the inline FSSSignalDiscovered branch
(event_engine.py:476). -/
def fssEntry (e : JObj) : JObj :=
  let sig_name := pyOr (jget e "SignalName_Localised") (pyOr (jget e "SignalName") (.str ""))
  let sig_type := pyOr (jget e "SignalType") (pyOr (jget e "SignalType_Localised") (.str ""))
  let uss := pyOr (jget e "USSType_Localised") (pyOr (jget e "USSType") (.str ""))
  let threat := jget e "ThreatLevel"
  let is_station := jget e "IsStation"
  let time_rem := jget e "TimeRemaining"
  let ts := pyOr (jget e "timestamp") (.str "")
  [ ("Key", .str (fssKey e))
  , ("SignalName", sig_name)
  , ("SignalType", sig_type)
  , ("USSType", uss)
  , ("Category", .str (classifySystemSignal sig_name uss is_station sig_type))
  , ("ThreatLevel", if isIntJ threat then threat else .null)
  , ("IsStation", if isBoolJ is_station then is_station else .null)
  , ("TimeRemaining", if isIntJ time_rem then time_rem else .null)
  , ("LastSeen", if isStrJ ts then ts else .str "") ]

/-- The system_signals list the inline FSSSignalDiscovered branch stores:
dedupe/update or append, then truncate to the newest maxSigs entries
(event_engine.py:488). -/
def fssSigs (e : JObj) (sigs : List JVal) : List JVal :=
  let sigs1 :=
    match findSigIdx sigs (fssKey e) with
    | none => sigs ++ [.obj (fssEntry e)]
    | some i =>
        sigs.mapIdx fun j s =>
          if j == i then
            match s with
            | .obj kvs => JVal.obj (objUpdate kvs (fssEntry e))
            | s => s
          else s
  if sigs1.length > maxSigs then sigs1.drop (sigs1.length - maxSigs) else sigs1

/-- The classification string the exploration handler appends for a
FSSSignalDiscovered event (exploration.py:203; the handler passes
sig_type, sig_name, is_station positionally into the engine's
signal_name, uss_type, is_station slots). -/
def fssHandlerCls (e : JObj) : String :=
  classifySystemSignal (jget e "SignalType") (jget e "SignalName")
    (if jmem e "IsStation" then .bool (truthy (jget e "IsStation")) else .bool false)
    .null

/-- A discovered-signal event with a string SignalType and no Credits. -/
def ev5 : JObj :=
  [ ("event", .str "FSSSignalDiscovered"), ("SignalType", .str "USS") ]

/-- A session state already holding exactly the cap of signal entries. -/
def g200 : GameState :=
  { initGameState with system_signals := List.replicate maxSigs (.obj []) }

/-- A Location event naming the given star system, with no integer
Credits field and with the faction/powers fields in the shapes the
inline branch iterates without faulting (absent fields included). -/
def evLocShape (e : JObj) (ns : String) : Prop :=
  jget e "event" = .str "Location" ∧
  isIntJ (jget e "Credits") = false ∧
  jget e "StarSystem" = .str ns ∧
  isObjJ (pyOr (jgetD e "SystemFaction" (.obj [])) (.obj [])) = true ∧
  isArrJ (pyOr (jget e "Powers") (.arr [])) = true ∧
  isArrJ (pyOr (jget e "PowerplayConflictProgress") (.arr [])) = true

/-- An FSDJump event naming the given star system, with no integer
Credits field. -/
def evFsdShape (e : JObj) (ns : String) : Prop :=
  jget e "event" = .str "FSDJump" ∧
  isIntJ (jget e "Credits") = false ∧
  jget e "StarSystem" = .str ns

/-- The spec's per-system collections, all empty (spec: system-change
clearing leaves bodies, exo records, body-id map, bio/geo signal maps,
the signal list and external POIs empty). -/
def perSystemEmpty (g : GameState) : Prop :=
  g.bodies = [] ∧ g.exo = [] ∧ g.body_id_to_name = [] ∧
  g.bio_signals = [] ∧ g.bio_genuses = [] ∧ g.geo_signals = [] ∧
  g.system_signals = [] ∧ g.external_pois = []

/-- The spec's commander-wide inventories and session ledgers, equal
across two states (spec: never cleared by a system change). -/
def commanderWideEq (a b : GameState) : Prop :=
  a.materials_raw = b.materials_raw ∧
  a.materials_manufactured = b.materials_manufactured ∧
  a.materials_encoded = b.materials_encoded ∧
  a.shiplocker_items = b.shiplocker_items ∧
  a.cargo_inventory = b.cargo_inventory ∧
  a.session_exo_earnings = b.session_exo_earnings ∧
  a.session_exobio_earnings = b.session_exobio_earnings ∧
  a.session_exploration_earnings = b.session_exploration_earnings ∧
  a.session_codex_earnings = b.session_codex_earnings ∧
  a.session_voucher_earnings = b.session_voucher_earnings

/-- The inline Location branch, mirrored as a pure state transformer for
a system-changing event whose faction dict and power lists destructure
to the given values (event_engine.py:140). -/
def locStM (cfg : EngineCfg) (e : JObj) (kvs : JObj) (pwl pcl : List JVal)
    (ns : String) (st : EngSt) : EngSt :=
  let g2 :=
    { clearPerSystem st.gs with
      system := .str ns
      in_hyperspace := false
      jump_star_class := .null
      system_allegiance := jget e "SystemAllegiance"
      system_government :=
        pyOr (jget e "SystemGovernment_Localised") (jget e "SystemGovernment")
      system_economy :=
        pyOr (jget e "SystemEconomy_Localised") (jget e "SystemEconomy")
      system_security :=
        pyOr (jget e "SystemSecurity_Localised") (jget e "SystemSecurity")
      population := jget e "Population" }
  let g3 :=
    { g2 with
      controlling_faction := jget kvs "Name"
      factions := pyOr (jgetD e "Factions" (.arr [])) (.arr []) }
  let g4 :=
    { g3 with
      system_controlling_power := jget e "ControllingPower"
      system_powerplay_state := jget e "PowerplayState" }
  let g5 := { g4 with system_powers := .arr (pwl.filter isStrJ) }
  let g6 :=
    { g5 with system_powerplay_conflict_progress := .obj (buildConflictProg pcl) }
  let g7 := applyExternalIntel cfg g6.system (jget e "SystemAddress") g6
  { gs := g7, msgs := st.msgs ++ ["Location: " ++ ns] }

/-- The exploration handler's Location branch, mirrored as a pure
function on the game state (exploration.py:110): system meta only, then
the external-intel refresh. -/
def expLocGS (cfg : EngineCfg) (e : JObj) (g0 : GameState) : GameState :=
  let g2 :=
    { g0 with
      system := if truthy (jget e "StarSystem") then jget e "StarSystem" else g0.system
      system_address :=
        if isIntJ (jget e "SystemAddress") then jget e "SystemAddress"
        else g0.system_address
      star_class := pyOr (jget e "StarClass") g0.star_class
      system_allegiance :=
        pyOr (jget e "SystemAllegiance_Localised")
          (pyOr (prettyToken (jget e "SystemAllegiance")) g0.system_allegiance)
      system_government :=
        pyOr (jget e "SystemGovernment_Localised")
          (pyOr (prettyToken (jget e "SystemGovernment")) g0.system_government)
      system_economy :=
        pyOr (jget e "SystemEconomy_Localised")
          (pyOr (prettyToken (jget e "SystemEconomy")) g0.system_economy)
      system_security :=
        pyOr (jget e "SystemSecurity_Localised")
          (pyOr (prettyToken (jget e "SystemSecurity")) g0.system_security) }
  applyExternalIntel cfg g2.system g2.system_address g2

/-- The exploration handler's FSDJump branch with the system-change
guard taken, mirrored as a pure function on the game state
(exploration.py:39): clear, adopt the new system meta, refresh intel. -/
def fsdGS (cfg : EngineCfg) (e : JObj) (g0 : GameState) : GameState :=
  let gC :=
    { g0 with
      bodies := []
      exo := []
      body_id_to_name := []
      bio_signals := []
      bio_genuses := []
      geo_signals := []
      non_body_count := .null
      system_signals := []
      external_pois := []
      system_body_count := .null
      system_allegiance := .null
      system_government := .null
      system_economy := .null
      system_security := .null
      population := .null
      controlling_faction := .null
      factions := .arr []
      system_controlling_power := .null
      system_powerplay_state := .null
      system_powers := .arr []
      system_powerplay_conflict_progress := .obj []
      visited_systems := visitAdd g0.visited_systems (pyStr (jget e "StarSystem")) }
  let g2 :=
    { gC with
      system := pyOr (jget e "StarSystem") gC.system
      system_address :=
        if isIntJ (jget e "SystemAddress") then jget e "SystemAddress"
        else gC.system_address
      star_class := pyOr (jget e "StarClass") gC.star_class
      system_allegiance :=
        pyOr (jget e "SystemAllegiance_Localised")
          (pyOr (prettyToken (jget e "SystemAllegiance")) gC.system_allegiance)
      system_government :=
        pyOr (jget e "SystemGovernment_Localised")
          (pyOr (prettyToken (jget e "SystemGovernment")) gC.system_government)
      system_economy :=
        pyOr (jget e "SystemEconomy_Localised")
          (pyOr (prettyToken (jget e "SystemEconomy")) gC.system_economy)
      system_security :=
        pyOr (jget e "SystemSecurity_Localised")
          (pyOr (prettyToken (jget e "SystemSecurity")) gC.system_security)
      population :=
        if isIntJ (jget e "Population") then jget e "Population" else gC.population
      controlling_faction :=
        match jget e "SystemFaction" with
        | .obj kvs => jget kvs "Name"
        | _ => gC.controlling_faction
      factions :=
        if isArrJ (jget e "Factions") then jget e "Factions" else gC.factions
      system_controlling_power :=
        pyOr (jget e "PowerplayState") gC.system_controlling_power
      system_powerplay_state :=
        pyOr (jget e "PowerplayState") gC.system_powerplay_state
      system_powers :=
        if isArrJ (jget e "Powers") then jget e "Powers" else gC.system_powers
      system_powerplay_conflict_progress :=
        if isObjJ (jget e "PowerplayConflictProgress") then
          jget e "PowerplayConflictProgress"
        else gC.system_powerplay_conflict_progress }
  applyExternalIntel cfg g2.system g2.system_address g2

/-- A populated session state in system Alpha: stored bodies and
commander-wide inventories and ledgers. -/
def gPop : GameState :=
  { initGameState with
    system := .str "Alpha"
    bodies := [("B 1", [("BodyName", .str "B 1")])]
    exo := [("1|Tussock|x", [("Samples", .int 2)])]
    system_signals := [.obj [("Key", .str "k")]]
    materials_raw := [("iron", 3)]
    shiplocker_items := [("weaponschematic", 2)]
    cargo_inventory := .arr [.obj [("Name", .str "gold"), ("Count", .int 4)]]
    session_exo_earnings := 777 }

/-- A Location event into Beta that also carries an integer Credits
field. -/
def evLocCred : JObj :=
  [ ("event", .str "Location"), ("StarSystem", .str "Beta")
  , ("Credits", .int 5) ]

/-- A plain Location event into Beta. -/
def evLoc2 : JObj :=
  [ ("event", .str "Location"), ("StarSystem", .str "Beta") ]

/-- No pipe separator occurs in the string: such a string is a single
key part of the pipe-joined exo keys. -/
def pipeFree (s : String) : Prop := '|' ∉ s.data

/-- The stored Samples value of a record, reading absent or non-int
fields as 0 (the branch's own int(rec.get("Samples", 0) or 0)
normalization under the 0..3 invariant). -/
def samplesOf (r : JObj) : Int :=
  match jget r "Samples" with
  | .int n => n
  | _ => 0

/-- The genus text of a ScanOrganic event (event_engine.py:626). -/
def scanGenus (e : JObj) : String :=
  let x := normText (pyOr (jget e "Genus_Localised") (jget e "Genus"))
  if x == "" then "Unknown Genus" else x

/-- The species text of a ScanOrganic event (event_engine.py:629). -/
def scanSpecies (e : JObj) : String :=
  let x := normText (pyOr (jget e "Species_Localised") (jget e "Species"))
  if x == "" then "Unknown Species" else x

/-- The variant text of a ScanOrganic event (event_engine.py:632). -/
def scanVariant (e : JObj) : String :=
  normText (pyOr (jget e "Variant_Localised") (pyOr (jget e "Variant") (.str "")))

/-- The exo key a ScanOrganic event stores under (event_engine.py:649). -/
def scanKey (e : JObj) : String :=
  pyStr (jget e "Body") ++ "|" ++ scanGenus e ++ "|" ++ scanSpecies e

/-- The exo table after the codex-placeholder cleanup of a ScanOrganic
event (event_engine.py:636). -/
def scanExo1 (e : JObj) (exo : List (String × JObj)) : List (String × JObj) :=
  codexCleanup exo (pyStr (jget e "Body")) (scanGenus e)

/-- The record and exo table after the legacy-key merge of a ScanOrganic
event (event_engine.py:655). -/
def scanMerged (e : JObj) (exo : List (String × JObj)) :
    JObj × List (String × JObj) :=
  let exo1 := scanExo1 e exo
  (exo1.map Prod.fst).foldl (legacyMergeStep (scanKey e))
    ((alGet? exo1 (scanKey e)).getD [], exo1)

/-- The merged record after the descriptive-field update and the value
lookup of a ScanOrganic event (event_engine.py:674), for the given raw
ScanType string. -/
def scanRec2 (cfg : EngineCfg) (e : JObj) (stv : String)
    (exo : List (String × JObj)) : JObj :=
  let m1 := (scanMerged e exo).1
  let rec1 := objUpdate m1
    [ ("BodyID", jget e "Body")
    , ("Genus", .str (scanGenus e))
    , ("Species", .str (scanSpecies e))
    , ("Variant", if scanVariant e != "" then .str (scanVariant e)
                  else pyOr (jget m1 "Variant") (.str ""))
    , ("LastScanType", .str (pyStrip stv)) ]
  match cfg.exo_values with
  | some t =>
      match pyOrOptInt (t.getValue (scanVariant e)) (t.getValue (scanSpecies e)) with
      | some v => alSet rec1 "BaseValue" (.int v)
      | none => rec1
  | none => rec1

/-- The sample-progress update rule of the ScanOrganic branch
(event_engine.py:694). -/
def scanProgress (stv : String) (p0 : Int) : Int :=
  let stl := pyLower (pyStrip stv)
  if stl == "log" then max p0 1
  else if stl == "sample" then min 3 (max p0 0 + 1)
  else if stl == "analyse" then max p0 3
  else p0

/-- The exo record a ScanOrganic event finally stores
(event_engine.py:702), given the extracted prior progress. -/
def scanRec4 (cfg : EngineCfg) (e : JObj) (stv : String)
    (exo : List (String × JObj)) (p0 : Int) : JObj :=
  alSet (alSet (scanRec2 cfg e stv exo) "Samples" (.int (scanProgress stv p0)))
    "Complete"
    (.bool (scanProgress stv p0 ≥ 3 || pyLower (pyStrip stv) == "analyse"))

/-- The exo table after the full ScanOrganic inline branch
(event_engine.py:704). -/
def scanExoF (cfg : EngineCfg) (e : JObj) (stv : String)
    (exo : List (String × JObj)) (p0 : Int) : List (String × JObj) :=
  alSet (scanMerged e exo).2 (scanKey e) (scanRec4 cfg e stv exo p0)

/-- The exobio handler's ScanOrganic branch, mirrored as a pure context
transformer (exobio.py:10): last-scan tracking and the UI message; the
estimate_value call always faults (ExoValueTable has no such method) and
is swallowed by the handler's try/except. -/
def exobioScanSt (e : JObj) (st : EngSt) : EngSt :=
  let st1 :=
    if isStrJ (jget e "BodyName") && pyStrip (pyStr (jget e "BodyName")) != "" then
      { st with gs := { st.gs with last_body := jget e "BodyName" } }
    else st
  let st2 := { st1 with gs := { st1.gs with last_organic_scan := .obj e } }
  let gl := jget e "Genus"
  let sl := jget e "Species"
  if isStrJ gl && pyStrip (pyStr gl) != "" then
    if isStrJ sl && pyStrip (pyStr sl) != "" then
      { st2 with msgs := st2.msgs ++ ["Exobio scan: " ++ pyStr gl ++ " / " ++ pyStr sl] }
    else
      { st2 with msgs := st2.msgs ++ ["Exobio scan: " ++ pyStr gl] }
  else st2

/-- A ScanOrganic event whose ScanType resolves to the given raw string,
with an integer Body id and no integer Credits field. -/
def scanShape (e : JObj) (stv : String) : Prop :=
  jget e "event" = .str "ScanOrganic" ∧
  isIntJ (jget e "Credits") = false ∧
  pyOr (jget e "ScanType") (.str "") = .str stv ∧
  isIntJ (jget e "Body") = true

/-- A concrete sample-stage ScanOrganic event. -/
def evOrgSample : JObj :=
  [ ("event", .str "ScanOrganic"), ("ScanType", .str "Sample")
  , ("Body", .int 7), ("Genus", .str "Tussock")
  , ("Species", .str "Tussock Catena") ]

/-- A concrete log-stage ScanOrganic event. -/
def evOrgLog : JObj :=
  [ ("event", .str "ScanOrganic"), ("ScanType", .str "Log")
  , ("Body", .int 7), ("Genus", .str "Tussock")
  , ("Species", .str "Tussock Catena") ]

/-- A concrete analyse-stage ScanOrganic event. -/
def evOrgAnalyse : JObj :=
  [ ("event", .str "ScanOrganic"), ("ScanType", .str "Analyse")
  , ("Body", .int 7), ("Genus", .str "Tussock")
  , ("Species", .str "Tussock Catena") ]

/-- The stored Samples progress at a key of an exo table (0 when the key
or the field is absent); samplesAt reads it off the game state. -/
def samplesAtL (exo : List (String × JObj)) (k : String) : Int :=
  match alGet? exo k with
  | some r => samplesOf r
  | none => 0

-- ===================== THEOREMS =====================

/-
Run lemmas: unfold one monadic step applied to an explicit engine state.
-/

theorem bind_run {α β : Type} (x : PyM α) (f : α → PyM β) (s : EngSt) :
    (x >>= f) s =
      match x s with
      | (s1, .ok a) => f a s1
      | (s1, .error e) => (s1, .error e) := rfl

theorem pure_run {α : Type} (a : α) (s : EngSt) :
    (pure a : PyM α) s = (s, .ok a) := rfl

theorem getGS_run (s : EngSt) : getGS s = (s, .ok s.gs) := rfl

theorem modGS_run (f : GameState → GameState) (s : EngSt) :
    modGS f s = ({ s with gs := f s.gs }, .ok ()) := rfl

theorem emit_run (m : String) (s : EngSt) :
    emit m s = ({ s with msgs := s.msgs ++ [m] }, .ok ()) := rfl

theorem pyRaise_run {α : Type} (e : String) (s : EngSt) :
    (pyRaise e : PyM α) s = (s, .error e) := rfl

theorem pyTry_run {α : Type} (x h : PyM α) (s : EngSt) :
    pyTry x h s =
      match x s with
      | (s1, .error _) => h s1
      | r => r := rfl

theorem pyAttrGet_run (v : JVal) (k : String) (s : EngSt) :
    pyAttrGet v k s =
      if isObjJ v then (s, .ok (objGetVal v k))
      else (s, .error "AttributeError: get") := by
  cases v <;> rfl

theorem pyAttrGetD_run (v : JVal) (k : String) (d : JVal) (s : EngSt) :
    pyAttrGetD v k d s =
      if isObjJ v then (s, .ok (objGetValD v k d))
      else (s, .error "AttributeError: get") := by
  cases v <;> rfl

theorem pyLowerM_run (v : JVal) (s : EngSt) :
    pyLowerM v s =
      if isStrJ v then (s, .ok (pyLower (pyStr v)))
      else (s, .error "AttributeError: lower") := by
  cases v <;> rfl

theorem pyStripM_run (v : JVal) (s : EngSt) :
    pyStripM v s =
      if isStrJ v then (s, .ok (pyStrip (pyStr v)))
      else (s, .error "AttributeError: strip") := by
  cases v <;> rfl

theorem pyIntM_run (v : JVal) (s : EngSt) :
    pyIntM v s =
      match pyToInt v with
      | some n => (s, .ok n)
      | none => (s, .error (pyIntErr v)) := by
  cases v with
  | str t =>
      show (match pyToInt (.str t) with
            | some n => pure n
            | none => pyRaise "ValueError: int" : PyM Int) s = _
      cases pyToInt (.str t) <;> rfl
  | null => rfl
  | bool b => rfl
  | int n => rfl
  | arr xs => rfl
  | obj kvs => rfl

theorem pyIterM_run (v : JVal) (s : EngSt) :
    pyIterM v s =
      if iterableJ v then (s, .ok (iterList v))
      else (s, .error "TypeError: not iterable") := by
  cases v <;> rfl

/-
Association-list lemmas (dictionary semantics).
-/

theorem alGet?_alSet_self {α β : Type} [BEq α] [LawfulBEq α]
    (d : List (α × β)) (k : α) (v : β) :
    alGet? (alSet d k v) k = some v := by
  induction d with
  | nil => simp [alSet, alGet?]
  | cons p rest ih =>
      by_cases h : p.1 == k
      · simp [alSet, h, alGet?]
      · simp [alSet, h, alGet?, ih]

theorem alGet?_alSet_ne {α β : Type} [BEq α] [LawfulBEq α]
    (d : List (α × β)) (k k' : α) (v : β) (h : k' ≠ k) :
    alGet? (alSet d k v) k' = alGet? d k' := by
  induction d with
  | nil =>
      simp [alSet, alGet?]
      intro hkk
      exact absurd (by simp_all) h
  | cons p rest ih =>
      by_cases hp : p.1 == k
      · have hpk : p.1 = k := by simp_all
        simp [alSet, hp, alGet?]
        have h1 : (k == k') = false := by
          simp [beq_iff_eq]
          exact fun hh => h hh.symm
        have h2 : (p.1 == k') = false := by
          rw [hpk]; exact h1
        simp [h1, h2]
      · simp [alSet, hp, alGet?, ih]

theorem alGet?_alPop_ne {α β : Type} [BEq α] [LawfulBEq α]
    (d : List (α × β)) (k k' : α) (h : k' ≠ k) :
    alGet? (alPop d k) k' = alGet? d k' := by
  induction d with
  | nil => rfl
  | cons p rest ih =>
      simp only [alPop, List.filter_cons, bne] at ih ⊢
      by_cases hp : (p.1 == k) = true
      · have hpk : p.1 = k := by simpa using hp
        have h2 : (p.1 == k') = false := by
          rw [hpk]
          exact beq_false_of_ne (fun hh => h hh.symm)
        simp [hp, h2, ih, alGet?]
      · simp [hp, alGet?, ih]

theorem alGet?_alPop_self {α β : Type} [BEq α] [LawfulBEq α]
    (d : List (α × β)) (k : α) :
    alGet? (alPop d k) k = none := by
  induction d with
  | nil => rfl
  | cons p rest ih =>
      simp only [alPop, List.filter_cons, bne] at ih ⊢
      by_cases hp : (p.1 == k) = true
      · simp [hp, ih]
      · simp [hp, alGet?, ih]

theorem mem_alPop {α β : Type} [BEq α]
    (d : List (α × β)) (k : α) (p : α × β) (h : p ∈ alPop d k) : p ∈ d :=
  (List.mem_filter.mp h).1

theorem mem_alSet {α β : Type} [BEq α]
    (d : List (α × β)) (k : α) (v : β) (p : α × β) (h : p ∈ alSet d k v) :
    p = (k, v) ∨ p ∈ d := by
  induction d with
  | nil => simpa [alSet] using h
  | cons q rest ih =>
      by_cases hq : q.1 == k
      · simp only [alSet, hq, if_true] at h
        rcases List.mem_cons.mp h with h1 | h1
        · exact Or.inl h1
        · exact Or.inr (List.mem_cons_of_mem q h1)
      · simp only [alSet, hq, if_false] at h
        rcases List.mem_cons.mp h with h1 | h1
        · exact Or.inr (h1 ▸ List.mem_cons_self q rest)
        · rcases ih h1 with h2 | h2
          · exact Or.inl h2
          · exact Or.inr (List.mem_cons_of_mem q h2)

theorem jget_alSet_self (r : JObj) (k : String) (v : JVal) :
    jget (alSet r k v) k = v := by
  simp [jget, jgetD, alGet?_alSet_self]

theorem jget_alSet_ne (r : JObj) (k k' : String) (v : JVal) (h : k' ≠ k) :
    jget (alSet r k v) k' = jget r k' := by
  simp [jget, jgetD, alGet?_alSet_ne _ _ _ _ h]

theorem jgetD_alSet_self (r : JObj) (k : String) (v d : JVal) :
    jgetD (alSet r k v) k d = v := by
  simp [jgetD, alGet?_alSet_self]

theorem jgetD_alSet_ne (r : JObj) (k k' : String) (v d : JVal) (h : k' ≠ k) :
    jgetD (alSet r k v) k' d = jgetD r k' d := by
  simp [jgetD, alGet?_alSet_ne _ _ _ _ h]

theorem alSet_alSet_same {α β : Type} [BEq α] [LawfulBEq α]
    (d : List (α × β)) (k : α) (v : β) :
    alSet (alSet d k v) k v = alSet d k v := by
  induction d with
  | nil => simp [alSet]
  | cons p rest ih =>
      by_cases hp : p.1 == k
      · simp [alSet, hp]
      · simp [alSet, hp, ih]

/-
Claim C8: PlanetValueTable.estimate figure selection.
-/

/-- C8 counterexample: the claim as stated fails when two planet types
share a normal form.  collideTable contains a row for the queried pair
("AB", false) whose fss_fd figure is 100, yet estimate with
first_discovered and not mapped returns 200, the figure of the "A B" row
that won the normalization map. -/
theorem C8_norm_collision_counterexample :
    alGet? collideTable.rows ("AB", false) = some rowAB ∧
    rowAB.fss_fd = some 100 ∧
    collideTable.estimate "AB" false false true = some 200 :=
  ⟨rfl, rfl, rfl⟩

/-- C8 (amended): for a table containing a row for the queried
(planet type, terraformable) pair whose normalization map resolves the
queried type's normal form back to that type (as is always the case when
planet types have pairwise distinct normal forms), estimate returns the
row's fss_fd figure when first_discovered and not mapped, fss_dss when
mapped and not first_discovered, fss_fd_dss when both, and fss when
neither. -/
theorem C8_estimate_selects_row_figure (t : PlanetValueTable) (pt : String)
    (tf mapped fd : Bool) (row : PlanetValueRow) (hpt : pt ≠ "")
    (hnorm : alGet? t.type_norm_map (pvNorm pt) = some pt)
    (hrow : alGet? t.rows (pt, tf) = some row) :
    t.estimate pt tf mapped fd =
      (if fd then (if mapped then row.fss_fd_dss else row.fss_fd)
       else (if mapped then row.fss_dss else row.fss)) := by
  have hpt2 : (pt == "") = false := beq_false_of_ne hpt
  simp only [PlanetValueTable.estimate, canonicalType, hpt2, Bool.false_eq_true,
    if_false, hnorm, hrow]
  cases fd <;> cases mapped <;> simp

/-- C8 witness: the amended theorem applied to the Water World table of
the spec's own example. -/
theorem C8_estimate_witness :
    wwTable.estimate "Water World" false false true = some 1750 ∧
    wwTable.estimate "Water World" false true false = some 1250 := by
  have h1 := C8_estimate_selects_row_figure wwTable "Water World" false false true
    wwRow (by decide) (by rfl) (by rfl)
  have h2 := C8_estimate_selects_row_figure wwTable "Water World" false true false
    wwRow (by decide) (by rfl) (by rfl)
  refine ⟨?_, ?_⟩
  · simpa using h1
  · simpa using h2

/-
Claim C9: bootstrap forwards exactly the events from the last system
boundary onward.
-/

theorem find?_reverse_range (p : Nat → Bool) (n m : Nat) (hm : m < n)
    (hpm : p m = true) (hafter : ∀ j, m < j → j < n → p j = false) :
    (List.range n).reverse.find? p = some m := by
  induction n with
  | zero => omega
  | succ k ih =>
      rw [List.range_succ, List.reverse_append]
      simp only [List.reverse_cons, List.reverse_nil, List.nil_append,
        List.cons_append, List.find?]
      rcases Nat.lt_succ_iff_lt_or_eq.mp hm with hlt | heq
      · have hk : p k = false := hafter k hlt (Nat.lt_succ_self k)
        rw [hk]
        simp only [List.nil_append]
        exact ih hlt (fun j h1 h2 => hafter j h1 (Nat.lt_succ_of_lt h2))
      · subst heq
        rw [hpm]

theorem bootstrapAnchor_last (pre post : List JObj) (b : JObj)
    (hb : isBoundaryEv b = true)
    (hpost : ∀ x ∈ post, isBoundaryEv x = false) :
    bootstrapAnchor (pre ++ b :: post) = pre.length := by
  have hlen : (pre ++ b :: post).length = pre.length + (post.length + 1) := by
    simp
  have hgetb : (pre ++ b :: post).getD pre.length [] = b := by
    rw [List.getD_eq_getElem?_getD, List.getElem?_append_right (Nat.le_refl _)]
    simp
  have hm : pre.length < (pre ++ b :: post).length := by
    rw [hlen]; omega
  have hpm : isBoundaryEv ((pre ++ b :: post).getD pre.length []) = true := by
    rw [hgetb]; exact hb
  have hafter : ∀ j, pre.length < j → j < (pre ++ b :: post).length →
      isBoundaryEv ((pre ++ b :: post).getD j []) = false := by
    intro j h1 h2
    have hj : pre.length ≤ j := Nat.le_of_lt h1
    rw [List.getD_eq_getElem?_getD, List.getElem?_append_right hj]
    have hpos : 0 < j - pre.length := by omega
    rcases Nat.exists_eq_add_of_lt hpos with ⟨i, hi⟩
    have : j - pre.length = i + 1 := by omega
    rw [this]
    simp only [List.getElem?_cons_succ]
    cases hx : post[i]? with
    | none => rfl
    | some x =>
        have hxmem : x ∈ post := List.getElem?_mem hx
        simpa using hpost x hxmem
  unfold bootstrapAnchor
  rw [find?_reverse_range _ _ pre.length hm hpm hafter]

/-- C9: during bootstrap, when the decoded tail window has at least one
system-boundary event (Location or FSDJump), exactly the events from the
last such boundary on are forwarded and none of the earlier ones: the
window pre ++ b :: post, with b a boundary event and no boundary events
after it, forwards b :: post. -/
theorem C9_bootstrap_forwards_from_last_boundary (pre post : List JObj)
    (b : JObj) (hb : isBoundaryEv b = true)
    (hpost : ∀ x ∈ post, isBoundaryEv x = false) :
    bootstrapForwarded (pre ++ b :: post) = b :: post := by
  have hanchor := bootstrapAnchor_last pre post b hb hpost
  have hstep : bootstrapForwarded (pre ++ b :: post) =
      (pre ++ b :: post).drop (bootstrapAnchor (pre ++ b :: post)) := by
    cases hev : pre ++ b :: post with
    | nil => simp at hev
    | cons x xs => rfl
  rw [hstep, hanchor, List.drop_left]

/-- C9 witness: a window holding two boundary events followed by other
events forwards only the second boundary onward. -/
theorem C9_bootstrap_witness :
    bootstrapForwarded
      [ [("event", .str "FSDJump"), ("StarSystem", .str "A")]
      , [("event", .str "Scan")]
      , [("event", .str "Location"), ("StarSystem", .str "B")]
      , [("event", .str "Scan")]
      , [("event", .str "FSSDiscoveryScan")] ] =
      [ [("event", .str "Location"), ("StarSystem", .str "B")]
      , [("event", .str "Scan")]
      , [("event", .str "FSSDiscoveryScan")] ] := by
  have h := C9_bootstrap_forwards_from_last_boundary
    [ [("event", .str "FSDJump"), ("StarSystem", .str "A")]
    , [("event", .str "Scan")] ]
    [ [("event", .str "Scan")]
    , [("event", .str "FSSDiscoveryScan")] ]
    [("event", .str "Location"), ("StarSystem", .str "B")]
    (by decide)
    (by decide)
  simpa using h

/-
Claim C7: Materials and ShipLocker count folding.
-/

theorem parseShipLockerStep_fst (acc : (List (String × Int)) × (List (String × String)))
    (x : JVal) :
    (parseShipLockerStep acc x).1 =
      (match validEntry x with
       | some p => alSet acc.1 p.1 ((alGet? acc.1 p.1).getD 0 + p.2)
       | none => acc.1) := by
  cases x with
  | obj kvs =>
      simp only [parseShipLockerStep, validEntry]
      cases jget kvs "Name" with
      | str nms =>
          by_cases hc : isIntJ (jget kvs "Count") = true
          · simp only [hc, Bool.not_true, if_true]
            by_cases hk : (pyLower (pyStrip nms) == "") = true
            · simp [hk]
            · simp only [Bool.not_eq_true] at hk
              simp [hk]
          · simp only [Bool.not_eq_true] at hc
            simp [hc]
      | null => rfl
      | bool b => rfl
      | int n => rfl
      | arr l => rfl
      | obj l => rfl
  | null => rfl
  | bool b => rfl
  | int n => rfl
  | str s => rfl
  | arr l => rfl

theorem parseMaterialsStep_fst (acc : (List (String × Int)) × (List (String × String)))
    (x : JVal) :
    (parseMaterialsStep acc x).1 =
      (match validEntry x with
       | some p => alSet acc.1 p.1 p.2
       | none => acc.1) := by
  cases x with
  | obj kvs =>
      simp only [parseMaterialsStep, validEntry]
      cases jget kvs "Name" with
      | str nms =>
          by_cases hc : isIntJ (jget kvs "Count") = true
          · simp only [hc, Bool.not_true, if_true]
            by_cases hk : (pyLower (pyStrip nms) == "") = true
            · simp [hk]
            · simp only [Bool.not_eq_true] at hk
              simp [hk]
          · simp only [Bool.not_eq_true] at hc
            simp [hc]
      | null => rfl
      | bool b => rfl
      | int n => rfl
      | arr l => rfl
      | obj l => rfl
  | null => rfl
  | bool b => rfl
  | int n => rfl
  | str s => rfl
  | arr l => rfl

theorem valsFor_cons (x : JVal) (xs : List JVal) (k : String) :
    valsFor (x :: xs) k =
      (match validEntry x with
       | some p => if p.1 == k then p.2 :: valsFor xs k else valsFor xs k
       | none => valsFor xs k) := by
  simp only [valsFor, validCounts, List.filterMap_cons]
  cases validEntry x with
  | none => rfl
  | some p =>
      by_cases hk : (p.1 == k) = true
      · simp [List.filter_cons, hk]
      · simp only [Bool.not_eq_true] at hk
        simp [List.filter_cons, hk]

theorem stepLocker_valid (acc : (List (String × Int)) × (List (String × String)))
    (x : JVal) (p : String × Int) (h : validEntry x = some p) :
    (parseShipLockerStep acc x).1 =
      alSet acc.1 p.1 ((alGet? acc.1 p.1).getD 0 + p.2) := by
  rw [parseShipLockerStep_fst, h]

theorem stepLocker_invalid (acc : (List (String × Int)) × (List (String × String)))
    (x : JVal) (h : validEntry x = none) :
    (parseShipLockerStep acc x).1 = acc.1 := by
  rw [parseShipLockerStep_fst, h]

theorem stepMaterials_valid (acc : (List (String × Int)) × (List (String × String)))
    (x : JVal) (p : String × Int) (h : validEntry x = some p) :
    (parseMaterialsStep acc x).1 = alSet acc.1 p.1 p.2 := by
  rw [parseMaterialsStep_fst, h]

theorem stepMaterials_invalid (acc : (List (String × Int)) × (List (String × String)))
    (x : JVal) (h : validEntry x = none) :
    (parseMaterialsStep acc x).1 = acc.1 := by
  rw [parseMaterialsStep_fst, h]

theorem lockerFold_alGet (k : String) (xs : List JVal) :
    ∀ acc : (List (String × Int)) × (List (String × String)),
    alGet? (xs.foldl parseShipLockerStep acc).1 k =
      (if (valsFor xs k).isEmpty then alGet? acc.1 k
       else some ((alGet? acc.1 k).getD 0 + (valsFor xs k).sum)) := by
  induction xs with
  | nil => intro acc; simp [valsFor, validCounts]
  | cons x rest ih =>
      intro acc
      rw [List.foldl_cons, ih, valsFor_cons]
      cases hve : validEntry x with
      | none => rw [stepLocker_invalid acc x hve]
      | some p =>
          by_cases hk : (p.1 == k) = true
          · have hk2 : p.1 = k := by simpa using hk
            rw [stepLocker_valid acc x p hve, hk2]
            by_cases hrest : valsFor rest k = []
            · simp [hk, hk2, hrest, alGet?_alSet_self]
            · have hne : (valsFor rest k).isEmpty = false := by
                simpa [List.isEmpty_iff] using hrest
              simp only [hk, hk2, hne, if_true, List.isEmpty_cons,
                Bool.false_eq_true, if_false, alGet?_alSet_self,
                Option.getD_some, List.sum_cons]
              rw [Int.add_assoc]
              simp [hne, List.sum_cons]
          · have hk2 : p.1 ≠ k := by simpa using hk
            rw [stepLocker_valid acc x p hve,
              alGet?_alSet_ne _ _ _ _ (fun h => hk2 h.symm)]
            simp [hk]

theorem lastOf_cons_cons (x y : Int) (rest : List Int) :
    lastOf (x :: y :: rest) = lastOf (y :: rest) := rfl

theorem lastOf_isSome (x : Int) (xs : List Int) :
    (lastOf (x :: xs)).isSome = true := by
  induction xs generalizing x with
  | nil => rfl
  | cons y rest ih => rw [lastOf_cons_cons]; exact ih y

theorem materialsFold_alGet (k : String) (xs : List JVal) :
    ∀ acc : (List (String × Int)) × (List (String × String)),
    alGet? (xs.foldl parseMaterialsStep acc).1 k =
      (lastOf (valsFor xs k)).or (alGet? acc.1 k) := by
  induction xs with
  | nil => intro acc; simp [valsFor, validCounts, lastOf, Option.or]
  | cons x rest ih =>
      intro acc
      rw [List.foldl_cons, ih, valsFor_cons]
      cases hve : validEntry x with
      | none => rw [stepMaterials_invalid acc x hve]
      | some p =>
          by_cases hk : (p.1 == k) = true
          · have hk2 : p.1 = k := by simpa using hk
            rw [stepMaterials_valid acc x p hve, hk2]
            cases hrest : valsFor rest k with
            | nil => simp [hk, hk2, lastOf, Option.or, alGet?_alSet_self]
            | cons y ys =>
                simp only [hk, hk2, if_true, lastOf_cons_cons,
                  alGet?_alSet_self]
                have hs := lastOf_isSome y ys
                cases hlo : lastOf (y :: ys) with
                | none => rw [hlo] at hs; simp at hs
                | some z => simp [Option.or, lastOf_cons_cons, hlo]
          · have hk2 : p.1 ≠ k := by simpa using hk
            rw [stepMaterials_valid acc x p hve,
              alGet?_alSet_ne _ _ _ _ (fun h => hk2 h.symm)]
            simp [hk]

/-- C7 counterexample: the claim as stated fails for Materials events.
Folding a Materials event whose Raw list holds iron with counts 2 and 3
stores 3 (the last entry wins), not the claimed sum 5; the same list in a
ShipLocker event does store 5. -/
theorem C7_materials_overwrite_counterexample :
    (processState cfg0 evMatIron initGameState).materials_raw = [("iron", 3)] ∧
    (processState cfg0 evLockIron initGameState).shiplocker_items = [("iron", 5)] :=
  ⟨by decide, by decide⟩

/-- C7 (amended): ShipLocker item lists are folded into a name-to-count
mapping that sums repeated entries for the same name; Materials category
lists are folded name-to-count with repeated entries overwritten, the
last entry winning.  The handler stores exactly these parses into
shiplocker_items and materials_raw. -/
theorem C7_locker_sums_materials_last_wins :
    (∀ (xs : List JVal) (k : String),
      alGet? (parseShipLockerItems (.arr xs)).1 k =
        (if (valsFor xs k).isEmpty then none else some (valsFor xs k).sum)) ∧
    (∀ (xs : List JVal) (k : String),
      alGet? (parseMaterialsCategory (.arr xs)).1 k = lastOf (valsFor xs k)) ∧
    (∀ (cfg : EngineCfg) (xs : List JVal) (g : GameState),
      (processState cfg [("event", .str "ShipLocker"), ("Items", .arr xs)] g).shiplocker_items =
        (parseShipLockerItems (.arr xs)).1) ∧
    (∀ (cfg : EngineCfg) (xs : List JVal) (g : GameState),
      (processState cfg [("event", .str "Materials"), ("Raw", .arr xs)] g).materials_raw =
        (parseMaterialsCategory (.arr xs)).1) := by
  refine ⟨?_, ?_, ?_, ?_⟩
  · intro xs k
    have h := lockerFold_alGet k xs ([], [])
    simp only [parseShipLockerItems]
    rw [h]
    cases hv : (valsFor xs k).isEmpty <;> simp [alGet?]
  · intro xs k
    have h := materialsFold_alGet k xs ([], [])
    simp only [parseMaterialsCategory]
    rw [h]
    simp [alGet?, Option.or]
    cases lastOf (valsFor xs k) <;> simp [Option.or]
  · intro cfg xs g
    simp [processState, processRun, processM, jget, jgetD, alGet?, isIntJ,
      pyEq, bind_run, pure_run, modGS_run, getGS_run, runHandlerChain,
      inventoryHandle]
  · intro cfg xs g
    simp [processState, processRun, processM, jget, jgetD, alGet?, isIntJ,
      pyEq, bind_run, pure_run, modGS_run, getGS_run, runHandlerChain,
      inventoryHandle]

/-
Claim C1: the engine never raises to its caller.
-/

/-- C1: the claim fails on the code.  The inline Location branch calls
.get("Name") on a truthy non-dict SystemFaction and raises
AttributeError, and the inline Scan branch calls .lower() on a truthy
non-string TerraformState and raises AttributeError — exactly the two
payload shapes the claim says are treated as absent. -/
theorem C1_inline_branches_raise :
    processErr cfg0 evLocBadFaction initGameState = some "AttributeError: get" ∧
    processErr cfg0 evScanBadTerraform initGameState = some "AttributeError: lower" :=
  ⟨rfl, rfl⟩

/-
Claim C6: the cross-cutting credits update and kind routing.
-/

/-- C6: the claim fails on the code.  The credits update is chained with
elif into the inline branches, so a Location event carrying an integer
Credits field updates credits but skips the whole inline Location branch:
from a state in system Alpha with one stored body, the event with
Credits leaves the bodies collection intact and emits no Location
notice, while the same event without Credits clears it and emits the
notice.  (The handler-chain part of the routing still runs either way,
which is why system still becomes Beta.) -/
theorem C6_credits_elif_skips_inline_branch :
    (processState cfg0 evLocBeta5 stateAlpha).credits = .int 5 ∧
    (processState cfg0 evLocBeta5 stateAlpha).bodies =
      [("X", [("BodyName", .str "X")])] ∧
    processMsgs cfg0 evLocBeta5 stateAlpha = [] ∧
    (processState cfg0 evLocBeta5 stateAlpha).system = .str "Beta" ∧
    (processState cfg0 evLocBeta stateAlpha).bodies = [] ∧
    processMsgs cfg0 evLocBeta stateAlpha = ["Location: Beta"] :=
  ⟨rfl, rfl, rfl, rfl, rfl, rfl⟩

/-
Constructor-level reduction lemmas for the dynamic-type predicates.
-/

@[simp] theorem isIntJ_null : isIntJ .null = false := rfl
@[simp] theorem isIntJ_bool (b : Bool) : isIntJ (.bool b) = true := rfl
@[simp] theorem isIntJ_int (n : Int) : isIntJ (.int n) = true := rfl
@[simp] theorem isIntJ_str (s : String) : isIntJ (.str s) = false := rfl
@[simp] theorem isIntJ_arr (xs : List JVal) : isIntJ (.arr xs) = false := rfl
@[simp] theorem isIntJ_obj (kvs : JObj) : isIntJ (.obj kvs) = false := rfl

@[simp] theorem isStrJ_null : isStrJ .null = false := rfl
@[simp] theorem isStrJ_bool (b : Bool) : isStrJ (.bool b) = false := rfl
@[simp] theorem isStrJ_int (n : Int) : isStrJ (.int n) = false := rfl
@[simp] theorem isStrJ_str (s : String) : isStrJ (.str s) = true := rfl
@[simp] theorem isStrJ_arr (xs : List JVal) : isStrJ (.arr xs) = false := rfl
@[simp] theorem isStrJ_obj (kvs : JObj) : isStrJ (.obj kvs) = false := rfl

@[simp] theorem isBoolJ_null : isBoolJ .null = false := rfl
@[simp] theorem isBoolJ_bool (b : Bool) : isBoolJ (.bool b) = true := rfl
@[simp] theorem isBoolJ_int (n : Int) : isBoolJ (.int n) = false := rfl
@[simp] theorem isBoolJ_str (s : String) : isBoolJ (.str s) = false := rfl
@[simp] theorem isBoolJ_arr (xs : List JVal) : isBoolJ (.arr xs) = false := rfl
@[simp] theorem isBoolJ_obj (kvs : JObj) : isBoolJ (.obj kvs) = false := rfl

@[simp] theorem isArrJ_null : isArrJ .null = false := rfl
@[simp] theorem isArrJ_bool (b : Bool) : isArrJ (.bool b) = false := rfl
@[simp] theorem isArrJ_int (n : Int) : isArrJ (.int n) = false := rfl
@[simp] theorem isArrJ_str (s : String) : isArrJ (.str s) = false := rfl
@[simp] theorem isArrJ_arr (xs : List JVal) : isArrJ (.arr xs) = true := rfl
@[simp] theorem isArrJ_obj (kvs : JObj) : isArrJ (.obj kvs) = false := rfl

@[simp] theorem isObjJ_null : isObjJ .null = false := rfl
@[simp] theorem isObjJ_bool (b : Bool) : isObjJ (.bool b) = false := rfl
@[simp] theorem isObjJ_int (n : Int) : isObjJ (.int n) = false := rfl
@[simp] theorem isObjJ_str (s : String) : isObjJ (.str s) = false := rfl
@[simp] theorem isObjJ_arr (xs : List JVal) : isObjJ (.arr xs) = false := rfl
@[simp] theorem isObjJ_obj (kvs : JObj) : isObjJ (.obj kvs) = true := rfl

@[simp] theorem truthy_null : truthy .null = false := rfl
@[simp] theorem truthy_bool (b : Bool) : truthy (.bool b) = b := rfl
@[simp] theorem truthy_int (n : Int) : truthy (.int n) = (n != 0) := rfl
@[simp] theorem truthy_str (s : String) : truthy (.str s) = (s != "") := rfl
@[simp] theorem truthy_arr_nil : truthy (.arr []) = false := rfl
@[simp] theorem truthy_arr_cons (x : JVal) (xs : List JVal) :
    truthy (.arr (x :: xs)) = true := rfl
@[simp] theorem truthy_obj_nil : truthy (.obj []) = false := rfl
@[simp] theorem truthy_obj_cons (p : String × JVal) (kvs : JObj) :
    truthy (.obj (p :: kvs)) = true := rfl

@[simp] theorem jvalAsInt_int (n : Int) : jvalAsInt (.int n) = n := rfl
@[simp] theorem jvalAsInt_bool (b : Bool) :
    jvalAsInt (.bool b) = (if b then 1 else 0) := rfl

@[simp] theorem pyStr_null : pyStr .null = "None" := rfl
@[simp] theorem pyStr_bool (b : Bool) :
    pyStr (.bool b) = (if b then "True" else "False") := rfl
@[simp] theorem pyStr_int (n : Int) : pyStr (.int n) = toString n := rfl
@[simp] theorem pyStr_str (s : String) : pyStr (.str s) = s := rfl

@[simp] theorem iterableJ_null : iterableJ .null = false := rfl
@[simp] theorem iterableJ_bool (b : Bool) : iterableJ (.bool b) = false := rfl
@[simp] theorem iterableJ_int (n : Int) : iterableJ (.int n) = false := rfl
@[simp] theorem iterableJ_str (s : String) : iterableJ (.str s) = true := rfl
@[simp] theorem iterableJ_arr (xs : List JVal) : iterableJ (.arr xs) = true := rfl
@[simp] theorem iterableJ_obj (kvs : JObj) : iterableJ (.obj kvs) = true := rfl

@[simp] theorem iterList_arr (xs : List JVal) : iterList (.arr xs) = xs := rfl

@[simp] theorem objGetVal_obj (kvs : JObj) (k : String) :
    objGetVal (.obj kvs) k = jget kvs k := rfl

theorem pyEq_str_str (a b : String) : pyEq (.str a) (.str b) = (a == b) := rfl

@[simp] theorem pyToInt_int (n : Int) : pyToInt (.int n) = some n := rfl

/-
Claim C10: Combat Contact dedupe on the (pilot, ship, faction) key.
-/

theorem shipTargetedAlert_run (pp_enemy : Bool) (rank_name : String)
    (tp pilot ship faction bounty : JVal) (is_wanted : Bool) (st : EngSt) :
    shipTargetedAlert pp_enemy rank_name tp pilot ship faction bounty is_wanted st =
      (alertResult pp_enemy rank_name tp pilot ship faction bounty is_wanted st,
       .ok false) := by
  by_cases h : st.gs.current_contact_alert =
      alertText pp_enemy rank_name tp pilot ship faction bounty is_wanted
  · simp [alertText, List.singleton_append, List.append_assoc] at h
    simp [shipTargetedAlert, alertResult, alertText, bind_run, pure_run,
      getGS_run, modGS_run, emit_run, List.singleton_append,
      List.append_assoc, h]
  · simp [alertText, List.singleton_append, List.append_assoc] at h
    simp [shipTargetedAlert, alertResult, alertText, bind_run, pure_run,
      getGS_run, modGS_run, emit_run, List.singleton_append,
      List.append_assoc, h]

@[simp] theorem alertResult_contacts (pp_enemy : Bool) (rank_name : String)
    (tp pilot ship faction bounty : JVal) (is_wanted : Bool) (st : EngSt) :
    (alertResult pp_enemy rank_name tp pilot ship faction bounty
      is_wanted st).gs.combat_contacts = st.gs.combat_contacts := by
  simp only [alertResult]
  by_cases h : st.gs.current_contact_alert !=
      alertText pp_enemy rank_name tp pilot ship faction bounty is_wanted
  · simp [h]
  · simp [h]

set_option maxHeartbeats 1000000 in
theorem branchShipTargeted_run (cfg : EngineCfg) (e : JObj) (p sh f pw : String)
    (hp : p ≠ "") (hsh : sh ≠ "") (hf : f ≠ "")
    (hs : shipTargetedShape e p sh f pw) (st : EngSt) :
    branchShipTargeted cfg e st =
      ((stgtSt e p sh f pw st).1, .ok (stgtSt e p sh f pw st).2) := by
  obtain ⟨h1, h2, h3, h4, h5, h6, h7, h8⟩ := hs
  simp [branchShipTargeted, stgtSt, contactKey, contactRow, wantedOf,
    h3, h4, h5, h6, h7, h8, bind_run, pure_run, getGS_run, modGS_run,
    emit_run, pyStripM_run, shipTargetedAlert_run, pyEq_str_str,
    pyOr, hp, hsh, hf]
  repeat' split
  all_goals (try rfl)
  all_goals simp [pure_run, shipTargetedAlert_run]

theorem stgtSt_contacts (e : JObj) (p sh f pw : String) (st : EngSt) :
    (stgtSt e p sh f pw st).1.gs.combat_contacts =
      alSet st.gs.combat_contacts (contactKey p sh f) (contactRow e) := by
  simp only [stgtSt]
  repeat' split
  all_goals simp [alertResult_contacts]

set_option maxHeartbeats 1000000 in
theorem miscHandle_shipTargeted_run (cfg : EngineCfg) (e : JObj) (st : EngSt) :
    miscHandle cfg (.str "ShipTargeted") e st = (miscStgtSt e st, .ok true) := by
  cases h1 : isStrJ (jget e "Ship") <;>
    cases h2 : isStrJ (pyOr (jget e "PilotName_Localised") (jget e "PilotName")) <;>
    by_cases h3 : pyStrip (pyStr (jget e "Ship")) = "" <;>
    by_cases h4 :
      pyStrip (pyStr (pyOr (jget e "PilotName_Localised") (jget e "PilotName"))) = "" <;>
    simp [miscHandle, miscStgtSt, pyEq_str_str, bind_run, pure_run,
      modGS_run, h1, h2, h3, h4]

theorem miscStgtSt_contacts (e : JObj) (st : EngSt) :
    (miscStgtSt e st).gs.combat_contacts = st.gs.combat_contacts := by
  simp only [miscStgtSt]
  repeat' split
  all_goals rfl

set_option maxHeartbeats 1000000 in
theorem chain_contacts_shipTargeted (cfg : EngineCfg) (e : JObj) (st : EngSt) :
    (runHandlerChain
      [ inventoryHandle cfg (.str "ShipTargeted") e
      , explorationHandle cfg (.str "ShipTargeted") e
      , exobioHandle cfg (.str "ShipTargeted") e
      , powerplayHandle cfg (.str "ShipTargeted") e
      , miscHandle cfg (.str "ShipTargeted") e ] st).1.gs.combat_contacts =
      st.gs.combat_contacts := by
  simp [runHandlerChain, inventoryHandle, explorationHandle, exobioHandle,
    powerplayHandle, pyEq_str_str, pure_run,
    miscHandle_shipTargeted_run, miscStgtSt_contacts]

set_option maxHeartbeats 1000000 in
theorem shipTargeted_contacts (cfg : EngineCfg) (e : JObj) (p sh f pw : String)
    (hp : p ≠ "") (hsh : sh ≠ "") (hf : f ≠ "")
    (hs : shipTargetedShape e p sh f pw) (s : GameState) :
    (processState cfg e s).combat_contacts =
      alSet s.combat_contacts (contactKey p sh f) (contactRow e) := by
  have h1 := hs.1
  have h2 := hs.2.1
  simp only [processState, processRun, processM, h1, h2]
  simp only [bind_run, pure_run, getGS_run, modGS_run]
  simp [pyEq_str_str, bind_run, pure_run, modGS_run, h2,
    branchShipTargeted_run cfg e p sh f pw hp hsh hf hs]
  cases hE : (stgtSt e p sh f pw
      { gs := { s with last_event := .str "ShipTargeted" }, msgs := [] }).2 with
  | true =>
      simp [hE, pure_run, stgtSt_contacts]
  | false =>
      simp [hE, pure_run, chain_contacts_shipTargeted, stgtSt_contacts]

theorem alSet_any_self {α β : Type} [BEq α] [LawfulBEq α]
    (d : List (α × β)) (k : α) (v : β) :
    (alSet d k v).any (fun q => q.1 == k) = true := by
  induction d with
  | nil => simp [alSet]
  | cons q rest ih =>
      by_cases hq : (q.1 == k) = true
      · simp [alSet, hq]
      · simp [alSet, hq, ih]

theorem alSet_filter_length {α β : Type} [BEq α] [LawfulBEq α]
    (d : List (α × β)) (k : α) (v : β) :
    ((alSet d k v).filter (fun q => q.1 == k)).length =
      (if d.any (fun q => q.1 == k) then
        (d.filter (fun q => q.1 == k)).length
      else (d.filter (fun q => q.1 == k)).length + 1) := by
  induction d with
  | nil => simp [alSet]
  | cons q rest ih =>
      by_cases hq : (q.1 == k) = true
      · simp [alSet, hq, List.filter_cons]
      · by_cases ha : rest.any (fun q => q.1 == k) = true <;>
          simp [alSet, hq, ha, List.filter_cons, ih]

theorem any_false_filter_nil {α : Type} (d : List α) (p : α → Bool)
    (h : d.any p = false) : d.filter p = [] := by
  induction d with
  | nil => rfl
  | cons x rest ih =>
      simp only [List.any_cons, Bool.or_eq_false_iff] at h
      simp [List.filter_cons, h.1, ih h.2]

theorem any_true_filter_pos {α : Type} (d : List α) (p : α → Bool)
    (h : d.any p = true) : 0 < (d.filter p).length := by
  induction d with
  | nil => simp at h
  | cons x rest ih =>
      by_cases hx : p x = true
      · simp [List.filter_cons, hx]
      · simp only [List.any_cons, hx, Bool.false_or] at h
        simp [List.filter_cons, hx, ih h]

/-- C10: two final-stage ShipTargeted events carrying the same
(pilot, ship, faction) triple but different Power values update a single
Combat Contact row keyed by that triple: after processing both, the
contacts table holds exactly one row for the triple, and its Power field
comes from the later event. -/
theorem C10_contact_dedupe (cfg : EngineCfg) (e1 e2 : JObj)
    (p sh f pw1 pw2 : String)
    (hp : p ≠ "") (hsh : sh ≠ "") (hf : f ≠ "") (hpw : pw1 ≠ pw2)
    (hs1 : shipTargetedShape e1 p sh f pw1)
    (hs2 : shipTargetedShape e2 p sh f pw2)
    (s : GameState)
    (hcount : (s.combat_contacts.filter
        (fun q => q.1 == contactKey p sh f)).length ≤ 1) :
    ((processState cfg e2 (processState cfg e1 s)).combat_contacts.filter
        (fun q => q.1 == contactKey p sh f)).length = 1 ∧
    (alGet? (processState cfg e2 (processState cfg e1 s)).combat_contacts
        (contactKey p sh f)).map (fun r => jget r "Power") = some (.str pw2) := by
  have hc1 := shipTargeted_contacts cfg e1 p sh f pw1 hp hsh hf hs1 s
  have hc2 := shipTargeted_contacts cfg e2 p sh f pw2 hp hsh hf hs2
    (processState cfg e1 s)
  rw [hc2, hc1]
  constructor
  · rw [alSet_filter_length, alSet_any_self, if_pos rfl, alSet_filter_length]
    by_cases ha : s.combat_contacts.any
        (fun q => q.1 == contactKey p sh f) = true
    · rw [if_pos ha]
      have hpos := any_true_filter_pos _ _ ha
      omega
    · rw [if_neg ha]
      have hnil := any_false_filter_nil s.combat_contacts _
        (Bool.eq_false_iff.mpr ha)
      simp [hnil]
  · rw [alGet?_alSet_self]
    have h8 := hs2.2.2.2.2.2.2.2
    simp only [contactRow, h8]
    simp [jget, jgetD, alGet?]

/-- C10 witness: the dedupe theorem at two concrete events sharing the
triple (Bob, anaconda, Reds) with powers A then B, from the fresh state. -/
theorem C10_contact_dedupe_witness :
    ((processState cfg0 (evTargeted "B")
        (processState cfg0 (evTargeted "A") initGameState)).combat_contacts.filter
        (fun q => q.1 == contactKey "Bob" "anaconda" "Reds")).length = 1 ∧
    (alGet? (processState cfg0 (evTargeted "B")
        (processState cfg0 (evTargeted "A") initGameState)).combat_contacts
        (contactKey "Bob" "anaconda" "Reds")).map (fun r => jget r "Power")
      = some (.str "B") :=
  C10_contact_dedupe cfg0 (evTargeted "A") (evTargeted "B")
    "Bob" "anaconda" "Reds" "A" "B"
    (by decide) (by decide) (by decide) (by decide)
    ⟨rfl, rfl, rfl, rfl, rfl, rfl, rfl, rfl⟩
    ⟨rfl, rfl, rfl, rfl, rfl, rfl, rfl, rfl⟩
    initGameState (by decide)

theorem branchFSS_run (cfg : EngineCfg) (e : JObj) (st : EngSt) :
    branchFSSSignalDiscovered cfg e st =
      ({ st with gs := { st.gs with
          system_signals := fssSigs e st.gs.system_signals } }, .ok false) := rfl

set_option maxHeartbeats 1000000 in
theorem chain_fss_sigs (cfg : EngineCfg) (e : JObj) (st : EngSt)
    (hT : isStrJ (jget e "SignalType") = true) :
    (runHandlerChain
      [ inventoryHandle cfg (.str "FSSSignalDiscovered") e
      , explorationHandle cfg (.str "FSSSignalDiscovered") e
      , exobioHandle cfg (.str "FSSSignalDiscovered") e
      , powerplayHandle cfg (.str "FSSSignalDiscovered") e
      , miscHandle cfg (.str "FSSSignalDiscovered") e ] st).1.gs.system_signals =
      st.gs.system_signals ++ [.str (fssHandlerCls e)] := by
  simp [runHandlerChain, inventoryHandle, explorationHandle, fssHandlerCls,
    pyEq_str_str, hT, bind_run, pure_run, getGS_run, modGS_run]

theorem fssSigs_length_cap (e : JObj) (sigs : List JVal)
    (h : sigs.length = maxSigs) :
    (fssSigs e sigs).length = maxSigs := by
  cases hF : findSigIdx sigs (fssKey e) with
  | none => simp [fssSigs, hF, h]
  | some i => simp [fssSigs, hF, h]

/-- C5: the bounded-signal cap is violated: from a state already holding
exactly the cap (200) of signal entries, one more FSSSignalDiscovered
event with a string SignalType leaves 201 entries, because the
exploration handler appends its classification after the inline branch
already truncated the list to the cap. -/
theorem C5_signal_cap_exceeded (cfg : EngineCfg) (e : JObj) (g : GameState)
    (h1 : jget e "event" = .str "FSSSignalDiscovered")
    (h2 : isIntJ (jget e "Credits") = false)
    (h3 : isStrJ (jget e "SignalType") = true)
    (hlen : g.system_signals.length = maxSigs) :
    (processState cfg e g).system_signals.length = maxSigs + 1 := by
  simp only [processState, processRun, processM, h1, h2]
  simp [pyEq_str_str, bind_run, pure_run, getGS_run, modGS_run, h2,
    branchFSS_run]
  rw [chain_fss_sigs cfg e _ h3]
  simp [fssSigs_length_cap e _ hlen]

/-- C5 witness: the cap violation at a concrete state holding the cap of
entries and a concrete USS discovery event. -/
theorem C5_signal_cap_exceeded_witness :
    (processState cfg0 ev5 g200).system_signals.length = maxSigs + 1 :=
  C5_signal_cap_exceeded cfg0 ev5 g200 rfl rfl rfl (by simp [g200])

theorem isObjJ_exists (v : JVal) (h : isObjJ v = true) : ∃ kvs, v = .obj kvs := by
  cases v <;> simp at h <;> exact ⟨_, rfl⟩

theorem isArrJ_exists (v : JVal) (h : isArrJ v = true) : ∃ xs, v = .arr xs := by
  cases v <;> simp at h <;> exact ⟨_, rfl⟩

theorem jgetD_eq_jget (e : JObj) (k : String) (d : JVal)
    (h : jget e k ≠ .null) : jgetD e k d = jget e k := by
  cases halg : alGet? e k with
  | none =>
      have hnull : jget e k = .null := by
        unfold jget jgetD
        rw [halg]
      exact absurd hnull h
  | some v =>
      unfold jget jgetD
      rw [halg]

theorem expLoc_run (cfg : EngineCfg) (e : JObj) (st : EngSt) :
    explorationHandle cfg (.str "Location") e st =
      ({ gs := expLocGS cfg e st.gs, msgs := st.msgs }, .ok true) := rfl

set_option maxHeartbeats 1000000 in
theorem expFsd_run (cfg : EngineCfg) (e : JObj) (ns : String) (st : EngSt)
    (hSS : jget e "StarSystem" = .str ns) (hns : ns ≠ "")
    (hdiff : pyEq (.str ns) st.gs.system = false) :
    explorationHandle cfg (.str "FSDJump") e st =
      ({ gs := fsdGS cfg e st.gs, msgs := st.msgs }, .ok true) := by
  simp [explorationHandle, fsdGS, hSS, hns, hdiff, pyEq_str_str,
    bind_run, pure_run, getGS_run, modGS_run]

set_option maxHeartbeats 1600000 in
theorem branchLocation_run (cfg : EngineCfg) (e : JObj) (kvs : JObj)
    (pwl pcl : List JVal) (ns : String) (st : EngSt)
    (hcfg : cfg.external_intel = none)
    (hns : ns ≠ "")
    (hSSd : jgetD e "StarSystem" st.gs.system = .str ns)
    (hdiff : pyEq (.str ns) st.gs.system = false)
    (hSF : pyOr (jgetD e "SystemFaction" (.obj [])) (.obj []) = .obj kvs)
    (hPW : pyOr (jget e "Powers") (.arr []) = .arr pwl)
    (hPC : pyOr (jget e "PowerplayConflictProgress") (.arr []) = .arr pcl) :
    branchLocation cfg e st = (locStM cfg e kvs pwl pcl ns st, .ok false) := by
  simp [branchLocation, locStM, hSSd, hdiff, hSF, hPW, hPC, hns, hcfg,
    applyExternalIntel, pyAttrGet, pyIterM, pyEq_str_str,
    bind_run, pure_run, getGS_run, modGS_run, emit_run]

set_option maxHeartbeats 1000000 in
theorem chain_loc_run (cfg : EngineCfg) (e : JObj) (st : EngSt) :
    runHandlerChain
      [ inventoryHandle cfg (.str "Location") e
      , explorationHandle cfg (.str "Location") e
      , exobioHandle cfg (.str "Location") e
      , powerplayHandle cfg (.str "Location") e
      , miscHandle cfg (.str "Location") e ] st =
      ({ gs := expLocGS cfg e st.gs, msgs := st.msgs }, .ok ()) := by
  simp [runHandlerChain, inventoryHandle, pyEq_str_str, pure_run, expLoc_run]

set_option maxHeartbeats 1000000 in
theorem chain_fsd_run (cfg : EngineCfg) (e : JObj) (ns : String) (st : EngSt)
    (hSS : jget e "StarSystem" = .str ns) (hns : ns ≠ "")
    (hdiff : pyEq (.str ns) st.gs.system = false) :
    runHandlerChain
      [ inventoryHandle cfg (.str "FSDJump") e
      , explorationHandle cfg (.str "FSDJump") e
      , exobioHandle cfg (.str "FSDJump") e
      , powerplayHandle cfg (.str "FSDJump") e
      , miscHandle cfg (.str "FSDJump") e ] st =
      ({ gs := fsdGS cfg e st.gs, msgs := st.msgs }, .ok ()) := by
  simp [runHandlerChain, inventoryHandle, pyEq_str_str, pure_run,
    expFsd_run cfg e ns st hSS hns hdiff]

/-- C2 (amended): a Location event without an integer Credits field, or
an FSDJump event, naming a non-empty star system different from the
current one, leaves every per-system collection empty and every
commander-wide inventory and session ledger unchanged (external intel
disabled; the original claim fails when a Location event carries an
integer Credits field, see the counterexample). -/
theorem C2_system_change_clears (cfg : EngineCfg) (e : JObj) (g : GameState)
    (ns : String)
    (hcfg : cfg.external_intel = none) (hns : ns ≠ "")
    (hdiff : pyEq (.str ns) g.system = false)
    (hshape : evLocShape e ns ∨ evFsdShape e ns) :
    perSystemEmpty (processState cfg e g) ∧
    commanderWideEq (processState cfg e g) g := by
  cases hshape with
  | inl h =>
      obtain ⟨h1, h2, hSS, hSF, hPW, hPC⟩ := h
      obtain ⟨kvs, hkvs⟩ := isObjJ_exists _ hSF
      obtain ⟨pwl, hpwl⟩ := isArrJ_exists _ hPW
      obtain ⟨pcl, hpcl⟩ := isArrJ_exists _ hPC
      have hne : jget e "StarSystem" ≠ .null := by
        rw [hSS]
        intro hc
        cases hc
      have hSSg : jgetD e "StarSystem" g.system = .str ns := by
        rw [jgetD_eq_jget e "StarSystem" g.system hne, hSS]
      simp only [processState, processRun, processM, h1, h2]
      simp only [bind_run, pure_run, getGS_run, modGS_run]
      have hbr := branchLocation_run cfg e kvs pwl pcl ns
        ⟨{ g with last_event := .str "Location" }, []⟩
        hcfg hns hSSg hdiff hkvs hpwl hpcl
      simp [pyEq_str_str, bind_run, pure_run, hbr, chain_loc_run]
      simp [expLocGS, locStM, clearPerSystem, applyExternalIntel, hcfg,
        perSystemEmpty, commanderWideEq]
  | inr h =>
      obtain ⟨h1, h2, hSS⟩ := h
      simp only [processState, processRun, processM, h1, h2]
      simp only [bind_run, pure_run, getGS_run, modGS_run]
      simp [pyEq_str_str, bind_run, pure_run,
        chain_fsd_run cfg e ns ⟨{ g with last_event := .str "FSDJump" }, []⟩
          hSS hns hdiff]
      simp [fsdGS, applyExternalIntel, hcfg, perSystemEmpty, commanderWideEq]

/-- C2 counterexample: a Location event into a different system that
also carries an integer Credits field leaves the stored bodies intact,
because the credits update and the inline Location branch are chained
with elif. -/
theorem C2_location_credits_counterexample :
    jget evLocCred "StarSystem" = .str "Beta" ∧
    gPop.system = .str "Alpha" ∧
    (processState cfg0 evLocCred gPop).bodies = gPop.bodies ∧
    gPop.bodies.length = 1 := ⟨rfl, rfl, rfl, rfl⟩

/-- C2 witness: the amended clearing theorem at a concrete populated
state in Alpha and a plain Location event into Beta. -/
theorem C2_system_change_clears_witness :
    perSystemEmpty (processState cfg0 evLoc2 gPop) ∧
    commanderWideEq (processState cfg0 evLoc2 gPop) gPop :=
  C2_system_change_clears cfg0 evLoc2 gPop "Beta" rfl (by decide) rfl
    (Or.inl ⟨rfl, rfl, rfl, rfl, rfl, rfl⟩)

theorem splitOnPredL_ne_nil (p : Char → Bool) (l : List Char) :
    splitOnPredL p l ≠ [] := by
  cases l with
  | nil => simp [splitOnPredL]
  | cons a as =>
      simp only [splitOnPredL]
      cases splitOnPredL p as with
      | nil => simp
      | cons h t =>
          by_cases hp : p a = true
          · simp [hp]
          · simp [hp]

theorem splitOnPredL_cons_pos (p : Char → Bool) (a : Char) (as : List Char)
    (h : p a = true) :
    splitOnPredL p (a :: as) = [] :: splitOnPredL p as := by
  simp only [splitOnPredL]
  cases hs : splitOnPredL p as with
  | nil => exact absurd hs (splitOnPredL_ne_nil p as)
  | cons x t => simp [h]

theorem splitOnPredL_cons_neg (p : Char → Bool) (a : Char) (as : List Char)
    (x : List Char) (t : List (List Char))
    (h : p a = false) (hs : splitOnPredL p as = x :: t) :
    splitOnPredL p (a :: as) = (a :: x) :: t := by
  simp only [splitOnPredL, hs]
  simp [h]

theorem splitOnPredL_sep_left (p : Char → Bool) (l rest : List Char)
    (hl : ∀ c ∈ l, p c = false) (a : Char) (ha : p a = true) :
    splitOnPredL p (l ++ a :: rest) = l :: splitOnPredL p rest := by
  induction l with
  | nil => simpa using splitOnPredL_cons_pos p a rest ha
  | cons c cs ih =>
      have hc : p c = false := hl c (by simp)
      have ih2 := ih (fun d hd => hl d (by simp [hd]))
      simpa using splitOnPredL_cons_neg p c (cs ++ a :: rest) cs
        (splitOnPredL p rest) hc ih2

theorem splitOnPredL_all_neg (p : Char → Bool) (l : List Char)
    (hl : ∀ c ∈ l, p c = false) :
    splitOnPredL p l = [l] := by
  induction l with
  | nil => rfl
  | cons c cs ih =>
      have hc : p c = false := hl c (by simp)
      have ih2 := ih (fun d hd => hl d (by simp [hd]))
      simpa using splitOnPredL_cons_neg p c cs cs [] hc ih2

theorem str_data_append (s t : String) : (s ++ t).data = s.data ++ t.data := rfl

theorem asString_data (s : String) : s.data.asString = s := by
  cases s
  rfl

theorem splitPipe_three (a b c : String)
    (ha : pipeFree a) (hb : pipeFree b) (hc : pipeFree c) :
    splitPipe (a ++ "|" ++ b ++ "|" ++ c) = [a, b, c] := by
  have hmem : ∀ (s : String), pipeFree s → ∀ ch ∈ s.data, (ch == '|') = false := by
    intro s hs ch hch
    simp only [beq_eq_false_iff_ne]
    intro heq
    exact hs (heq ▸ hch)
  unfold splitPipe splitOnCharL
  rw [show (a ++ "|" ++ b ++ "|" ++ c).data
      = a.data ++ '|' :: (b.data ++ '|' :: c.data) from by
    simp [str_data_append, List.append_assoc]]
  rw [splitOnPredL_sep_left _ _ _ (hmem a ha) '|' rfl]
  rw [splitOnPredL_sep_left _ _ _ (hmem b hb) '|' rfl]
  rw [splitOnPredL_all_neg _ _ (hmem c hc)]
  simp [asString_data]

theorem listPref_count {α : Type} [BEq α] [LawfulBEq α]
    (p s : List α) (h : listPref p s = true) (a : α) :
    p.count a ≤ s.count a := by
  induction p generalizing s with
  | nil => simp
  | cons x xs ih =>
      cases s with
      | nil => simp [listPref] at h
      | cons y ys =>
          simp only [listPref, Bool.and_eq_true, beq_iff_eq] at h
          obtain ⟨hxy, hrest⟩ := h
          subst hxy
          by_cases hax : x == a
          · simp [List.count_cons, hax]
            exact ih ys hrest
          · simp [List.count_cons, hax]
            exact ih ys hrest

theorem count_pipe_key (a b c : String) :
    ((a ++ "|" ++ b ++ "|" ++ c).data.count '|') =
      a.data.count '|' + b.data.count '|' + c.data.count '|' + 2 := by
  simp [str_data_append, List.count_append]
  omega

theorem pipeFree_count (s : String) (h : pipeFree s) : s.data.count '|' = 0 :=
  List.count_eq_zero.mpr h

theorem strStarts_key_pipe_false (K p2 : String)
    (hK : K.data.count '|' = 2) (hp : 3 ≤ p2.data.count '|') :
    strStarts K p2 = false := by
  by_contra hc
  simp only [Bool.not_eq_false] at hc
  have := listPref_count p2.data K.data hc '|'
  omega

theorem alGet?_mem {α β : Type} [BEq α] [LawfulBEq α]
    (d : List (α × β)) (k : α) (v : β) (h : alGet? d k = some v) : (k, v) ∈ d := by
  induction d with
  | nil => simp [alGet?] at h
  | cons p rest ih =>
      by_cases hp : (p.1 == k) = true
      · simp only [alGet?, hp, if_true, Option.some.injEq] at h
        have : p.1 = k := by simpa using hp
        subst this
        subst h
        simp
      · simp only [alGet?, hp, if_false] at h
        simp [ih h]

theorem alSet_self {α β : Type} [BEq α] [LawfulBEq α]
    (d : List (α × β)) (k : α) (v : β) (h : alGet? d k = some v) :
    alSet d k v = d := by
  induction d with
  | nil => simp [alGet?] at h
  | cons p rest ih =>
      by_cases hp : (p.1 == k) = true
      · simp only [alGet?, hp, if_true, Option.some.injEq] at h
        have hk : p.1 = k := by simpa using hp
        simp [alSet, hp, ← hk, ← h]
      · simp only [alGet?, hp, if_false] at h
        simp [alSet, hp, ih h]

theorem samplesOf_bounds (r : JObj) (h : samplesOK r) :
    0 ≤ samplesOf r ∧ samplesOf r ≤ 3 := by
  unfold samplesOK at h
  unfold samplesOf
  cases hv : jget r "Samples" with
  | int n => rw [hv] at h; exact h
  | null => simp
  | bool b => rw [hv] at h; exact absurd h not_false
  | str s => rw [hv] at h; exact absurd h not_false
  | arr xs => rw [hv] at h; exact absurd h not_false
  | obj kvs => rw [hv] at h; exact absurd h not_false

theorem samplesOK_norm (r : JObj) (h : samplesOK r) :
    pyOr (jgetD r "Samples" (.int 0)) (.int 0) = .int (samplesOf r) := by
  unfold samplesOK at h
  unfold samplesOf jget at *
  cases halg : alGet? r "Samples" with
  | none => simp [jgetD, halg, pyOr]
  | some v =>
      rw [show jgetD r "Samples" JVal.null = v from by simp [jgetD, halg]] at h
      rw [show jgetD r "Samples" (JVal.int 0) = v from by simp [jgetD, halg]]
      rw [show jgetD r "Samples" JVal.null = v from by simp [jgetD, halg]]
      cases v with
      | null => simp [pyOr]
      | int n =>
          by_cases hn : n = 0
          · simp [pyOr, hn]
          · simp [pyOr, hn]
      | bool b => exact absurd h not_false
      | str s => exact absurd h not_false
      | arr xs => exact absurd h not_false
      | obj kvs => exact absurd h not_false

theorem alGet?_codexCleanup (exo : List (String × JObj)) (bidS2 g2 K : String)
    (hK : ((splitPipe K).getD 2 "" == "CODEX") = false) :
    alGet? (codexCleanup exo bidS2 g2) K = alGet? exo K := by
  unfold codexCleanup
  generalize (exo.map Prod.fst) = ks
  induction ks generalizing exo with
  | nil => rfl
  | cons k kt ih =>
      simp only [List.foldl_cons]
      rw [ih]
      by_cases hkK : k = K
      · subst hkK
        simp only [hK, Bool.and_false, Bool.false_eq_true, if_false]
        split
        · rfl
        · rfl
      · split
        · rfl
        · split
          · split
            · exact alGet?_alPop_ne exo k K (Ne.symm hkK)
            · rfl
          · rfl

theorem alGet?_mergeFold (key2 : String) (ks : List String) (K : String)
    (hK : strStarts K (key2 ++ "|") = false) (acc : JObj × List (String × JObj)) :
    alGet? (ks.foldl (legacyMergeStep key2) acc).2 K = alGet? acc.2 K := by
  induction ks generalizing acc with
  | nil => rfl
  | cons k kt ih =>
      simp only [List.foldl_cons]
      rw [ih]
      by_cases hkK : k = K
      · subst hkK
        simp [legacyMergeStep, hK]
      · unfold legacyMergeStep
        split
        · rfl
        · cases halg : alGet? acc.2 k with
          | some old => simp [halg, alGet?_alPop_ne acc.2 k K (Ne.symm hkK)]
          | none => simp [halg, alGet?_alPop_ne acc.2 k K (Ne.symm hkK)]

theorem samplesOf_of_jget (r : JObj) (n : Int)
    (h : jget r "Samples" = .int n) : samplesOf r = n := by
  unfold samplesOf
  rw [h]

theorem samples_fld_fold (old r : JObj) :
    jget (["Variant", "BaseValue", "PotentialValue", "LastScanType"].foldl
      (fun r2 fld =>
        if isNoneEmpty0 (jget r2 fld) && !isNoneEmpty0 (jget old fld) then
          alSet r2 fld (jget old fld)
        else r2) r) "Samples" = jget r "Samples" := by
  have hstep : ∀ (r2 : JObj) (fld : String) (v : JVal), fld ≠ "Samples" →
      jget (if isNoneEmpty0 (jget r2 fld) && !isNoneEmpty0 (jget old fld) then
        alSet r2 fld v else r2) "Samples" = jget r2 "Samples" := by
    intro r2 fld v hne
    split
    · exact jget_alSet_ne r2 fld "Samples" v (Ne.symm hne)
    · rfl
  simp only [List.foldl_cons, List.foldl_nil]
  rw [hstep _ "LastScanType" _ (by decide), hstep _ "PotentialValue" _ (by decide),
    hstep _ "BaseValue" _ (by decide), hstep _ "Variant" _ (by decide)]

theorem codexCleanup_sub (exo : List (String × JObj)) (bidS2 g2 : String)
    (p : String × JObj) (h : p ∈ codexCleanup exo bidS2 g2) : p ∈ exo := by
  unfold codexCleanup at h
  generalize hks : (exo.map Prod.fst) = ks at h
  clear hks
  induction ks generalizing exo with
  | nil => exact h
  | cons k kt ih =>
      simp only [List.foldl_cons] at h
      have h2 := ih _ h
      by_cases hc : p ∈ exo
      · exact hc
      · revert h2
        split
        · exact fun h2 => h2
        · split
          · split
            · exact fun h2 => mem_alPop _ _ _ h2
            · exact fun h2 => h2
          · exact fun h2 => h2

theorem merge_snd_sub (key2 : String) (ks : List String)
    (acc : JObj × List (String × JObj)) (p : String × JObj)
    (h : p ∈ (ks.foldl (legacyMergeStep key2) acc).2) : p ∈ acc.2 := by
  induction ks generalizing acc with
  | nil => exact h
  | cons k kt ih =>
      simp only [List.foldl_cons] at h
      have h2 := ih _ h
      revert h2
      unfold legacyMergeStep
      split
      · exact fun h2 => h2
      · cases halg : alGet? acc.2 k with
        | none => simp only [halg]; exact fun h2 => mem_alPop _ _ _ h2
        | some old => simp only [halg]; exact fun h2 => mem_alPop _ _ _ h2

set_option maxHeartbeats 1000000 in
theorem merge_fst (key2 : String) (ks : List String)
    (acc : JObj × List (String × JObj))
    (h1 : samplesOK acc.1) (h2 : ∀ p ∈ acc.2, samplesOK p.2) :
    samplesOK (ks.foldl (legacyMergeStep key2) acc).1 ∧
    samplesOf acc.1 ≤ samplesOf (ks.foldl (legacyMergeStep key2) acc).1 := by
  induction ks generalizing acc with
  | nil => exact ⟨h1, le_refl _⟩
  | cons k kt ih =>
      simp only [List.foldl_cons]
      have hstep : samplesOK (legacyMergeStep key2 acc k).1 ∧
          samplesOf acc.1 ≤ samplesOf (legacyMergeStep key2 acc k).1 ∧
          (∀ p ∈ (legacyMergeStep key2 acc k).2, samplesOK p.2) := by
        unfold legacyMergeStep
        split
        · exact ⟨h1, le_refl _, h2⟩
        · cases halg : alGet? acc.2 k with
          | none =>
              simp only [halg]
              exact ⟨h1, le_refl _, fun p hp => h2 p (mem_alPop _ _ _ hp)⟩
          | some old =>
              have hold : samplesOK old := h2 (k, old) (alGet?_mem _ _ _ halg)
              have hb1 := samplesOf_bounds acc.1 h1
              have hb2 := samplesOf_bounds old hold
              simp only [halg, samplesOK_norm acc.1 h1, samplesOK_norm old hold,
                pyToInt_int]
              have hrec : jget
                  (["Variant", "BaseValue", "PotentialValue", "LastScanType"].foldl
                    (fun r2 fld =>
                      if isNoneEmpty0 (jget r2 fld) && !isNoneEmpty0 (jget old fld) then
                        alSet r2 fld (jget old fld)
                      else r2)
                    (alSet (alSet acc.1 "Samples"
                        (.int (max (samplesOf acc.1) (samplesOf old))))
                      "Complete"
                      (.bool (truthy (jget (alSet acc.1 "Samples"
                          (.int (max (samplesOf acc.1) (samplesOf old)))) "Complete")
                        || truthy (jget old "Complete"))))) "Samples"
                  = .int (max (samplesOf acc.1) (samplesOf old)) := by
                rw [samples_fld_fold]
                rw [jget_alSet_ne _ "Complete" "Samples" _ (by decide)]
                rw [jget_alSet_self]
              refine ⟨?_, ?_, fun p hp => h2 p (mem_alPop _ _ _ hp)⟩
              · unfold samplesOK
                rw [hrec]
                constructor
                · omega
                · omega
              · rw [samplesOf_of_jget _ _ hrec]
                omega
      have hrest := ih _ hstep.1 hstep.2.2
      exact ⟨hrest.1, le_trans hstep.2.1 hrest.2⟩

theorem samplesAt_eq (g : GameState) (k : String) :
    samplesAt g k = samplesAtL g.exo k := rfl

theorem scanProgress_ge (stv : String) (p0 : Int) (h3 : p0 ≤ 3) :
    p0 ≤ scanProgress stv p0 := by
  simp only [scanProgress]
  repeat' split
  all_goals omega

theorem scanProgress_bounds (stv : String) (p0 : Int)
    (h : 0 ≤ p0 ∧ p0 ≤ 3) :
    0 ≤ scanProgress stv p0 ∧ scanProgress stv p0 ≤ 3 := by
  simp only [scanProgress]
  repeat' split
  all_goals omega

theorem samplesOK_of_jget (r m : JObj)
    (h : jget r "Samples" = jget m "Samples") (hm : samplesOK m) :
    samplesOK r := by
  unfold samplesOK at hm ⊢
  rw [h]
  exact hm

theorem scanRec2_samples (cfg : EngineCfg) (e : JObj) (stv : String)
    (exo : List (String × JObj)) :
    jget (scanRec2 cfg e stv exo) "Samples" =
      jget (scanMerged e exo).1 "Samples" := by
  unfold scanRec2
  have hbase : jget (objUpdate (scanMerged e exo).1
      [ ("BodyID", jget e "Body")
      , ("Genus", .str (scanGenus e))
      , ("Species", .str (scanSpecies e))
      , ("Variant", if scanVariant e != "" then .str (scanVariant e)
                    else pyOr (jget (scanMerged e exo).1 "Variant") (.str ""))
      , ("LastScanType", .str (pyStrip stv)) ]) "Samples" =
      jget (scanMerged e exo).1 "Samples" := by
    simp only [objUpdate, List.foldl_cons, List.foldl_nil]
    rw [jget_alSet_ne _ "LastScanType" _ _ (by decide),
      jget_alSet_ne _ "Variant" _ _ (by decide),
      jget_alSet_ne _ "Species" _ _ (by decide),
      jget_alSet_ne _ "Genus" _ _ (by decide),
      jget_alSet_ne _ "BodyID" _ _ (by decide)]
  cases cfg.exo_values with
  | none => exact hbase
  | some t =>
      simp only []
      cases pyOrOptInt (t.getValue (scanVariant e)) (t.getValue (scanSpecies e)) with
      | none => exact hbase
      | some v =>
          rw [jget_alSet_ne _ "BaseValue" _ _ (by decide)]
          exact hbase

theorem samplesOK_nil : samplesOK ([] : JObj) := by
  unfold samplesOK
  simp [jget, jgetD, alGet?]

theorem scanRec2_props (cfg : EngineCfg) (e : JObj) (stv : String)
    (exo : List (String × JObj))
    (hwf : ∀ p ∈ exo, samplesOK p.2)
    (hKsplit : ((splitPipe (scanKey e)).getD 2 "" == "CODEX") = false) :
    samplesOK (scanRec2 cfg e stv exo) ∧
    samplesAtL exo (scanKey e) ≤ samplesOf (scanRec2 cfg e stv exo) := by
  have hclean : alGet? (scanExo1 e exo) (scanKey e) = alGet? exo (scanKey e) :=
    alGet?_codexCleanup exo _ _ _ hKsplit
  have hwf1 : ∀ p ∈ scanExo1 e exo, samplesOK p.2 :=
    fun p hp => hwf p (codexCleanup_sub _ _ _ p hp)
  have hrec0 : samplesOK ((alGet? (scanExo1 e exo) (scanKey e)).getD []) ∧
      samplesOf ((alGet? (scanExo1 e exo) (scanKey e)).getD []) =
        samplesAtL exo (scanKey e) := by
    rw [hclean]
    unfold samplesAtL
    cases halg : alGet? exo (scanKey e) with
    | none => exact ⟨samplesOK_nil, rfl⟩
    | some r =>
        exact ⟨hwf (scanKey e, r) (alGet?_mem _ _ _ halg), rfl⟩
  have hm := merge_fst (scanKey e) ((scanExo1 e exo).map Prod.fst)
    ((alGet? (scanExo1 e exo) (scanKey e)).getD [], scanExo1 e exo)
    hrec0.1 hwf1
  have hs2 := scanRec2_samples cfg e stv exo
  constructor
  · exact samplesOK_of_jget _ _ hs2 hm.1
  · have : samplesOf (scanRec2 cfg e stv exo) = samplesOf (scanMerged e exo).1 := by
      unfold samplesOf
      rw [hs2]
    rw [this]
    calc samplesAtL exo (scanKey e)
        = samplesOf ((alGet? (scanExo1 e exo) (scanKey e)).getD []) := hrec0.2.symm
      _ ≤ samplesOf (scanMerged e exo).1 := hm.2

theorem scanRec4_samples (cfg : EngineCfg) (e : JObj) (stv : String)
    (exo : List (String × JObj)) (p0 : Int) :
    jget (scanRec4 cfg e stv exo p0) "Samples" = .int (scanProgress stv p0) := by
  unfold scanRec4
  rw [jget_alSet_ne _ "Complete" _ _ (by decide), jget_alSet_self]

theorem scanRec4_complete (cfg : EngineCfg) (e : JObj) (stv : String)
    (exo : List (String × JObj)) (p0 : Int) :
    jget (scanRec4 cfg e stv exo p0) "Complete" =
      .bool (scanProgress stv p0 ≥ 3 || pyLower (pyStrip stv) == "analyse") := by
  unfold scanRec4
  rw [jget_alSet_self]

theorem samplesAtL_scanExoF_self (cfg : EngineCfg) (e : JObj) (stv : String)
    (exo : List (String × JObj)) (p0 : Int) :
    samplesAtL (scanExoF cfg e stv exo p0) (scanKey e) = scanProgress stv p0 := by
  unfold samplesAtL scanExoF
  rw [alGet?_alSet_self]
  exact samplesOf_of_jget _ _ (scanRec4_samples cfg e stv exo p0)

theorem alGet?_scanExoF_ne (cfg : EngineCfg) (e : JObj) (stv : String)
    (exo : List (String × JObj)) (p0 : Int) (K : String)
    (hne : K ≠ scanKey e)
    (hKs : strStarts K (scanKey e ++ "|") = false)
    (hKsplit : ((splitPipe K).getD 2 "" == "CODEX") = false) :
    alGet? (scanExoF cfg e stv exo p0) K = alGet? exo K := by
  unfold scanExoF
  rw [alGet?_alSet_ne _ _ _ _ hne]
  unfold scanMerged
  rw [alGet?_mergeFold (scanKey e) _ K hKs]
  exact alGet?_codexCleanup exo _ _ _ hKsplit

theorem scanExoF_wf (cfg : EngineCfg) (e : JObj) (stv : String)
    (exo : List (String × JObj)) (p0 : Int)
    (hwf : ∀ p ∈ exo, samplesOK p.2) (hb : 0 ≤ p0 ∧ p0 ≤ 3) :
    ∀ p ∈ scanExoF cfg e stv exo p0, samplesOK p.2 := by
  intro p hp
  rcases mem_alSet _ _ _ _ hp with heq | hmem
  · subst heq
    unfold samplesOK
    rw [scanRec4_samples]
    exact scanProgress_bounds stv p0 hb
  · exact hwf p (codexCleanup_sub _ _ _ p (merge_snd_sub _ _ _ p hmem))

set_option maxHeartbeats 1600000 in
theorem branchScanOrganic_run (cfg : EngineCfg) (e : JObj) (stv : String)
    (nv : Int) (st : EngSt)
    (hstr : pyOr (jget e "ScanType") (.str "") = .str stv)
    (hbody : isIntJ (jget e "Body") = true)
    (hpi : pyOr (jgetD (scanRec2 cfg e stv st.gs.exo) "Samples" (.int 0)) (.int 0)
      = .int nv) :
    branchScanOrganic cfg e st =
      ({ st with gs := { st.gs with
          exo := scanExoF cfg e stv st.gs.exo nv } }, .ok false) := by
  simp [scanRec2, scanMerged, scanExo1, scanKey, scanGenus, scanSpecies,
    scanVariant, hstr, hbody] at hpi
  simp [branchScanOrganic, scanExoF, scanRec4, scanRec2, scanMerged, scanExo1,
    scanKey, scanGenus, scanSpecies, scanVariant, scanProgress, hstr, hbody,
    hpi, pyStripM, pyIntM, bind_run, pure_run, getGS_run, modGS_run]

theorem isStrJ_exists (v : JVal) (h : isStrJ v = true) : ∃ s, v = .str s := by
  cases v <;> simp at h <;> exact ⟨_, rfl⟩

set_option maxHeartbeats 1600000 in
theorem exobioScan_run (cfg : EngineCfg) (e : JObj) (st : EngSt) :
    exobioHandle cfg (.str "ScanOrganic") e st = (exobioScanSt e st, .ok true) := by
  cases h1 : isStrJ (jget e "BodyName") <;>
    cases h2 : isStrJ (jget e "Genus") <;>
    cases h3 : isStrJ (jget e "Species") <;>
    by_cases h4 : pyStrip (pyStr (jget e "BodyName")) = "" <;>
    by_cases h5 : pyStrip (pyStr (jget e "Genus")) = "" <;>
    by_cases h6 : pyStrip (pyStr (jget e "Species")) = "" <;>
    cases hcv : cfg.exo_values <;>
    simp [exobioHandle, exobioScanSt, pyEq_str_str, h1, h2, h3, h4, h5, h6,
      hcv, pyTry, pyRaise, bind_run, pure_run, getGS_run, modGS_run, emit_run]

set_option maxHeartbeats 1000000 in
theorem chain_scanOrganic_run (cfg : EngineCfg) (e : JObj) (st : EngSt) :
    runHandlerChain
      [ inventoryHandle cfg (.str "ScanOrganic") e
      , explorationHandle cfg (.str "ScanOrganic") e
      , exobioHandle cfg (.str "ScanOrganic") e
      , powerplayHandle cfg (.str "ScanOrganic") e
      , miscHandle cfg (.str "ScanOrganic") e ] st =
      (exobioScanSt e st, .ok ()) := by
  simp [runHandlerChain, inventoryHandle, explorationHandle, pyEq_str_str,
    pure_run, exobioScan_run]

theorem exobioScanSt_exo (e : JObj) (st : EngSt) :
    (exobioScanSt e st).gs.exo = st.gs.exo := by
  simp only [exobioScanSt]
  repeat' split
  all_goals rfl

theorem branchScanOrganic_skip (cfg : EngineCfg) (e : JObj) (stv : String)
    (st : EngSt)
    (hstr : pyOr (jget e "ScanType") (.str "") = .str stv)
    (hbody : isIntJ (jget e "Body") = false) :
    branchScanOrganic cfg e st = (st, .ok true) := by
  simp [branchScanOrganic, hstr, hbody, pyStripM, bind_run, pure_run]

theorem branchScanOrganic_raise (cfg : EngineCfg) (e : JObj) (st : EngSt)
    (hstr : isStrJ (pyOr (jget e "ScanType") (.str "")) = false) :
    branchScanOrganic cfg e st = (st, .error "AttributeError: strip") := by
  cases hv : pyOr (jget e "ScanType") (.str "") with
  | str s => rw [hv] at hstr; simp at hstr
  | null => simp [branchScanOrganic, hv, pyStripM, pyRaise, bind_run]
  | bool b => simp [branchScanOrganic, hv, pyStripM, pyRaise, bind_run]
  | int n => simp [branchScanOrganic, hv, pyStripM, pyRaise, bind_run]
  | arr xs => simp [branchScanOrganic, hv, pyStripM, pyRaise, bind_run]
  | obj kvs => simp [branchScanOrganic, hv, pyStripM, pyRaise, bind_run]

theorem scanRec2_ok (cfg : EngineCfg) (e : JObj) (stv : String)
    (exo : List (String × JObj))
    (hwf : ∀ p ∈ exo, samplesOK p.2) :
    samplesOK (scanRec2 cfg e stv exo) := by
  have hwf1 : ∀ p ∈ scanExo1 e exo, samplesOK p.2 :=
    fun p hp => hwf p (codexCleanup_sub _ _ _ p hp)
  have hrec0 : samplesOK ((alGet? (scanExo1 e exo) (scanKey e)).getD []) := by
    cases halg : alGet? (scanExo1 e exo) (scanKey e) with
    | none => exact samplesOK_nil
    | some r => exact hwf1 (scanKey e, r) (alGet?_mem _ _ _ halg)
  have hm := merge_fst (scanKey e) ((scanExo1 e exo).map Prod.fst)
    ((alGet? (scanExo1 e exo) (scanKey e)).getD [], scanExo1 e exo)
    hrec0 hwf1
  exact samplesOK_of_jget _ _ (scanRec2_samples cfg e stv exo) hm.1

theorem scanKey_pipe_high (e2 : JObj) (K : String) (hK2 : K.data.count '|' = 2) :
    strStarts K (scanKey e2 ++ "|") = false := by
  apply strStarts_key_pipe_false K _ hK2
  rw [str_data_append, List.count_append]
  unfold scanKey
  rw [count_pipe_key]
  have h1 : ("|" : String).data.count '|' = 1 := by decide
  omega

set_option maxHeartbeats 1600000 in
theorem scanOrganic_step (cfg : EngineCfg) (e : JObj) (g : GameState) (K : String)
    (hn : jget e "event" = .str "ScanOrganic")
    (hwf : samplesWF g)
    (hK2 : K.data.count '|' = 2)
    (hKsplit : ((splitPipe K).getD 2 "" == "CODEX") = false) :
    samplesAt g K ≤ samplesAt (processState cfg e g) K ∧
    samplesWF (processState cfg e g) := by
  by_cases hcred : isIntJ (jget e "Credits") = true
  · simp only [processState, processRun, processM, hn]
    simp [hcred, pyEq_str_str, bind_run, pure_run, getGS_run, modGS_run,
      chain_scanOrganic_run]
    constructor
    · simp [samplesAt_eq, exobioScanSt_exo]
    · intro p hp
      rw [exobioScanSt_exo] at hp
      exact hwf p hp
  · by_cases hstrq : isStrJ (pyOr (jget e "ScanType") (.str "")) = true
    · obtain ⟨stv, hstv⟩ := isStrJ_exists _ hstrq
      by_cases hbody : isIntJ (jget e "Body") = true
      · have hok := scanRec2_ok cfg e stv g.exo hwf
        have hb := samplesOf_bounds _ hok
        have hpi := samplesOK_norm _ hok
        have hbr := branchScanOrganic_run cfg e stv
          (samplesOf (scanRec2 cfg e stv g.exo))
          ⟨{ g with last_event := .str "ScanOrganic" }, []⟩ hstv hbody hpi
        simp only [processState, processRun, processM, hn]
        simp [hcred, pyEq_str_str, bind_run, pure_run, getGS_run, modGS_run,
          hbr, chain_scanOrganic_run]
        constructor
        · simp only [samplesAt_eq, exobioScanSt_exo]
          by_cases hkey : scanKey e = K
          · rw [← hkey]
            rw [samplesAtL_scanExoF_self]
            have hmono := (scanRec2_props cfg e stv g.exo hwf
              (hkey ▸ hKsplit)).2
            have hge := scanProgress_ge stv
              (samplesOf (scanRec2 cfg e stv g.exo)) hb.2
            exact le_trans hmono hge
          · have hne : K ≠ scanKey e := fun h => hkey h.symm
            unfold samplesAtL
            rw [alGet?_scanExoF_ne cfg e stv g.exo _ K hne
              (scanKey_pipe_high e K hK2) hKsplit]
        · intro p hp
          rw [exobioScanSt_exo] at hp
          exact scanExoF_wf cfg e stv g.exo _ hwf hb p hp
      · have hbody2 : isIntJ (jget e "Body") = false := Bool.eq_false_iff.mpr hbody
        have hbr := branchScanOrganic_skip cfg e stv
          ⟨{ g with last_event := .str "ScanOrganic" }, []⟩ hstv hbody2
        simp only [processState, processRun, processM, hn]
        simp [hcred, pyEq_str_str, bind_run, pure_run, getGS_run, modGS_run, hbr]
        exact ⟨le_refl _, hwf⟩
    · have hs : isStrJ (pyOr (jget e "ScanType") (.str "")) = false :=
        Bool.eq_false_iff.mpr hstrq
      have hbr := branchScanOrganic_raise cfg e
        ⟨{ g with last_event := .str "ScanOrganic" }, []⟩ hs
      simp only [processState, processRun, processM, hn]
      simp [hcred, pyEq_str_str, bind_run, pure_run, getGS_run, modGS_run, hbr]
      exact ⟨le_refl _, hwf⟩

set_option maxHeartbeats 1600000 in
/-- C4: for a fixed exo key (body id, genus, species) with pipe-free
parts and a species other than the CODEX placeholder marker, feeding any
sequence of ScanOrganic events through process never decreases the
stored Samples progress (the 0..3 invariant is preserved), and a
ScanOrganic event of scan type Analyse targeting that key sets the
progress to the completion value 3 and the Complete flag to true
regardless of the prior progress. -/
theorem C4_exo_progress (cfg : EngineCfg) (bid : JVal) (genus species : String)
    (hpb : pipeFree (pyStr bid)) (hpg : pipeFree genus) (hps : pipeFree species)
    (hsp : species ≠ "CODEX") :
    (∀ (g : GameState) (evs : List JObj), samplesWF g →
      (∀ e ∈ evs, jget e "event" = .str "ScanOrganic") →
      samplesAt g (exoKey bid genus species) ≤
        samplesAt (processSeq cfg evs g) (exoKey bid genus species) ∧
      samplesWF (processSeq cfg evs g)) ∧
    (∀ (g : GameState) (e : JObj), samplesWF g →
      jget e "event" = .str "ScanOrganic" →
      isIntJ (jget e "Credits") = false →
      jget e "ScanType" = .str "Analyse" →
      jget e "Body" = bid → isIntJ bid = true →
      scanGenus e = genus → scanSpecies e = species →
      samplesAt (processState cfg e g) (exoKey bid genus species) = 3 ∧
      completeAt (processState cfg e g) (exoKey bid genus species) = .bool true) := by
  have hK2 : (exoKey bid genus species).data.count '|' = 2 := by
    unfold exoKey
    rw [count_pipe_key, pipeFree_count _ hpb, pipeFree_count _ hpg,
      pipeFree_count _ hps]
  have hsplit : splitPipe (exoKey bid genus species) = [pyStr bid, genus, species] :=
    splitPipe_three _ _ _ hpb hpg hps
  have hKsplit : ((splitPipe (exoKey bid genus species)).getD 2 "" == "CODEX") = false := by
    rw [hsplit]
    simp [hsp]
  constructor
  · intro g evs hwf hall
    induction evs generalizing g with
    | nil => exact ⟨le_refl _, hwf⟩
    | cons e rest ih =>
        have h1 := scanOrganic_step cfg e g (exoKey bid genus species)
          (hall e (List.mem_cons_self e rest)) hwf hK2 hKsplit
        have h2 := ih (processState cfg e g) h1.2
          (fun x hx => hall x (List.mem_cons_of_mem _ hx))
        have hfold : processSeq cfg (e :: rest) g =
            processSeq cfg rest (processState cfg e g) := rfl
        rw [hfold]
        exact ⟨le_trans h1.1 h2.1, h2.2⟩
  · intro g e hwf hn hcred hstype hbid hbint hg hs
    have hstv : pyOr (jget e "ScanType") (.str "") = .str "Analyse" := by
      rw [hstype]
      rfl
    have hbody : isIntJ (jget e "Body") = true := by
      rw [hbid]
      exact hbint
    have hkeyK : scanKey e = exoKey bid genus species := by
      unfold scanKey exoKey
      rw [hbid, hg, hs]
    have hok := scanRec2_ok cfg e "Analyse" g.exo hwf
    have hb := samplesOf_bounds _ hok
    have hpi := samplesOK_norm _ hok
    have hbr := branchScanOrganic_run cfg e "Analyse"
      (samplesOf (scanRec2 cfg e "Analyse" g.exo))
      ⟨{ g with last_event := .str "ScanOrganic" }, []⟩ hstv hbody hpi
    simp only [processState, processRun, processM, hn]
    simp [hcred, pyEq_str_str, bind_run, pure_run, getGS_run, modGS_run,
      hbr, chain_scanOrganic_run]
    constructor
    · simp only [samplesAt_eq, exobioScanSt_exo]
      rw [← hkeyK, samplesAtL_scanExoF_self]
      have hlow : pyLower (pyStrip "Analyse") = "analyse" := rfl
      simp only [scanProgress, hlow]
      simp
      omega
    · unfold completeAt
      simp only [exobioScanSt_exo]
      rw [← hkeyK]
      unfold scanExoF
      rw [alGet?_alSet_self]
      change jget (scanRec4 cfg e "Analyse" g.exo
        (samplesOf (scanRec2 cfg e "Analyse" g.exo))) "Complete" = .bool true
      rw [scanRec4_complete]
      have hlow : pyLower (pyStrip "Analyse") = "analyse" := rfl
      simp [hlow]

/-- C4 witness: the monotonicity part over two concrete sample-stage
events from the fresh state, and the Analyse part at a concrete
analyse-stage event. -/
theorem C4_exo_progress_witness :
    (samplesAt initGameState (exoKey (.int 7) "Tussock" "Tussock Catena") ≤
      samplesAt (processSeq cfg0 [evOrgSample, evOrgSample] initGameState)
        (exoKey (.int 7) "Tussock" "Tussock Catena") ∧
      samplesWF (processSeq cfg0 [evOrgSample, evOrgSample] initGameState)) ∧
    (samplesAt (processState cfg0 evOrgAnalyse initGameState)
        (exoKey (.int 7) "Tussock" "Tussock Catena") = 3 ∧
      completeAt (processState cfg0 evOrgAnalyse initGameState)
        (exoKey (.int 7) "Tussock" "Tussock Catena") = .bool true) := by
  have h := C4_exo_progress cfg0 (.int 7) "Tussock" "Tussock Catena"
    (by unfold pipeFree; decide) (by unfold pipeFree; decide)
    (by unfold pipeFree; decide) (by decide)
  constructor
  · exact h.1 initGameState [evOrgSample, evOrgSample]
      (fun p hp => nomatch hp)
      (by
        intro x hx
        simp only [List.mem_cons, List.not_mem_nil, or_false] at hx
        rcases hx with rfl | rfl <;> rfl)
  · exact h.2 initGameState evOrgAnalyse
      (fun p hp => nomatch hp) rfl rfl rfl rfl (by decide) rfl rfl

theorem scanExoF_nil (cfg : EngineCfg) (e : JObj) (stv : String) (p0 : Int) :
    scanExoF cfg e stv [] p0 = [(scanKey e, scanRec4 cfg e stv [] p0)] := rfl

theorem strStarts_self_pipe (s : String) : strStarts s (s ++ "|") = false := by
  by_contra hc
  simp only [Bool.not_eq_false] at hc
  have := listPref_count (s ++ "|").data s.data hc '|'
  rw [str_data_append, List.count_append] at this
  have h1 : ("|" : String).data.count '|' = 1 := by decide
  omega

theorem scanProgress_idem (stv : String) (p0 : Int)
    (hns : pyLower (pyStrip stv) ≠ "sample") :
    scanProgress stv (scanProgress stv p0) = scanProgress stv p0 := by
  have hs : (pyLower (pyStrip stv) == "sample") = false :=
    beq_eq_false_iff_ne.mpr hns
  simp only [scanProgress]
  by_cases h1 : (pyLower (pyStrip stv) == "log") = true <;>
    by_cases h2 : (pyLower (pyStrip stv) == "analyse") = true <;>
    simp [h1, h2, hs] <;> omega

theorem alGet?_of_jget_ne_null (r : JObj) (k : String)
    (h : jget r k ≠ .null) : alGet? r k = some (jget r k) := by
  cases halg : alGet? r k with
  | none =>
      refine absurd ?_ h
      unfold jget jgetD
      rw [halg]
  | some v =>
      unfold jget jgetD
      rw [halg]

theorem codexCleanup_single (K2 : String) (R : JObj) (bidS g2 : String)
    (hcond : ((splitPipe K2).getD 2 "" == "CODEX") = false) :
    codexCleanup [(K2, R)] bidS g2 = [(K2, R)] := by
  unfold codexCleanup
  simp only [List.map, List.foldl_cons, List.foldl_nil]
  split
  · rfl
  · simp only [hcond, Bool.and_false, Bool.false_eq_true, if_false]

theorem mergeStep_self (K2 : String) (acc : JObj × List (String × JObj)) :
    legacyMergeStep K2 acc K2 = acc := by
  unfold legacyMergeStep
  rw [if_pos]
  rw [strStarts_self_pipe]
  rfl

theorem scanMerged_single (e : JObj) (R : JObj)
    (hcond : ((splitPipe (scanKey e)).getD 2 "" == "CODEX") = false) :
    scanMerged e [(scanKey e, R)] = (R, [(scanKey e, R)]) := by
  unfold scanMerged
  rw [scanExo1, codexCleanup_single _ _ _ _ hcond]
  simp only [List.map, List.foldl_cons, List.foldl_nil]
  rw [mergeStep_self]
  simp [alGet?]

set_option maxHeartbeats 1600000 in
theorem scanRec2_single (cfg : EngineCfg) (e : JObj) (stv : String) (p0 : Int)
    (hcond : ((splitPipe (scanKey e)).getD 2 "" == "CODEX") = false) :
    scanRec2 cfg e stv [(scanKey e, scanRec4 cfg e stv [] p0)] =
      scanRec4 cfg e stv [] p0 := by
  unfold scanRec2
  rw [scanMerged_single e _ hcond]
  cases hcv : cfg.exo_values with
  | none =>
      by_cases hv : (scanVariant e != "") = true <;>
        simp [scanRec4, scanRec2, scanMerged, scanExo1, codexCleanup,
          objUpdate, alSet, alGet?, jget, jgetD, pyOr, hv, hcv]
  | some t =>
      cases hvv : pyOrOptInt (t.getValue (scanVariant e))
          (t.getValue (scanSpecies e)) with
      | none =>
          by_cases hv : (scanVariant e != "") = true <;>
            simp [scanRec4, scanRec2, scanMerged, scanExo1, codexCleanup,
              objUpdate, alSet, alGet?, jget, jgetD, pyOr, hv, hcv, hvv]
      | some v =>
          by_cases hv : (scanVariant e != "") = true <;>
            simp [scanRec4, scanRec2, scanMerged, scanExo1, codexCleanup,
              objUpdate, alSet, alGet?, jget, jgetD, pyOr, hv, hcv, hvv]

theorem scanRec4_second (cfg : EngineCfg) (e : JObj) (stv : String) (p0 : Int)
    (hcond : ((splitPipe (scanKey e)).getD 2 "" == "CODEX") = false)
    (hns : pyLower (pyStrip stv) ≠ "sample") :
    scanRec4 cfg e stv [(scanKey e, scanRec4 cfg e stv [] p0)]
      (samplesOf (scanRec2 cfg e stv [(scanKey e, scanRec4 cfg e stv [] p0)])) =
    scanRec4 cfg e stv [] p0 := by
  have hsam : samplesOf (scanRec2 cfg e stv
      [(scanKey e, scanRec4 cfg e stv [] p0)]) = scanProgress stv p0 := by
    rw [scanRec2_single cfg e stv p0 hcond]
    exact samplesOf_of_jget _ _ (scanRec4_samples cfg e stv [] p0)
  rw [hsam]
  rw [scanRec4]
  rw [scanRec2_single cfg e stv p0 hcond]
  rw [scanProgress_idem stv p0 hns]
  have hs1 : alGet? (scanRec4 cfg e stv [] p0) "Samples" =
      some (.int (scanProgress stv p0)) := by
    have h := alGet?_of_jget_ne_null (scanRec4 cfg e stv [] p0) "Samples"
      (by rw [scanRec4_samples]; intro hc; cases hc)
    rw [scanRec4_samples] at h
    exact h
  rw [alSet_self _ _ _ hs1]
  have hs2 : alGet? (scanRec4 cfg e stv [] p0) "Complete" =
      some (.bool (scanProgress stv p0 ≥ 3 || pyLower (pyStrip stv) == "analyse")) := by
    have h := alGet?_of_jget_ne_null (scanRec4 cfg e stv [] p0) "Complete"
      (by rw [scanRec4_complete]; intro hc; cases hc)
    rw [scanRec4_complete] at h
    exact h
  exact alSet_self _ _ _ hs2

theorem scanExoF_second (cfg : EngineCfg) (e : JObj) (stv : String) (p0 : Int)
    (hcond : ((splitPipe (scanKey e)).getD 2 "" == "CODEX") = false)
    (hns : pyLower (pyStrip stv) ≠ "sample") :
    scanExoF cfg e stv [(scanKey e, scanRec4 cfg e stv [] p0)]
      (samplesOf (scanRec2 cfg e stv [(scanKey e, scanRec4 cfg e stv [] p0)])) =
    [(scanKey e, scanRec4 cfg e stv [] p0)] := by
  rw [scanExoF]
  rw [show (scanMerged e [(scanKey e, scanRec4 cfg e stv [] p0)]).2 =
      [(scanKey e, scanRec4 cfg e stv [] p0)] from by
    rw [scanMerged_single e _ hcond]]
  rw [scanRec4_second cfg e stv p0 hcond hns]
  simp [alSet]

set_option maxHeartbeats 1600000 in
theorem processState_scanOrganic_exo (cfg : EngineCfg) (e : JObj) (stv : String)
    (g : GameState)
    (hn : jget e "event" = .str "ScanOrganic")
    (hcred : ¬ isIntJ (jget e "Credits") = true)
    (hstv : pyOr (jget e "ScanType") (.str "") = .str stv)
    (hbody : isIntJ (jget e "Body") = true)
    (hwf : samplesWF g) :
    (processState cfg e g).exo =
      scanExoF cfg e stv g.exo (samplesOf (scanRec2 cfg e stv g.exo)) := by
  have hok := scanRec2_ok cfg e stv g.exo hwf
  have hpi := samplesOK_norm _ hok
  have hbr := branchScanOrganic_run cfg e stv
    (samplesOf (scanRec2 cfg e stv g.exo))
    ⟨{ g with last_event := .str "ScanOrganic" }, []⟩ hstv hbody hpi
  simp only [processState, processRun, processM, hn]
  simp [hcred, pyEq_str_str, bind_run, pure_run, getGS_run, modGS_run,
    hbr, chain_scanOrganic_run, exobioScanSt_exo]

set_option maxHeartbeats 1600000 in
/-- C3 (amended): applying the same ScanOrganic event twice to a fresh
session state leaves the exo record table equal to the single-application
result whenever the scan type is not the sample stage; for every scan
type the table holds exactly one record for the event's key after one
and after two applications (re-application never creates a second
record); and a sample-stage application advances the stored Samples
progress by one toward the cap of 3. -/
theorem C3_scanorganic_idempotent (cfg : EngineCfg) (e : JObj) (stv : String)
    (hshape : scanShape e stv)
    (hpb : pipeFree (pyStr (jget e "Body")))
    (hpg : pipeFree (scanGenus e)) (hps : pipeFree (scanSpecies e))
    (hsp : scanSpecies e ≠ "CODEX") :
    (pyLower (pyStrip stv) ≠ "sample" →
      (processState cfg e (processState cfg e initGameState)).exo =
        (processState cfg e initGameState).exo) ∧
    ((processState cfg e initGameState).exo.filter
        (fun q => q.1 == scanKey e)).length = 1 ∧
    ((processState cfg e (processState cfg e initGameState)).exo.filter
        (fun q => q.1 == scanKey e)).length = 1 ∧
    (pyLower (pyStrip stv) = "sample" →
      samplesAt (processState cfg e initGameState) (scanKey e) =
        min 3 (samplesAt initGameState (scanKey e) + 1) ∧
      samplesAt (processState cfg e (processState cfg e initGameState))
          (scanKey e) =
        min 3 (samplesAt (processState cfg e initGameState) (scanKey e) + 1)) := by
  obtain ⟨hn, hcred, hstv, hbody⟩ := hshape
  have hcred2 : ¬ isIntJ (jget e "Credits") = true := by simp [hcred]
  have hKsplit : ((splitPipe (scanKey e)).getD 2 "" == "CODEX") = false := by
    have hsplit : splitPipe (scanKey e) =
        [pyStr (jget e "Body"), scanGenus e, scanSpecies e] := by
      unfold scanKey
      exact splitPipe_three _ _ _ hpb hpg hps
    rw [hsplit]
    simp [hsp]
  have hwf0 : samplesWF initGameState := fun p hp => nomatch hp
  have h1 := processState_scanOrganic_exo cfg e stv initGameState
    hn hcred2 hstv hbody hwf0
  have h1b : (processState cfg e initGameState).exo =
      scanExoF cfg e stv [] (samplesOf (scanRec2 cfg e stv [])) := h1
  have hnv0 : samplesOf (scanRec2 cfg e stv []) = 0 := by
    unfold samplesOf
    rw [scanRec2_samples]
    rfl
  rw [hnv0] at h1b
  have hexo1 : (processState cfg e initGameState).exo =
      [(scanKey e, scanRec4 cfg e stv [] 0)] := by
    rw [h1b, scanExoF_nil]
  have hwf1 : samplesWF (processState cfg e initGameState) := by
    intro p hp
    rw [h1b] at hp
    exact scanExoF_wf cfg e stv [] 0 (fun p hp => nomatch hp)
      ⟨by omega, by omega⟩ p hp
  have h2 := processState_scanOrganic_exo cfg e stv
    (processState cfg e initGameState) hn hcred2 hstv hbody hwf1
  have h2b := h2
  rw [hexo1] at h2b
  have hnv1 : samplesOf (scanRec2 cfg e stv
      [(scanKey e, scanRec4 cfg e stv [] 0)]) = scanProgress stv 0 := by
    rw [scanRec2_single cfg e stv 0 hKsplit]
    exact samplesOf_of_jget _ _ (scanRec4_samples cfg e stv [] 0)
  have hm2 : (scanMerged e [(scanKey e, scanRec4 cfg e stv [] 0)]).2 =
      [(scanKey e, scanRec4 cfg e stv [] 0)] := by
    rw [scanMerged_single e _ hKsplit]
  refine ⟨?_, ?_, ?_, ?_⟩
  · intro hns
    rw [h2b, hexo1]
    exact scanExoF_second cfg e stv 0 hKsplit hns
  · rw [hexo1]
    simp
  · rw [h2b, hnv1, scanExoF, hm2]
    simp [alSet]
  · intro hsam
    constructor
    · rw [show samplesAt initGameState (scanKey e) = 0 from rfl]
      rw [samplesAt_eq, h1b, samplesAtL_scanExoF_self]
      simp only [scanProgress]
      rw [hsam]
      simp
    · rw [samplesAt_eq, samplesAt_eq, h2b, hnv1, h1b,
        samplesAtL_scanExoF_self, samplesAtL_scanExoF_self]
      simp only [scanProgress]
      rw [hsam]
      simp

set_option maxHeartbeats 1600000 in
/-- C3 counterexample: a sample-stage ScanOrganic event is not
idempotent: the second application advances the stored Samples progress
from 1 to 2, so the states differ. -/
theorem C3_sample_counterexample :
    samplesAt (processState cfg0 evOrgSample initGameState)
      (exoKey (.int 7) "Tussock" "Tussock Catena") = 1 ∧
    samplesAt (processState cfg0 evOrgSample
        (processState cfg0 evOrgSample initGameState))
      (exoKey (.int 7) "Tussock" "Tussock Catena") = 2 ∧
    processState cfg0 evOrgSample (processState cfg0 evOrgSample initGameState) ≠
      processState cfg0 evOrgSample initGameState := by
  refine ⟨rfl, rfl, fun heq => absurd (?_ : (2 : Int) = 1) (by decide)⟩
  calc (2 : Int)
      = samplesAt (processState cfg0 evOrgSample
          (processState cfg0 evOrgSample initGameState))
        (exoKey (.int 7) "Tussock" "Tussock Catena") := rfl
    _ = samplesAt (processState cfg0 evOrgSample initGameState)
        (exoKey (.int 7) "Tussock" "Tussock Catena") := by rw [heq]
    _ = 1 := rfl

/-- C3 witness: the amended statement at a concrete sample-stage event,
exercising the record-count and advance-by-one clauses. -/
theorem C3_scanorganic_idempotent_witness :
    (pyLower (pyStrip "Sample") ≠ "sample" →
      (processState cfg0 evOrgSample
          (processState cfg0 evOrgSample initGameState)).exo =
        (processState cfg0 evOrgSample initGameState).exo) ∧
    ((processState cfg0 evOrgSample initGameState).exo.filter
        (fun q => q.1 == scanKey evOrgSample)).length = 1 ∧
    ((processState cfg0 evOrgSample
        (processState cfg0 evOrgSample initGameState)).exo.filter
        (fun q => q.1 == scanKey evOrgSample)).length = 1 ∧
    (pyLower (pyStrip "Sample") = "sample" →
      samplesAt (processState cfg0 evOrgSample initGameState)
          (scanKey evOrgSample) =
        min 3 (samplesAt initGameState (scanKey evOrgSample) + 1) ∧
      samplesAt (processState cfg0 evOrgSample
          (processState cfg0 evOrgSample initGameState)) (scanKey evOrgSample) =
        min 3 (samplesAt (processState cfg0 evOrgSample initGameState)
          (scanKey evOrgSample) + 1)) :=
  C3_scanorganic_idempotent cfg0 evOrgSample "Sample"
    ⟨rfl, rfl, rfl, rfl⟩
    (by unfold pipeFree; decide) (by unfold pipeFree; decide)
    (by unfold pipeFree; decide) (by decide)
